import Mathlib

/-!
# chan-sccp-b: the PBX call orchestrator (`src/sccp_pbx.c`)

A shallow embedding of the inbound fan-out (`sccp_pbx_call`), the
auto-answer job (`sccp_pbx_call_autoanswer_thread`), the teardown
(`sccp_pbx_hangup`, `sccp_pbx_needcheckringback`), the answer
(`sccp_pbx_answer`), the soft switch (`sccp_pbx_softswitch`, both the branch
compiled when `DDGNEW` is 0 and the one compiled otherwise), the callback of
the digit timer (`sccp_pbx_sched_dial`), the extension helper
(`sccp_pbx_helper`) and the allocation of the backend channel
(`sccp_pbx_channel_allocate`), followed by theorems about them.

Conventions of the embedding

* A C string is a `String` whose characters stand for the bytes of the
  array, so `strlen` is `String.length`.
* Calls into the rest of the driver and into the PBX backend are recorded,
  in program order, as `Event`s of a trace.  Debug and warning log lines
  (`sccp_log`, `pbx_log`) are not recorded.
* Results of functions defined outside `sccp_pbx.c` are read from an `Env`
  of result functions, indexed by the arguments of the call.
* The build modelled is the default one (`CS_EXPERIMENTAL` undefined).
-/

namespace SccpPbx

/-! ## Enumerations named in `sccp_pbx.c` -/

/-- The `SCCP_CHANNELSTATE_*` values that `sccp_pbx.c` names. -/
inductive sccp_channelstate_t
  | DOWN
  | ONHOOK
  | RINGING
  | CALLWAITING
  | CONNECTED
  | DIALING
  | PROCEED
  | INVALIDNUMBER
  | CONGESTION
  deriving DecidableEq, Repr

/-- The `SKINNY_CALLSTATE_*` values that `sccp_pbx.c` names. -/
inductive skinny_callstate_t
  | ONHOOK
  | RINGIN
  | PROCEED
  | INTERCOMONEWAY
  deriving DecidableEq, Repr

/-- The `AST_CONTROL_*` frames that `sccp_pbx.c` queues. -/
inductive ast_control_t
  | AST_CONTROL_RINGING
  | AST_CONTROL_BUSY
  | AST_CONTROL_CONGESTION
  | AST_CONTROL_VIDUPDATE
  deriving DecidableEq, Repr

/-- The `AST_STATE_*` values that `sccp_pbx.c` names. -/
inductive ast_state_t
  | AST_STATE_DOWN
  | AST_STATE_RING
  | AST_STATE_UP
  | AST_STATE_BUSY
  deriving DecidableEq, Repr

/-- The DND modes; `sccp_pbx.c` names `SCCP_DNDMODE_REJECT` only. -/
inductive sccp_dndmode_t
  | SCCP_DNDMODE_OFF
  | SCCP_DNDMODE_REJECT
  | SCCP_DNDMODE_SILENT
  deriving DecidableEq, Repr

/-- The auto-answer modes.  `SCCP_AUTOANSWER_NONE` is the zero value, the
one that `if (c->autoanswer_type)` treats as false. -/
inductive sccp_autoanswer_type_t
  | SCCP_AUTOANSWER_NONE
  | SCCP_AUTOANSWER_1W
  | SCCP_AUTOANSWER_2W
  deriving DecidableEq, Repr

/-- Tones: the two values `sccp_pbx.c` compares against, and any other
tone by its protocol code. -/
inductive skinny_tone_t
  | SKINNY_TONE_SILENCE
  | SKINNY_TONE_NOTONE
  | TONE (code : Nat)
  deriving DecidableEq, Repr

/-- Registration states of a device; `sccp_pbx.c` names `SKINNY_DEVICE_RS_OK`. -/
inductive skinny_registrationstate_t
  | SKINNY_DEVICE_RS_NONE
  | SKINNY_DEVICE_RS_PROGRESS
  | SKINNY_DEVICE_RS_OK
  deriving DecidableEq, Repr

/-- Device states; `sccp_pbx.c` names `SCCP_DEVICESTATE_OFFHOOK`. -/
inductive sccp_devicestate_t
  | SCCP_DEVICESTATE_ONHOOK
  | SCCP_DEVICESTATE_OFFHOOK
  | SCCP_DEVICESTATE_UNAVAILABLE
  deriving DecidableEq, Repr

/-- Call types of a channel (`SKINNY_CALLTYPE_*`). -/
inductive skinny_calltype_t
  | SKINNY_CALLTYPE_OUTBOUND
  | SKINNY_CALLTYPE_INBOUND
  | SKINNY_CALLTYPE_FORWARD
  deriving DecidableEq, Repr

/-- Soft-switch actions of a channel (`SCCP_SS_*`). -/
inductive sccp_ss_action_t
  | SCCP_SS_DIAL
  | SCCP_SS_GETFORWARDEXTEN
  | SCCP_SS_GETPICKUPEXTEN
  | SCCP_SS_GETMEETMEROOM
  | SCCP_SS_GETBARGEEXTEN
  | SCCP_SS_GETCBARGEROOM
  deriving DecidableEq, Repr

/-- Results of the backend's `pbx_pbx_start` (`enum ast_pbx_result`). -/
inductive ast_pbx_result
  | AST_PBX_SUCCESS
  | AST_PBX_FAILED
  | AST_PBX_CALL_LIMIT
  deriving DecidableEq, Repr

/-- The hangup causes that `sccp_pbx_answer` sets. -/
inductive ast_cause_t
  | AST_CAUSE_CALL_REJECTED
  | AST_CAUSE_REQUESTED_CHAN_UNAVAIL
  deriving DecidableEq, Repr

/-! ## Entities -/

/-- The part of a session that `sccp_pbx.c` touches; `sin_addr` is the
address `sin.sin_addr` of the peer. -/
structure sccp_session_t where
  needcheckringback : Nat := 0
  sin_addr : Nat := 0
  deriving DecidableEq, Repr

/-- The `dndFeature` of a device. -/
structure sccp_featureConfiguration_t where
  enabled : Bool := false
  status : sccp_dndmode_t := sccp_dndmode_t.SCCP_DNDMODE_OFF
  deriving DecidableEq, Repr

/-- The `privacyFeature` of a device: `enabled`, and whether the bit
`SCCP_PRIVACYFEATURE_CALLPRESENT` is set in `status`. -/
structure sccp_privacyFeature_t where
  enabled : Bool := false
  status_callpresent : Bool := false
  deriving DecidableEq, Repr

/-- A device (`sccp_device_t`).  `session = none` is the null session
pointer.  `alive` is the reference-count state read by
`sccp_device_retain`.  `active_channel` is the call id of the channel the
pointer `d->active_channel` refers to; `vars` is the list of name/value
pairs of `d->variables`; `overlapFeature.enabled` is the overlap-dial flag
(the `status` of that feature is not read); `monitor_requested` and
`monitor_active` are the bits `SCCP_FEATURE_MONITOR_STATE_REQUESTED` and
`SCCP_FEATURE_MONITOR_STATE_ACTIVE` of `monitorFeature.status`. -/
structure sccp_device_t where
  id : String := ""
  session : Option sccp_session_t := none
  registrationState : skinny_registrationstate_t :=
    skinny_registrationstate_t.SKINNY_DEVICE_RS_OK
  dndFeature : sccp_featureConfiguration_t := {}
  alive : Bool := true
  state : sccp_devicestate_t := sccp_devicestate_t.SCCP_DEVICESTATE_ONHOOK
  active_channel : Option Nat := none
  privacyFeature : sccp_privacyFeature_t := {}
  vars : List (String × String) := []
  lastNumber : String := ""
  overlapFeature : sccp_featureConfiguration_t := {}
  monitor_requested : Bool := false
  monitor_active : Bool := false
  skinny_type : Nat := 0
  deriving DecidableEq, Repr

/-- The `cfwdAll` member of a binding. -/
structure sccp_cfwd_information_t where
  enabled : Bool := false
  number : String := ""
  deriving DecidableEq, Repr

/-- A subscription id (`sccp_subscription_id_t`). -/
structure sccp_subscription_id_t where
  number : String := ""
  name : String := ""
  deriving DecidableEq, Repr

/-- A line/device binding (`sccp_linedevices_t`).  The device pointer is
never null: `sccp_pbx_call` asserts it for every binding it visits. -/
structure sccp_linedevices_t where
  device : sccp_device_t := {}
  lineInstance : Nat := 0
  cfwdAll : sccp_cfwd_information_t := {}
  subscriptionId : sccp_subscription_id_t := {}
  deriving DecidableEq, Repr

/-- What a traversal of `l->channels` reads of each member: its call id and
its parent link (the call id of the parent channel). -/
structure sccp_line_channel_t where
  callid : Nat := 0
  parentChannel : Option Nat := none
  deriving DecidableEq, Repr

/-- A line (`sccp_line_t`).  `devices` and `channels` are the two lists in
list order; `alive` is the reference-count state read by
`sccp_line_retain`.  `SCCP_RWLIST_GETSIZE(l->channels)` is
`channels.length`. -/
structure sccp_line_t where
  name : String := ""
  id : String := ""
  cid_name : String := ""
  cid_num : String := ""
  incominglimit : Nat := 0
  devices : List sccp_linedevices_t := []
  channels : List sccp_line_channel_t := []
  alive : Bool := true
  meetmenum : String := ""
  vars : List (String × String) := []
  defaultSubscriptionId : sccp_subscription_id_t := {}
  deriving DecidableEq, Repr

/-- The `callInfo` members that `sccp_pbx.c` reads or writes. -/
structure sccp_callinfo_t where
  callingPartyName : String := ""
  callingPartyNumber : String := ""
  presentation : Nat := 0
  calledPartyName : String := ""
  calledPartyNumber : String := ""
  deriving DecidableEq, Repr

/-- What `sccp_pbx.c` reads through the parent link of a channel: the call
id of the parent (its identity) and its backend channel. -/
structure sccp_parent_channel_t where
  callid : Nat := 0
  owner : Option Nat := none
  deriving DecidableEq, Repr

/-- The `enbloc` members of a channel that the soft switch resets. -/
structure sccp_enbloc_t where
  deactivate : Nat := 0
  totaldigittime : Nat := 0
  totaldigittimesquared : Nat := 0
  digittimeout : Nat := 0
  deriving DecidableEq, Repr

/-- A channel (`sccp_channel_t`).  `line = none` is the null line pointer,
`owner` is the backend channel (`none` is null), `ringermode = 0` is the
unset ringer mode.  `device` is the owning device that
`sccp_channel_getDevice_retained` looks up, `parentChannel` the parent link
of a forwarded leg, `scheduler_digittimeout` the id of the pending digit
timer (`none` when no timer is armed), `rtp_audio`/`rtp_video` whether
`rtp.audio.rtp`/`rtp.video.rtp` are allocated, `rtp_video_writeActive`
whether `SCCP_RTP_STATUS_ACTIVE` is set in `rtp.video.writeState`. -/
structure sccp_channel_t where
  callid : Nat := 0
  state : sccp_channelstate_t := sccp_channelstate_t.DOWN
  line : Option sccp_line_t := none
  owner : Option Nat := none
  callInfo : sccp_callinfo_t := {}
  autoanswer_type : sccp_autoanswer_type_t :=
    sccp_autoanswer_type_t.SCCP_AUTOANSWER_NONE
  ringermode : Nat := 0
  alive : Bool := true
  device : Option sccp_device_t := none
  parentChannel : Option sccp_parent_channel_t := none
  calltype : skinny_calltype_t := skinny_calltype_t.SKINNY_CALLTYPE_OUTBOUND
  dialedNumber : String := ""
  ss_action : sccp_ss_action_t := sccp_ss_action_t.SCCP_SS_DIAL
  ss_data : Nat := 0
  privacy : Bool := false
  scheduler_digittimeout : Option Nat := none
  rtp_audio : Bool := false
  rtp_video : Bool := false
  rtp_video_writeActive : Bool := false
  conference : Option Nat := none
  enbloc : sccp_enbloc_t := {}
  deriving DecidableEq, Repr

/-- The record handed to the auto-answer job
(`struct sccp_answer_conveyor_struct`). -/
structure sccp_answer_conveyor_struct where
  callid : Nat := 0
  linedevice : Option sccp_linedevices_t := none
  deriving DecidableEq, Repr

/-- The global settings (`GLOB(...)`) read by the functions.  A tone
setting is false in a condition when it is `SKINNY_TONE_SILENCE`, the zero
value. -/
structure sccp_global_vars where
  autoanswer_ring_time : Nat := 0
  autoanswer_tone : skinny_tone_t := skinny_tone_t.SKINNY_TONE_SILENCE
  recorddigittimeoutchar : Bool := false
  digittimeoutchar : Char := '#'
  usecnt : Int := 0
  remotehangup_tone : skinny_tone_t := skinny_tone_t.SKINNY_TONE_SILENCE
  digittimeout : Nat := 0
  callevents : Bool := false

/-- The integer values of the three names of `sccp_extension_status_t` that
`sccp_pbx.c` uses.  The declaration of the enumeration is not part of
`sccp_pbx.c`, so what the names stand for is a parameter. -/
structure sccp_extension_status_values where
  SCCP_EXTENSION_NOTEXISTS : Nat := 0
  SCCP_EXTENSION_MATCHMORE : Nat := 1
  SCCP_EXTENSION_EXACTMATCH : Nat := 2
  deriving DecidableEq, Repr

/-- The ringer mode `SKINNY_STATION_OUTSIDERING`; its value comes from the
protocol header, which is not part of `sccp_pbx.c`. -/
def SKINNY_STATION_OUTSIDERING : Nat := 3

/-! ## Effects -/

/-- A reference-counted handle, named by the entity it refers to. -/
inductive Handle
  | line (name : String)
  | device (id : String)
  | channel (callid : Nat)
  | linedevice (ld : sccp_linedevices_t)
  deriving DecidableEq, Repr

/-- The calls into the PBX backend (`pbx_*`, `PBX(...)`, the scheduler and
the use-count mutex) that the teardown, the answer and the soft switch
make. -/
inductive BackendCall
  | mutex_lock_usecnt
  | mutex_unlock_usecnt
  | pbx_update_use_count
  | sched_del (timer : Option Nat)
  | pbx_setstate_channel (chan : Option Nat) (st : ast_state_t)
  | pbx_channel_masquerade (original : Option Nat) (clone : Nat)
  | pbx_channel_set_hangupcause (chan : Option Nat) (cause : ast_cause_t)
  | pbx_queue_hangup (chan : Option Nat)
  | send_digits (callid : Nat) (digits : String)
  | requestHangup (chan : Nat)
  | pbx_builtin_setvar_helper (chan : Option Nat) (name : String) (value : String)
  | setChannelExten (callid : Nat) (exten : String)
  | set_callstate (callid : Nat) (st : ast_state_t)
  | pbx_pbx_start (chan : Option Nat)
  | manager_event (callid : Nat)
  deriving DecidableEq, Repr

/-- The calls into the rest of the driver (`sccp_*`) that the teardown, the
answer and the soft switch make, and a failed `assert`. -/
inductive DriverCall
  | conference_retractParticipatingChannel (conference : Nat) (callid : Nat)
  | channel_closereceivechannel (callid : Nat)
  | rtp_destroy (callid : Nat)
  | list_lock_channels (line : String)
  | list_unlock_channels (line : String)
  | channel_endcall (callid : Nat)
  | line_removeChannel (line : String) (callid : Nat)
  | session_lock (device : String)
  | session_unlock (device : String)
  | dev_check_displayprompt (d : sccp_device_t)
  | channel_clean (callid : Nat)
  | channel_destroy (callid : Nat)
  | channel_updateChannelCapability (callid : Nat)
  | line_cfwd (line : String) (d : sccp_device_t) (ss_data : Nat) (number : String)
  | dev_clearprompt (d : sccp_device_t) (lineInstance : Nat) (callid : Nat)
  | dev_displayprompt (d : sccp_device_t) (lineInstance : Nat) (callid : Nat)
  | feat_directpickup (callid : Nat) (exten : String)
  | feat_barge (callid : Nat) (exten : String)
  | feat_cbarge (callid : Nat) (room : String)
  | feat_meetme_start (callid : Nat)
  | channel_set_calleridPresenceParameter (callid : Nat)
  | softkey_setSoftkeyState (d : sccp_device_t)
  | assert_failed
  deriving DecidableEq, Repr

/-- The calls that only `sccp_pbx_sched_dial`, `sccp_pbx_helper` and
`sccp_pbx_channel_allocate` make.  `setChannelName` is recorded with the line
name and call id that the name `SCCP/<line>-<callid>` is printed from. -/
inductive PbxCall
  | pbx_softswitch (callid : Nat)
  | extension_status (callid : Nat)
  | alloc_pbxChannel (callid : Nat)
  | set_nativeAudioFormats (callid : Nat)
  | setChannelName (callid : Nat) (line : String)
  | pbx_jb_configure (chan : Nat)
  | set_callerid_number (callid : Nat) (number : String)
  | set_callerid_name (callid : Nat) (name : String)
  | feat_monitor (d : sccp_device_t) (line : String) (callid : Nat)
  | feat_changed (d : sccp_device_t)
  deriving DecidableEq, Repr

/-- The calls made by the functions of `sccp_pbx.c`, one constructor per
callee, with the arguments the theorems speak about; the calls that only
the teardown, the answer and the soft switch make are those of
`BackendCall` and `DriverCall`, those of the timer callback, the helper and
the allocation are those of `PbxCall`. -/
inductive Event
  | retain (h : Handle)
  | release (h : Handle)
  | list_lock_devices (line : String)
  | list_unlock_devices (line : String)
  | pbx_setstate (st : ast_state_t)
  | queue_control (ctl : ast_control_t)
  | channel_set_callingparty (name : Option String) (number : Option String)
  | channel_set_calledparty (name : String) (number : String)
  | set_connected_line
  | channel_display_callInfo
  | channel_forward (ld : sccp_linedevices_t) (number : String)
  | device_sendcallstate (d : sccp_device_t) (lineInstance : Nat) (callid : Nat)
      (st : skinny_callstate_t)
  | channel_send_callinfo (d : sccp_device_t) (callid : Nat)
  | indicate (d : sccp_device_t) (callid : Nat) (st : sccp_channelstate_t)
  | threadpool_add_work (conveyor : sccp_answer_conveyor_struct)
  | channel_setSkinnyCallstate (callid : Nat) (st : skinny_callstate_t)
  | rtp_setWriteFormat
  | rtp_setReadFormat
  | sleep (seconds : Nat)
  | pthread_testcancel
  | channel_answer (d : sccp_device_t) (callid : Nat)
  | dev_starttone (d : sccp_device_t) (tone : skinny_tone_t) (lineInstance : Nat)
      (callid : Nat) (timeout : Nat)
  | dev_set_microphone_off (d : sccp_device_t)
  | free_conveyor
  | null_dereference
  | backend (call : BackendCall)
  | driver (call : DriverCall)
  | pbx (call : PbxCall)
  deriving DecidableEq, Repr

/-- Results of the functions that `sccp_pbx.c` calls and that are defined
elsewhere in the driver or in the PBX backend. -/
structure Env where
  /-- Result of `sccp_channel_forward(c, linedevice, number)`; 0 is success. -/
  sccp_channel_forward : sccp_channel_t → sccp_linedevices_t → String → Int
  /-- Result of `sccp_util_matchSubscriptionId(c, number)`. -/
  sccp_util_matchSubscriptionId : sccp_channel_t → String → Bool
  /-- Result of `sccp_channel_get_active(device)`: the retained active channel, if any. -/
  sccp_channel_get_active : sccp_device_t → Option sccp_channel_t
  /-- Whether the `sccp_calloc` of the conveyor made for this binding
  returns memory. -/
  sccp_calloc : sccp_linedevices_t → Bool
  /-- The backend hook `PBX(get_callerid_presence)`, a function pointer that may be null. -/
  get_callerid_presence : Option (sccp_channel_t → Nat)
  /-- Result of `sccp_channel_find_byid(callid)`: the retained channel, if found. -/
  sccp_channel_find_byid : Nat → Option sccp_channel_t
  /-- Result of `sccp_device_find_index_for_line(device, name)`. -/
  sccp_device_find_index_for_line : sccp_device_t → String → Nat
  /-- Result of `PBX(getChannelPbx)(c)`: whether the backend channel already
  runs a PBX. -/
  getChannelPbx : sccp_channel_t → Bool := fun _ => false
  /-- Result of `pbx_builtin_getvar_helper(chan, name)`; `none` is null. -/
  pbx_builtin_getvar_helper : Option Nat → String → Option String := fun _ _ => none
  /-- The backend channel that `PBX(getChannelByName)(name, &br)` stores in
  `br`; `none` leaves it null. -/
  getChannelByName : String → Option Nat := fun _ => none
  /-- Result of `pbx_channel_masquerade(original, clone)`; 0 is success. -/
  pbx_channel_masquerade : Option Nat → Nat → Int := fun _ _ => 0
  /-- Result of `pbx_channel_state(chan)`. -/
  pbx_channel_state : Option Nat → ast_state_t := fun _ => ast_state_t.AST_STATE_DOWN
  /-- Result of `pbx_check_hangup(chan)`. -/
  pbx_check_hangup : Option Nat → Bool := fun _ => false
  /-- Result of `pbx_exists_extension(chan, context, exten, 1, cid_num)`, by
  backend channel, extension and caller id. -/
  pbx_exists_extension : Option Nat → String → String → Bool := fun _ _ _ => false
  /-- Result of `pbx_pbx_start(chan)`. -/
  pbx_pbx_start : Option Nat → ast_pbx_result := fun _ => ast_pbx_result.AST_PBX_SUCCESS
  /-- Result of `sccp_feat_directpickup(c, exten)`; 0 is success. -/
  sccp_feat_directpickup : sccp_channel_t → String → Int := fun _ _ => 0
  /-- Result of `sccp_feat_barge(c, exten)`; 0 is success. -/
  sccp_feat_barge : sccp_channel_t → String → Int := fun _ _ => 0
  /-- Result of `sccp_feat_cbarge(c, room)`; 0 is success. -/
  sccp_feat_cbarge : sccp_channel_t → String → Int := fun _ _ => 0
  /-- Result of `PBX(extension_status)(c)`, as the integer value of the
  `sccp_extension_status_t` returned. -/
  extension_status : sccp_channel_t → Nat := fun _ => 0
  /-- Whether the backend hook `PBX(send_digits)` is set. -/
  send_digits : Bool := true
  /-- The backend channel that `PBX(alloc_pbxChannel)(c, &tmp)` stores in
  `tmp`; `none` leaves it null. -/
  alloc_pbxChannel : sccp_channel_t → Option Nat := fun _ => none
  /-- Whether the backend hook `PBX(set_callerid_number)` is set. -/
  set_callerid_number : Bool := true
  /-- Whether the backend hook `PBX(set_callerid_name)` is set. -/
  set_callerid_name : Bool := true
  /-- Result of `pbx_inet_ntoa(addr)`. -/
  pbx_inet_ntoa : Nat → String := fun _ => ""
  /-- Result of `devicetype2str(type)`. -/
  devicetype2str : Nat → String := fun _ => ""
  /-- Whether the build defines `CS_SCCP_PICKUP`. -/
  CS_SCCP_PICKUP : Bool := true
  /-- Whether the build defines `CS_SCCP_CONFERENCE`. -/
  CS_SCCP_CONFERENCE : Bool := true
  /-- Whether the build defines `CS_MANAGER_EVENTS`. -/
  CS_MANAGER_EVENTS : Bool := true

/-- Modelled from the spec: `sccp_line_retain`, defined outside
`sccp_pbx.c`.  Retaining yields the handle and fails (null) for a null
pointer or an already destroyed line. -/
def sccp_line_retain (l : Option sccp_line_t) : Option sccp_line_t :=
  match l with
  | none => none
  | some x => if x.alive then some x else none

/-- Modelled from the spec: `sccp_device_retain`, defined outside
`sccp_pbx.c`.  Retaining fails (null) for an already destroyed device. -/
def sccp_device_retain (d : sccp_device_t) : Option sccp_device_t :=
  if d.alive then some d else none

/-- Modelled from the spec: `sccp_channel_retain`, defined outside
`sccp_pbx.c`.  Retaining fails (null) for a null pointer or an already
destroyed channel. -/
def sccp_channel_retain (c : Option sccp_channel_t) : Option sccp_channel_t :=
  match c with
  | none => none
  | some x => if x.alive then some x else none

/-- Modelled from the spec: `sccp_channel_getDevice_retained`, defined
outside `sccp_pbx.c`.  It yields a retained handle of the owning device of
the channel, and null when no device owns the channel or the device is
already destroyed. -/
def sccp_channel_getDevice_retained (c : sccp_channel_t) : Option sccp_device_t :=
  match c.device with
  | none => none
  | some d => sccp_device_retain d

/-- Modelled from the spec: `sccp_copy_string(dst, src, size)`, defined
outside `sccp_pbx.c`: the copy holds at most `size - 1` characters of the
source. -/
def sccp_copy_string (src : String) (size : Nat) : String :=
  String.mk (src.toList.take (size - 1))

/-! ## `sccp_pbx_call` -/

/-- The first traversal of `l->devices` (source lines 128-135):
`hasSession` starts `FALSE` and is set by every binding whose device has a
session. -/
def sccp_pbx_call_hasSession (devices : List sccp_linedevices_t) : Bool :=
  devices.foldl (fun hasSession linedevice =>
    if linedevice.device.session.isSome then true else hasSession) false

/-- Source lines 161-165: `cid_name`/`cid_number` are a copy of the field
when it is non-empty and stay null otherwise. -/
def sccp_pbx_call_cid (field : String) : Option String :=
  if field.length > 0 then some field else none

/-- Source lines 171-190: the number handed to
`sccp_channel_set_callingparty`.  `suffixedNumber` has 255 bytes, so
`sizeof(suffixedNumber) - 2` is 253. -/
def sccp_pbx_call_callingNumber (glob : sccp_global_vars) (cid_number : Option String) :
    Option String :=
  if glob.recorddigittimeoutchar then
    match cid_number with
    | some n =>
      if n.length > 0 ∧ n.length < 255 - 2 ∧ n.toList.head? = some '0' then
        some (n ++ "#")
      else
        some n
    | none => none
  else
    cid_number

/-- The loop variables of the second traversal together with the calls made
so far. -/
structure FanoutState where
  isRinging : Bool := false
  hasDNDParticipant : Bool := false
  trace : List Event := []
  deriving DecidableEq, Repr

/-- The body of the second traversal of `l->devices` (source lines 223-300)
for one binding. -/
def sccp_pbx_call_binding (env : Env) (c : sccp_channel_t) (st : FanoutState)
    (linedevice : sccp_linedevices_t) : FanoutState :=
  if linedevice.cfwdAll.enabled then
    if env.sccp_channel_forward c linedevice linedevice.cfwdAll.number = 0 then
      { st with
        isRinging := true
        trace := st.trace ++
          [Event.channel_forward linedevice linedevice.cfwdAll.number,
           Event.device_sendcallstate linedevice.device linedevice.lineInstance c.callid
             skinny_callstate_t.INTERCOMONEWAY,
           Event.channel_send_callinfo linedevice.device c.callid] }
    else
      { st with
        trace := st.trace ++ [Event.channel_forward linedevice linedevice.cfwdAll.number] }
  else if linedevice.device.session.isNone then
    st
  else if !env.sccp_util_matchSubscriptionId c linedevice.subscriptionId.number then
    st
  else
    match env.sccp_channel_get_active linedevice.device with
    | some active_channel =>
      { st with
        isRinging := true
        trace := st.trace ++
          [Event.retain (Handle.channel active_channel.callid),
           Event.indicate linedevice.device c.callid sccp_channelstate_t.CALLWAITING,
           Event.release (Handle.channel active_channel.callid)] }
    | none =>
      if linedevice.device.dndFeature.enabled ∧
          linedevice.device.dndFeature.status = sccp_dndmode_t.SCCP_DNDMODE_REJECT then
        { st with hasDNDParticipant := true }
      else
        let rung : FanoutState :=
          { st with
            isRinging := true
            trace := st.trace ++
              [Event.indicate linedevice.device c.callid sccp_channelstate_t.RINGING] }
        if c.autoanswer_type ≠ sccp_autoanswer_type_t.SCCP_AUTOANSWER_NONE then
          if env.sccp_calloc linedevice then
            { rung with
              trace := rung.trace ++
                [Event.retain (Handle.linedevice linedevice),
                 Event.threadpool_add_work
                   { callid := c.callid, linedevice := some linedevice }] }
          else
            rung
        else
          rung

/-- The second traversal of `l->devices` (source lines 216-301), in list
order, from `isRinging = FALSE`, `hasDNDParticipant = FALSE`. -/
def sccp_pbx_call_fanout (env : Env) (c : sccp_channel_t)
    (devices : List sccp_linedevices_t) : FanoutState :=
  devices.foldl (sccp_pbx_call_binding env c) {}

/-- Source lines 304-311: the one control frame queued after the traversal. -/
def sccp_pbx_call_outcome (c : sccp_channel_t) (st : FanoutState) : List Event :=
  if st.isRinging then
    [Event.channel_setSkinnyCallstate c.callid skinny_callstate_t.RINGIN,
     Event.queue_control ast_control_t.AST_CONTROL_RINGING]
  else if st.hasDNDParticipant then
    [Event.queue_control ast_control_t.AST_CONTROL_BUSY]
  else
    [Event.queue_control ast_control_t.AST_CONTROL_CONGESTION]

/-- What `sccp_pbx_call` returns: its `int` result, the channel as the
function leaves it, and the calls it made. -/
structure CallResult where
  ret : Int
  c : sccp_channel_t
  trace : List Event
  deriving DecidableEq, Repr

/-- The function `sccp_pbx_call(c, dest, timeout)` (source lines 113-329).
`dest` and `timeout` are not read by the function. -/
def sccp_pbx_call (env : Env) (glob : sccp_global_vars) (c : sccp_channel_t) : CallResult :=
  match sccp_line_retain c.line with
  | none => { ret := -1, c := c, trace := [] }
  | some l =>
    let scan : List Event :=
      [Event.retain (Handle.line l.name),
       Event.list_lock_devices l.name,
       Event.list_unlock_devices l.name]
    if !sccp_pbx_call_hasSession l.devices then
      { ret := -1, c := c, trace := scan ++ [Event.release (Handle.line l.name)] }
    else if l.channels.length > l.incominglimit then
      { ret := 0, c := c,
        trace := scan ++
          [Event.release (Handle.line l.name),
           Event.pbx_setstate ast_state_t.AST_STATE_BUSY,
           Event.queue_control ast_control_t.AST_CONTROL_BUSY] }
    else
      let cid_name := sccp_pbx_call_cid c.callInfo.callingPartyName
      let cid_number := sccp_pbx_call_cid c.callInfo.callingPartyNumber
      let shaping : List Event :=
        [Event.channel_set_callingparty cid_name (sccp_pbx_call_callingNumber glob cid_number),
         Event.channel_set_calledparty l.cid_name l.cid_num,
         Event.set_connected_line]
      let c1 : sccp_channel_t :=
        match env.get_callerid_presence with
        | some get_callerid_presence =>
          { c with callInfo := { c.callInfo with presentation := get_callerid_presence c } }
        | none => c
      let c2 : sccp_channel_t :=
        if c1.ringermode = 0 then { c1 with ringermode := SKINNY_STATION_OUTSIDERING } else c1
      let st := sccp_pbx_call_fanout env c2 l.devices
      { ret := if st.isRinging then 0 else 1,
        c := c2,
        trace := scan ++ shaping ++ [Event.channel_display_callInfo] ++
          [Event.list_lock_devices l.name] ++ st.trace ++
          [Event.list_unlock_devices l.name] ++
          sccp_pbx_call_outcome c2 st ++
          [Event.rtp_setWriteFormat, Event.rtp_setReadFormat,
           Event.release (Handle.line l.name)] }

/-! ## `sccp_pbx_call_autoanswer_thread` -/

/-- The label `FINAL` (source lines 76-81): release what was retained, the
binding handle of the conveyor included, and free the conveyor. -/
def sccp_pbx_call_autoanswer_FINAL (c : Option sccp_channel_t) (device : Option sccp_device_t)
    (conveyor : sccp_answer_conveyor_struct) : List Event :=
  (match c with
   | some ch => [Event.release (Handle.channel ch.callid)]
   | none => []) ++
  (match device with
   | some d => [Event.release (Handle.device d.id)]
   | none => []) ++
  (match conveyor.linedevice with
   | some ld => [Event.release (Handle.linedevice ld)]
   | none => []) ++
  [Event.free_conveyor]

/-- The function `sccp_pbx_call_autoanswer_thread(data)` (source lines
37-82), as the list of calls it makes.  `data = none` is the null conveyor.
`pthread_testcancel` is recorded as a call; a cancellation of the thread at
that point is outside the model.  Reading `c->line->name` through a null
line pointer ends the trace with `null_dereference`. -/
def sccp_pbx_call_autoanswer_thread (env : Env) (glob : sccp_global_vars)
    (data : Option sccp_answer_conveyor_struct) : List Event :=
  [Event.sleep glob.autoanswer_ring_time, Event.pthread_testcancel] ++
  match data with
  | none => []
  | some conveyor =>
    match conveyor.linedevice with
    | none => sccp_pbx_call_autoanswer_FINAL none none conveyor
    | some linedevice =>
      match sccp_device_retain linedevice.device with
      | none => sccp_pbx_call_autoanswer_FINAL none none conveyor
      | some device =>
        match env.sccp_channel_find_byid conveyor.callid with
        | none =>
          [Event.retain (Handle.device device.id)] ++
            sccp_pbx_call_autoanswer_FINAL none (some device) conveyor
        | some c =>
          [Event.retain (Handle.device device.id), Event.retain (Handle.channel c.callid)] ++
          if c.state ≠ sccp_channelstate_t.RINGING then
            sccp_pbx_call_autoanswer_FINAL (some c) (some device) conveyor
          else
            [Event.channel_answer device c.callid] ++
            if glob.autoanswer_tone ≠ skinny_tone_t.SKINNY_TONE_SILENCE ∧
                glob.autoanswer_tone ≠ skinny_tone_t.SKINNY_TONE_NOTONE then
              match c.line with
              | none => [Event.null_dereference]
              | some line =>
                [Event.dev_starttone device glob.autoanswer_tone
                   (env.sccp_device_find_index_for_line device line.name) c.callid 0] ++
                (if c.autoanswer_type = sccp_autoanswer_type_t.SCCP_AUTOANSWER_1W then
                   [Event.dev_set_microphone_off device]
                 else []) ++
                sccp_pbx_call_autoanswer_FINAL (some c) (some device) conveyor
            else
              (if c.autoanswer_type = sccp_autoanswer_type_t.SCCP_AUTOANSWER_1W then
                 [Event.dev_set_microphone_off device]
               else []) ++
              sccp_pbx_call_autoanswer_FINAL (some c) (some device) conveyor


/-! ## `sccp_pbx_needcheckringback` and `sccp_pbx_hangup` -/

/-- The function `sccp_pbx_needcheckringback(d)` (source lines 458-466):
the device as the function leaves it, and the calls it makes.  `d = none`
is the null device. -/
def sccp_pbx_needcheckringback (d : Option sccp_device_t) :
    Option sccp_device_t × List Event :=
  match d with
  | none => (none, [])
  | some dev =>
    match dev.session with
    | none => (some dev, [])
    | some session =>
      (some { dev with session := some { session with needcheckringback := 1 } },
       [Event.driver (DriverCall.session_lock dev.id),
        Event.driver (DriverCall.session_unlock dev.id)])

/-- The traversal of `l->channels` in `sccp_pbx_hangup` (source lines
396-404): `sccp_channel_endcall` on every member whose parent link is the
channel being hung up.  The pointer comparison `channel->parentChannel == c`
is the comparison of call ids. -/
def sccp_pbx_hangup_children (c : sccp_channel_t) (channels : List sccp_line_channel_t) :
    List Event :=
  channels.foldl (fun trace channel =>
    if channel.parentChannel = some c.callid then
      trace ++ [Event.driver (DriverCall.channel_endcall channel.callid)]
    else trace) []

/-- The traversal of `l->devices` in `sccp_pbx_hangup` when no device owns
the channel (source lines 412-419).  The source passes
`SKINNY_CALLSTATE_ONHOOK` to `sccp_indicate`; it is recorded as the on-hook
channel state. -/
def sccp_pbx_hangup_devices (c : sccp_channel_t) (devices : List sccp_linedevices_t) :
    List Event :=
  devices.foldl (fun trace linedevice =>
    if linedevice.device.registrationState =
        skinny_registrationstate_t.SKINNY_DEVICE_RS_OK then
      match sccp_device_retain linedevice.device with
      | some d =>
        trace ++
          [Event.retain (Handle.device d.id),
           Event.indicate d c.callid sccp_channelstate_t.ONHOOK,
           Event.release (Handle.device d.id)]
      | none => trace
    else trace) []

/-- What `sccp_pbx_hangup` leaves: its `int` result (`none` when the
function does not return), the global use count, the channel (with its
owning device) and the calls made. -/
structure HangupResult where
  ret : Option Int
  usecnt : Int
  c : Option sccp_channel_t
  trace : List Event
  deriving DecidableEq, Repr

/-- Source lines 352-356: the use count is decremented under its mutex and
the backend is told. -/
def sccp_pbx_hangup_usecnt : List Event :=
  [Event.backend BackendCall.mutex_lock_usecnt,
   Event.backend BackendCall.mutex_unlock_usecnt,
   Event.backend BackendCall.pbx_update_use_count]

/-- Source lines 364-370: the owning device is looked up, and when the
channel is not Down and the device is registered it is indicated on-hook,
after the remote-hangup tone if that is configured and the device is
off-hook on this channel.  `d` is the result of
`sccp_channel_getDevice_retained`. -/
def sccp_pbx_hangup_owner (glob : sccp_global_vars) (c : sccp_channel_t)
    (d : Option sccp_device_t) : List Event :=
  match d with
  | some dev =>
    [Event.retain (Handle.device dev.id)] ++
    (if c.state ≠ sccp_channelstate_t.DOWN ∧
        dev.registrationState = skinny_registrationstate_t.SKINNY_DEVICE_RS_OK then
      (if glob.remotehangup_tone ≠ skinny_tone_t.SKINNY_TONE_SILENCE ∧
          dev.state = sccp_devicestate_t.SCCP_DEVICESTATE_OFFHOOK ∧
          dev.active_channel = some c.callid then
        [Event.dev_starttone dev glob.remotehangup_tone 0 0 10]
      else []) ++
      [Event.indicate dev c.callid sccp_channelstate_t.ONHOOK]
    else [])
  | none => []

/-- Source lines 374-387: the channel is retracted from its conference,
and allocated media are released: the receive channel is closed when the
owning device is registered, then the media are destroyed. -/
def sccp_pbx_hangup_media (env : Env) (c : sccp_channel_t) (d : Option sccp_device_t) :
    List Event :=
  (match c.conference with
   | some conf =>
     if env.CS_SCCP_CONFERENCE then
       [Event.driver (DriverCall.conference_retractParticipatingChannel conf c.callid)]
     else []
   | none => []) ++
  (if c.rtp_audio ∨ c.rtp_video then
     (match d with
      | some dev =>
        if dev.registrationState = skinny_registrationstate_t.SKINNY_DEVICE_RS_OK then
          [Event.driver (DriverCall.channel_closereceivechannel c.callid)]
        else []
      | none => []) ++
     [Event.driver (DriverCall.rtp_destroy c.callid)]
   else [])

/-- Source lines 408-432: without an owning device every bound device is
visited; with an owning device that is not registered the channel is set to
Down; with a registered owning device it is sent the call info, flagged for
the ringback check and its prompt is checked.  The result is the channel as
left and the calls made. -/
def sccp_pbx_hangup_notify (c : sccp_channel_t) (d : Option sccp_device_t)
    (line : sccp_line_t) : sccp_channel_t × List Event :=
  match d with
  | none =>
    (c, [Event.list_lock_devices line.name] ++
        sccp_pbx_hangup_devices c line.devices ++
        [Event.list_unlock_devices line.name])
  | some dev =>
    if dev.registrationState ≠ skinny_registrationstate_t.SKINNY_DEVICE_RS_OK then
      ({ c with state := sccp_channelstate_t.DOWN }, [])
    else
      ({ c with device := (sccp_pbx_needcheckringback (some dev)).1 },
       [Event.channel_send_callinfo dev c.callid] ++
       (sccp_pbx_needcheckringback (some dev)).2 ++
       [Event.driver (DriverCall.dev_check_displayprompt dev)])

/-- The function `sccp_pbx_hangup(c)` (source lines 344-446).  `c0 = none`
is the null channel.  Locking `&l->channels` through a null line ends the
trace with `null_dereference`. -/
def sccp_pbx_hangup (env : Env) (glob : sccp_global_vars) (c0 : Option sccp_channel_t) :
    HangupResult :=
  let usecnt := glob.usecnt - 1
  match sccp_channel_retain c0 with
  | none =>
    { ret := some (-1), usecnt := usecnt, c := c0,
      trace := sccp_pbx_hangup_usecnt ++ (sccp_pbx_needcheckringback none).2 }
  | some c =>
    let d := sccp_channel_getDevice_retained c
    let c1 : sccp_channel_t := { c with owner := none }
    let l := sccp_line_retain c1.line
    let c2 : sccp_channel_t := { c1 with scheduler_digittimeout := none }
    let before : List Event :=
      sccp_pbx_hangup_usecnt ++ [Event.retain (Handle.channel c.callid)] ++
        sccp_pbx_hangup_owner glob c d ++
        (match l with
         | some line => [Event.retain (Handle.line line.name)]
         | none => []) ++
        sccp_pbx_hangup_media env c1 d ++
        [Event.backend (BackendCall.sched_del c1.scheduler_digittimeout)]
    match l with
    | none =>
      { ret := none, usecnt := usecnt, c := some c2,
        trace := before ++ [Event.null_dereference] }
    | some line =>
      { ret := some 0, usecnt := usecnt,
        c := some (sccp_pbx_hangup_notify c2 d line).1,
        trace := before ++
          [Event.driver (DriverCall.list_lock_channels line.name)] ++
          sccp_pbx_hangup_children c2 line.channels ++
          [Event.driver (DriverCall.list_unlock_channels line.name),
           Event.driver (DriverCall.line_removeChannel line.name c2.callid)] ++
          (sccp_pbx_hangup_notify c2 d line).2 ++
          [Event.driver (DriverCall.channel_clean c2.callid),
           Event.driver (DriverCall.channel_destroy c2.callid)] ++
          (match d with
           | some dev => [Event.release (Handle.device dev.id)]
           | none => []) ++
          [Event.release (Handle.line line.name),
           Event.release (Handle.channel c2.callid)] }

/-! ## `sccp_pbx_answer` -/

/-- What `sccp_pbx_answer` leaves: its `int` result, the channel and the
calls made. -/
structure AnswerResult where
  ret : Int
  c : Option sccp_channel_t
  trace : List Event
  deriving DecidableEq, Repr

/-- The function `sccp_pbx_answer(channel)` (source lines 482-579).
`channel = none` is the null channel.  `sccp_channel_release` returns null,
so the assignment of its result clears the parent link. -/
def sccp_pbx_answer (env : Env) (channel : Option sccp_channel_t) : AnswerResult :=
  match sccp_channel_retain channel with
  | none => { ret := -1, c := channel, trace := [] }
  | some c =>
    match c.parentChannel with
    | some parent =>
      let astForwardedChannel := parent.owner
      let br : Option Nat :=
        match env.pbx_builtin_getvar_helper c.owner "BRIDGEPEER" with
        | some bridgePeerChannelName =>
          if bridgePeerChannelName.length > 0 then
            env.getChannelByName bridgePeerChannelName
          else none
        | none => none
      let bridge : Int × List Event :=
        match br with
        | some b =>
          (if env.pbx_channel_masquerade astForwardedChannel b = 0 then 0 else -1,
           [Event.backend (BackendCall.pbx_setstate_channel c.owner ast_state_t.AST_STATE_UP),
            Event.backend (BackendCall.pbx_setstate_channel (some b) ast_state_t.AST_STATE_UP),
            Event.backend (BackendCall.pbx_channel_masquerade astForwardedChannel b)])
        | none =>
          if env.pbx_channel_state c.owner = ast_state_t.AST_STATE_RING ∧
              env.pbx_channel_state astForwardedChannel = ast_state_t.AST_STATE_DOWN ∧
              env.getChannelPbx c = true then
            (0,
             [Event.backend (BackendCall.pbx_channel_set_hangupcause astForwardedChannel
                ast_cause_t.AST_CAUSE_CALL_REJECTED),
              Event.backend (BackendCall.pbx_queue_hangup astForwardedChannel)])
          else
            (-1,
             [Event.backend (BackendCall.pbx_channel_set_hangupcause astForwardedChannel
                ast_cause_t.AST_CAUSE_REQUESTED_CHAN_UNAVAIL),
              Event.backend (BackendCall.pbx_queue_hangup astForwardedChannel),
              Event.driver (DriverCall.channel_endcall c.callid)])
      { ret := bridge.1,
        c := some { c with parentChannel := none },
        trace := [Event.retain (Handle.channel c.callid)] ++ bridge.2 ++
          [Event.release (Handle.channel parent.callid),
           Event.release (Handle.channel c.callid)] }
    | none =>
      let connect : List Event :=
        match sccp_channel_getDevice_retained c with
        | some d =>
          [Event.retain (Handle.device d.id),
           Event.indicate d c.callid sccp_channelstate_t.DIALING,
           Event.channel_send_callinfo d c.callid,
           Event.indicate d c.callid sccp_channelstate_t.PROCEED,
           Event.channel_send_callinfo d c.callid,
           Event.indicate d c.callid sccp_channelstate_t.CONNECTED,
           Event.release (Handle.device d.id)]
        | none => []
      { ret := 0,
        c := some c,
        trace := [Event.retain (Handle.channel c.callid),
                  Event.driver (DriverCall.channel_updateChannelCapability c.callid)] ++
          connect ++
          (if c.rtp_video_writeActive then
             [Event.queue_control ast_control_t.AST_CONTROL_VIDUPDATE]
           else []) ++
          [Event.release (Handle.channel c.callid)] }

/-! ## `sccp_pbx_senddigits` and `sccp_pbx_softswitch` -/

/-- The function `sccp_pbx_senddigits(c, digits)` (source lines 1444-1448). -/
def sccp_pbx_senddigits (env : Env) (c : sccp_channel_t) (digits : String) : List Event :=
  if env.send_digits then [Event.backend (BackendCall.send_digits c.callid digits)] else []

/-- The string without its last character (`s[len - 1] = 0`). -/
def dropLastChar (s : String) : String :=
  String.mk s.toList.dropLast

/-- The test of source line 1222 on a number of length `len`:
`len > 0 && GLOB(digittimeoutchar) == number[len - 1]`. -/
def endsWithTimeoutChar (glob : sccp_global_vars) (number : String) : Bool :=
  decide (number.length > 0) && (number.toList.getLast? == some glob.digittimeoutchar)

/-- Source lines 1222-1224: `shortenedNumber` after the test. -/
def sccp_pbx_softswitch_shorten (glob : sccp_global_vars) (shortenedNumber : String) :
    String :=
  if endsWithTimeoutChar glob shortenedNumber then dropLastChar shortenedNumber
  else shortenedNumber

/-- Source lines 1222-1231: `c->dialedNumber` after the test on
`shortenedNumber`; the timeout character is removed from it only when it is
not to be recorded. -/
def sccp_pbx_softswitch_dialedNumber (glob : sccp_global_vars) (shortenedNumber : String)
    (dialedNumber : String) : String :=
  if endsWithTimeoutChar glob shortenedNumber ∧ glob.recorddigittimeoutchar = false then
    dropLastChar dialedNumber
  else dialedNumber

/-- Source lines 1142-1146: the channel after the reset of the enbloc dial
emulation. -/
def sccp_pbx_softswitch_enbloc (glob : sccp_global_vars) (c : sccp_channel_t) :
    sccp_channel_t :=
  { c with
    enbloc := { deactivate := 0, totaldigittime := 0, totaldigittimesquared := 0,
                digittimeout := glob.digittimeout * 1000 } }

/-- What `sccp_pbx_softswitch` leaves: the channel (with its owning device)
and the calls made. -/
structure SoftswitchResult where
  c : Option sccp_channel_t
  trace : List Event
  deriving DecidableEq, Repr

/-- The messages that show a call as proceeding on the device (source lines
1373-1381, and the same five calls in the pickup and barge cases). -/
def sccp_pbx_softswitch_proceed (c : sccp_channel_t) (d : sccp_device_t) (lineInstance : Nat) :
    List Event :=
  [Event.indicate d c.callid sccp_channelstate_t.DIALING,
   Event.device_sendcallstate d lineInstance c.callid skinny_callstate_t.PROCEED,
   Event.channel_send_callinfo d c.callid,
   Event.driver (DriverCall.dev_clearprompt d lineInstance c.callid),
   Event.driver (DriverCall.dev_displayprompt d lineInstance c.callid)]

/-- Source lines 1383-1419: start the dial plan on the shortened number, or
indicate an invalid number. -/
def sccp_pbx_softswitch_start (env : Env) (glob : sccp_global_vars) (c : sccp_channel_t)
    (d : sccp_device_t) (l : sccp_line_t) (shortenedNumber : String) : List Event :=
  if shortenedNumber.length > 0 ∧ env.pbx_check_hangup c.owner = false ∧
      env.pbx_exists_extension c.owner shortenedNumber l.cid_num = true then
    [Event.backend (BackendCall.set_callstate c.callid ast_state_t.AST_STATE_RING),
     Event.backend (BackendCall.pbx_pbx_start c.owner)] ++
    (match env.pbx_pbx_start c.owner with
     | ast_pbx_result.AST_PBX_FAILED =>
       [Event.indicate d c.callid sccp_channelstate_t.INVALIDNUMBER]
     | ast_pbx_result.AST_PBX_CALL_LIMIT =>
       [Event.indicate d c.callid sccp_channelstate_t.CONGESTION]
     | ast_pbx_result.AST_PBX_SUCCESS =>
       if env.CS_MANAGER_EVENTS ∧ glob.callevents then
         [Event.backend (BackendCall.manager_event c.callid)]
       else [])
  else
    [Event.indicate d c.callid sccp_channelstate_t.INVALIDNUMBER]

/-- Source lines 1331-1364: on a backend channel that is not hung up, the
privacy flag and the variables of the device and of the line are exported
to the dial plan. -/
def sccp_pbx_softswitch_export (env : Env) (c : sccp_channel_t) (d : sccp_device_t)
    (l : sccp_line_t) : List Event :=
  if c.owner.isSome ∧ env.pbx_check_hangup c.owner = false then
    (if c.privacy then
       [Event.driver (DriverCall.channel_set_calleridPresenceParameter c.callid)]
     else []) ++
    [Event.backend (BackendCall.pbx_builtin_setvar_helper c.owner "SKINNY_PRIVATE"
      (if d.privacyFeature.enabled ∧ (d.privacyFeature.status_callpresent ∨ c.privacy)
       then "1" else "0"))] ++
    d.vars.map (fun v => Event.backend (BackendCall.pbx_builtin_setvar_helper c.owner v.1 v.2)) ++
    l.vars.map (fun v => Event.backend (BackendCall.pbx_builtin_setvar_helper c.owner v.1 v.2))
  else []

/-- Source lines 1331-1424, the path after the `switch`: export the privacy
flag and the variables, set the extension, remember the number on the
device, show the call as proceeding, start the dial plan.  Events name the
device by the record that was retained; the copy into `d->lastNumber` is
taken without truncation, the size of that buffer not being part of
`sccp_pbx.c`. -/
def sccp_pbx_softswitch_dial (env : Env) (glob : sccp_global_vars) (c : sccp_channel_t)
    (d : sccp_device_t) (l : sccp_line_t) (lineInstance : Nat) (shortenedNumber : String) :
    SoftswitchResult :=
  { c := some { c with device := some { d with lastNumber := c.dialedNumber } },
    trace := sccp_pbx_softswitch_export env c d l ++
      [Event.backend (BackendCall.setChannelExten c.callid shortenedNumber),
       Event.driver (DriverCall.softkey_setSoftkeyState d),
       Event.channel_set_calledparty c.dialedNumber shortenedNumber] ++
      sccp_pbx_softswitch_proceed c d lineInstance ++
      sccp_pbx_softswitch_start env glob c d l shortenedNumber ++
      [Event.release (Handle.device d.id)] }

/-- The pickup and barge cases of the `switch` (source lines 1244-1263 and
1286-1324): show the call as proceeding, then ask the feature for the
number, indicating an invalid number when it returns non-zero, or end the
call when there is no number. -/
def sccp_pbx_softswitch_feature (c : sccp_channel_t) (d : sccp_device_t) (lineInstance : Nat)
    (shortenedNumber : String) (request : Event) (result : Int) : SoftswitchResult :=
  { c := some c,
    trace := sccp_pbx_softswitch_proceed c d lineInstance ++
      (if shortenedNumber.length > 0 then
         [request] ++
         (if result ≠ 0 then [Event.indicate d c.callid sccp_channelstate_t.INVALIDNUMBER]
          else [])
       else
         [Event.driver (DriverCall.channel_endcall c.callid)]) ++
      [Event.release (Handle.device d.id)] }

/-- The function `sccp_pbx_softswitch(c)`, the branch compiled when `DDGNEW`
is 0 (source lines 1136-1424).  `c0 = none` is the null channel.  A failed
`assert` ends the trace with `assert_failed`. -/
def sccp_pbx_softswitch (env : Env) (glob : sccp_global_vars) (c0 : Option sccp_channel_t) :
    SoftswitchResult :=
  match c0 with
  | none => { c := none, trace := [] }
  | some cin =>
    let c : sccp_channel_t := sccp_pbx_softswitch_enbloc glob cin
    if env.getChannelPbx c then
      if c.dialedNumber.length > 0 then
        { c := some c,
          trace := sccp_pbx_senddigits env c c.dialedNumber ++
            [Event.channel_set_calledparty c.dialedNumber c.dialedNumber] ++
            (match sccp_channel_getDevice_retained c with
             | some d =>
               [Event.retain (Handle.device d.id),
                Event.indicate d c.callid sccp_channelstate_t.DIALING,
                Event.release (Handle.device d.id)]
             | none => []) }
      else
        { c := some c, trace := [] }
    else
      let timer : List Event := [Event.backend (BackendCall.sched_del c.scheduler_digittimeout)]
      let c1 : sccp_channel_t := { c with scheduler_digittimeout := none }
      if c1.calltype ≠ skinny_calltype_t.SKINNY_CALLTYPE_OUTBOUND then
        { c := some c1, trace := timer }
      else
        match sccp_channel_getDevice_retained c1 with
        | none => { c := some c1, trace := timer }
        | some d =>
          let retained : List Event := timer ++ [Event.retain (Handle.device d.id)]
          if d.id.length = 0 then
            { c := some c1, trace := retained ++ [Event.release (Handle.device d.id)] }
          else
            match c1.line with
            | none =>
              { c := some c1,
                trace := retained ++
                  (match c1.owner with
                   | some chan => [Event.backend (BackendCall.requestHangup chan)]
                   | none => []) ++
                  [Event.release (Handle.device d.id)] }
            | some l =>
              let lineInstance := env.sccp_device_find_index_for_line d l.name
              let copied := sccp_copy_string c1.dialedNumber 256
              if c1.dialedNumber.length ≠ copied.length then
                { c := some c1, trace := retained ++ [Event.driver DriverCall.assert_failed] }
              else
                let shortenedNumber := sccp_pbx_softswitch_shorten glob copied
                let c2 : sccp_channel_t :=
                  { c1 with
                    dialedNumber :=
                      sccp_pbx_softswitch_dialedNumber glob copied c1.dialedNumber }
                let after (r : SoftswitchResult) : SoftswitchResult :=
                  { r with trace := retained ++ r.trace }
                match c2.ss_action with
                | sccp_ss_action_t.SCCP_SS_GETFORWARDEXTEN =>
                  after
                    { c := some c2,
                      trace :=
                        (if shortenedNumber.length > 0 then
                           [Event.driver (DriverCall.line_cfwd l.name d c2.ss_data
                              shortenedNumber)]
                         else []) ++
                        [Event.driver (DriverCall.channel_endcall c2.callid),
                         Event.release (Handle.device d.id)] }
                | sccp_ss_action_t.SCCP_SS_GETPICKUPEXTEN =>
                  if env.CS_SCCP_PICKUP then
                    after (sccp_pbx_softswitch_feature c2 d lineInstance shortenedNumber
                      (Event.driver (DriverCall.feat_directpickup c2.callid shortenedNumber))
                      (env.sccp_feat_directpickup c2 shortenedNumber))
                  else
                    after (sccp_pbx_softswitch_dial env glob c2 d l lineInstance
                      shortenedNumber)
                | sccp_ss_action_t.SCCP_SS_GETMEETMEROOM =>
                  if shortenedNumber.length > 0 ∧ l.meetmenum.length > 0 then
                    after
                      { c := some c2,
                        trace :=
                          (if c2.owner.isSome ∧ env.pbx_check_hangup c2.owner = false then
                             [Event.backend (BackendCall.pbx_builtin_setvar_helper c2.owner
                                "SCCP_MEETME_ROOM" shortenedNumber)]
                           else []) ++
                          [Event.driver (DriverCall.feat_meetme_start c2.callid),
                           Event.release (Handle.device d.id)] }
                  else
                    after
                      { c := some c2,
                        trace :=
                          [Event.driver (DriverCall.channel_endcall c2.callid),
                           Event.release (Handle.device d.id)] }
                | sccp_ss_action_t.SCCP_SS_GETBARGEEXTEN =>
                  after (sccp_pbx_softswitch_feature c2 d lineInstance shortenedNumber
                    (Event.driver (DriverCall.feat_barge c2.callid shortenedNumber))
                    (env.sccp_feat_barge c2 shortenedNumber))
                | sccp_ss_action_t.SCCP_SS_GETCBARGEROOM =>
                  after (sccp_pbx_softswitch_feature c2 d lineInstance shortenedNumber
                    (Event.driver (DriverCall.feat_cbarge c2.callid shortenedNumber))
                    (env.sccp_feat_cbarge c2 shortenedNumber))
                | sccp_ss_action_t.SCCP_SS_DIAL =>
                  after (sccp_pbx_softswitch_dial env glob c2 d l lineInstance shortenedNumber)

/-- The function `sccp_pbx_softswitch(c)`, the branch compiled when `DDGNEW`
is not 0 (source lines 832-1134).  It is the text of the other branch with
one more test, after the test for a running PBX: without a backend owner
(`!c->owner`) it returns at once (source lines 862-864).  `chan` is
`c->owner`; the call of `pbx_check_hangup` in source line 869 only decides
a log line.  The blocks after the `switch` are the same calls as in the
other branch and are shared with it; the manager event of source line 1117
takes the channel name and unique id through the `PBX` wrappers, where the
other branch reads them from `chan`, and is recorded as the same call. -/
def sccp_pbx_softswitch_DDGNEW (env : Env) (glob : sccp_global_vars)
    (c0 : Option sccp_channel_t) : SoftswitchResult :=
  match c0 with
  | none => { c := none, trace := [] }
  | some cin =>
    let c : sccp_channel_t := sccp_pbx_softswitch_enbloc glob cin
    if env.getChannelPbx c then
      if c.dialedNumber.length > 0 then
        { c := some c,
          trace := sccp_pbx_senddigits env c c.dialedNumber ++
            [Event.channel_set_calledparty c.dialedNumber c.dialedNumber] ++
            (match sccp_channel_getDevice_retained c with
             | some d =>
               [Event.retain (Handle.device d.id),
                Event.indicate d c.callid sccp_channelstate_t.DIALING,
                Event.release (Handle.device d.id)]
             | none => []) }
      else
        { c := some c, trace := [] }
    else
      if c.owner.isNone then
        { c := some c, trace := [] }
      else
        let timer : List Event :=
          [Event.backend (BackendCall.sched_del c.scheduler_digittimeout)]
        let c1 : sccp_channel_t := { c with scheduler_digittimeout := none }
        if c1.calltype ≠ skinny_calltype_t.SKINNY_CALLTYPE_OUTBOUND then
          { c := some c1, trace := timer }
        else
          match sccp_channel_getDevice_retained c1 with
          | none => { c := some c1, trace := timer }
          | some d =>
            let retained : List Event := timer ++ [Event.retain (Handle.device d.id)]
            if d.id.length = 0 then
              { c := some c1, trace := retained ++ [Event.release (Handle.device d.id)] }
            else
              match c1.line with
              | none =>
                { c := some c1,
                  trace := retained ++
                    (match c1.owner with
                     | some chan => [Event.backend (BackendCall.requestHangup chan)]
                     | none => []) ++
                    [Event.release (Handle.device d.id)] }
              | some l =>
                let lineInstance := env.sccp_device_find_index_for_line d l.name
                let copied := sccp_copy_string c1.dialedNumber 256
                if c1.dialedNumber.length ≠ copied.length then
                  { c := some c1, trace := retained ++ [Event.driver DriverCall.assert_failed] }
                else
                  let shortenedNumber := sccp_pbx_softswitch_shorten glob copied
                  let c2 : sccp_channel_t :=
                    { c1 with
                      dialedNumber :=
                        sccp_pbx_softswitch_dialedNumber glob copied c1.dialedNumber }
                  let after (r : SoftswitchResult) : SoftswitchResult :=
                    { r with trace := retained ++ r.trace }
                  match c2.ss_action with
                  | sccp_ss_action_t.SCCP_SS_GETFORWARDEXTEN =>
                    after
                      { c := some c2,
                        trace :=
                          (if shortenedNumber.length > 0 then
                             [Event.driver (DriverCall.line_cfwd l.name d c2.ss_data
                                shortenedNumber)]
                           else []) ++
                          [Event.driver (DriverCall.channel_endcall c2.callid),
                           Event.release (Handle.device d.id)] }
                  | sccp_ss_action_t.SCCP_SS_GETPICKUPEXTEN =>
                    if env.CS_SCCP_PICKUP then
                      after (sccp_pbx_softswitch_feature c2 d lineInstance shortenedNumber
                        (Event.driver (DriverCall.feat_directpickup c2.callid shortenedNumber))
                        (env.sccp_feat_directpickup c2 shortenedNumber))
                    else
                      after (sccp_pbx_softswitch_dial env glob c2 d l lineInstance
                        shortenedNumber)
                  | sccp_ss_action_t.SCCP_SS_GETMEETMEROOM =>
                    if shortenedNumber.length > 0 ∧ l.meetmenum.length > 0 then
                      after
                        { c := some c2,
                          trace :=
                            (if c2.owner.isSome ∧ env.pbx_check_hangup c2.owner = false then
                               [Event.backend (BackendCall.pbx_builtin_setvar_helper c2.owner
                                  "SCCP_MEETME_ROOM" shortenedNumber)]
                             else []) ++
                            [Event.driver (DriverCall.feat_meetme_start c2.callid),
                             Event.release (Handle.device d.id)] }
                    else
                      after
                        { c := some c2,
                          trace :=
                            [Event.driver (DriverCall.channel_endcall c2.callid),
                             Event.release (Handle.device d.id)] }
                  | sccp_ss_action_t.SCCP_SS_GETBARGEEXTEN =>
                    after (sccp_pbx_softswitch_feature c2 d lineInstance shortenedNumber
                      (Event.driver (DriverCall.feat_barge c2.callid shortenedNumber))
                      (env.sccp_feat_barge c2 shortenedNumber))
                  | sccp_ss_action_t.SCCP_SS_GETCBARGEROOM =>
                    after (sccp_pbx_softswitch_feature c2 d lineInstance shortenedNumber
                      (Event.driver (DriverCall.feat_cbarge c2.callid shortenedNumber))
                      (env.sccp_feat_cbarge c2 shortenedNumber))
                  | sccp_ss_action_t.SCCP_SS_DIAL =>
                    after (sccp_pbx_softswitch_dial env glob c2 d l lineInstance shortenedNumber)

/-! ## `sccp_pbx_sched_dial` and `sccp_pbx_helper` -/

/-- What `sccp_pbx_sched_dial` leaves: its `int` result (`none` when the
soft switch it calls does not return), the channel and the calls made. -/
structure SchedDialResult where
  ret : Option Int
  c : Option sccp_channel_t
  trace : List Event
  deriving DecidableEq, Repr

/-- The function `sccp_pbx_sched_dial(data)` (source lines 755-767), the
callback of the digit timer.  `data = none` is the null pointer.  The call
of `sccp_pbx_softswitch` is recorded, followed by the calls that the soft
switch makes; when the soft switch stops at a failed `assert` the callback
does not return. -/
def sccp_pbx_sched_dial (env : Env) (glob : sccp_global_vars)
    (data : Option sccp_channel_t) : SchedDialResult :=
  match sccp_channel_retain data with
  | some c =>
    if c.owner.isSome ∧ env.getChannelPbx c = false then
      let r := sccp_pbx_softswitch env glob (some c)
      if Event.driver DriverCall.assert_failed ∈ r.trace then
        { ret := none, c := r.c,
          trace := [Event.retain (Handle.channel c.callid),
                    Event.pbx (PbxCall.pbx_softswitch c.callid)] ++ r.trace }
      else
        { ret := some 0, c := r.c,
          trace := [Event.retain (Handle.channel c.callid),
                    Event.pbx (PbxCall.pbx_softswitch c.callid)] ++ r.trace ++
            [Event.release (Handle.channel c.callid)] }
    else
      { ret := some 0, c := some c,
        trace := [Event.retain (Handle.channel c.callid),
                  Event.release (Handle.channel c.callid)] }
  | none => { ret := some 0, c := data, trace := [] }

/-- What `sccp_pbx_helper` yields: the extension status it returns (as the
integer value of the enumeration) and the calls made. -/
structure HelperResult where
  status : Nat
  trace : List Event
  deriving DecidableEq, Repr

/-- The function `sccp_pbx_helper(c)` (source lines 774-805).
`!extensionStatus` is `extensionStatus = 0`. -/
def sccp_pbx_helper (env : Env) (glob : sccp_global_vars) (v : sccp_extension_status_values)
    (c : sccp_channel_t) : HelperResult :=
  if c.dialedNumber.length > 0 ∧ glob.recorddigittimeoutchar = true ∧
      c.dialedNumber.toList.getLast? = some glob.digittimeoutchar then
    { status := v.SCCP_EXTENSION_EXACTMATCH, trace := [] }
  else if c.ss_action ≠ sccp_ss_action_t.SCCP_SS_GETCBARGEROOM ∧
      c.ss_action ≠ sccp_ss_action_t.SCCP_SS_GETMEETMEROOM then
    let extensionStatus := env.extension_status c
    match sccp_channel_getDevice_retained c with
    | some d =>
      if ((d.overlapFeature.enabled = true ∧ extensionStatus = 0) ∨
            (d.overlapFeature.enabled = false ∧ extensionStatus = 0)) ∧
          ((d.overlapFeature.enabled = true ∧ extensionStatus = 0) ∨
            (d.overlapFeature.enabled = false ∧ extensionStatus = 0)) then
        { status := v.SCCP_EXTENSION_MATCHMORE,
          trace := [Event.pbx (PbxCall.extension_status c.callid),
                    Event.retain (Handle.device d.id),
                    Event.release (Handle.device d.id)] }
      else
        { status := extensionStatus,
          trace := [Event.pbx (PbxCall.extension_status c.callid),
                    Event.retain (Handle.device d.id),
                    Event.release (Handle.device d.id)] }
    | none =>
      { status := extensionStatus,
        trace := [Event.pbx (PbxCall.extension_status c.callid)] }
  else
    { status := v.SCCP_EXTENSION_NOTEXISTS, trace := [] }

/-! ## `sccp_pbx_channel_allocate` -/

/-- What `sccp_pbx_channel_allocate` leaves: its `uint8_t` result as an
integer in 0..255 (`none` when the function does not return), the global use
count, the channel and the calls made. -/
structure AllocateResult where
  ret : Option Int
  usecnt : Int
  c : Option sccp_channel_t
  trace : List Event
  deriving DecidableEq, Repr

/-- Source lines 625-628: the binding at which the traversal of `l->devices`
stops, the first one whose device is `d` (`none` when the traversal runs to
its end).  The comparison of pointers `linedevice->device == d` is the
comparison of device ids. -/
def sccp_pbx_channel_allocate_linedevice (d : sccp_device_t)
    (devices : List sccp_linedevices_t) : Option sccp_linedevices_t :=
  devices.find? (fun linedevice => decide (linedevice.device.id = d.id))

/-- Source lines 631-675: the party name and number of the channel are
printed from the caller id of the line and the subscription id of the
binding found, or the default subscription id of the line.  The prints are
taken without overflow, the sizes of the buffers not being part of
`sccp_pbx.c`. -/
def sccp_pbx_channel_allocate_callInfo (c : sccp_channel_t) (l : sccp_line_t)
    (linedevice : Option sccp_linedevices_t) : sccp_callinfo_t :=
  let number : String :=
    match linedevice with
    | some ld =>
      if ld.subscriptionId.number.length > 0 then ld.subscriptionId.number
      else l.defaultSubscriptionId.number
    | none => l.defaultSubscriptionId.number
  let name : String :=
    match linedevice with
    | some ld =>
      if ld.subscriptionId.name.length > 0 then ld.subscriptionId.name
      else l.defaultSubscriptionId.name
    | none => l.defaultSubscriptionId.name
  match c.calltype with
  | skinny_calltype_t.SKINNY_CALLTYPE_INBOUND =>
    { c.callInfo with
      calledPartyNumber := l.cid_num ++ number
      calledPartyName := l.cid_name ++ name }
  | skinny_calltype_t.SKINNY_CALLTYPE_FORWARD =>
    { c.callInfo with
      callingPartyNumber := l.cid_num ++ number
      callingPartyName := l.cid_name ++ name }
  | skinny_calltype_t.SKINNY_CALLTYPE_OUTBOUND =>
    { c.callInfo with
      callingPartyNumber := l.cid_num ++ number
      callingPartyName := l.cid_name ++ name }

/-- The channel as `sccp_pbx_channel_allocate` hands it to the allocation of
the backend channel, its party name and number printed; `d` is the owning
device, if it could be retained. -/
def sccp_pbx_channel_allocate_shape (c : sccp_channel_t) (l : sccp_line_t)
    (d : Option sccp_device_t) : sccp_channel_t :=
  { c with
    callInfo := sccp_pbx_channel_allocate_callInfo c l
      (match d with
       | some dev => sccp_pbx_channel_allocate_linedevice dev l.devices
       | none => none) }

/-- Source lines 695-729: the calls between the allocation of the backend
channel `tmp` and the export of the device variables; the use count is
incremented under its mutex. -/
def sccp_pbx_channel_allocate_setup (env : Env) (c : sccp_channel_t) (l : sccp_line_t)
    (d : Option sccp_device_t) (tmp : Nat) : List Event :=
  [Event.driver (DriverCall.channel_updateChannelCapability c.callid),
   Event.pbx (PbxCall.set_nativeAudioFormats c.callid),
   Event.pbx (PbxCall.setChannelName c.callid l.name),
   Event.pbx (PbxCall.pbx_jb_configure tmp),
   Event.backend BackendCall.mutex_lock_usecnt,
   Event.backend BackendCall.mutex_unlock_usecnt,
   Event.backend BackendCall.pbx_update_use_count] ++
  (if env.set_callerid_number then
     [Event.pbx (PbxCall.set_callerid_number c.callid c.callInfo.callingPartyNumber)]
   else []) ++
  (if env.set_callerid_name then
     [Event.pbx (PbxCall.set_callerid_name c.callid c.callInfo.callingPartyName)]
   else []) ++
  (match d with
   | some dev =>
     if dev.monitor_requested ∧ dev.monitor_active = false then
       [Event.pbx (PbxCall.feat_monitor dev l.name c.callid),
        Event.pbx (PbxCall.feat_changed dev)]
     else []
   | none => [])

/-- The function `sccp_pbx_channel_allocate(c)` (source lines 596-746).
`c0 = none` is the null channel; `return -1` in a function that returns
`uint8_t` yields -1 reduced modulo 2^8.  Reading `d->session->sin` through a
null session ends the trace with `null_dereference`.  The log lines that
print `l->name` before the test of `l` are not modelled. -/
def sccp_pbx_channel_allocate (env : Env) (glob : sccp_global_vars)
    (c0 : Option sccp_channel_t) : AllocateResult :=
  match c0 with
  | none => { ret := some ((-1) % 2 ^ 8), usecnt := glob.usecnt, c := none, trace := [] }
  | some c =>
    match sccp_line_retain c.line with
    | none => { ret := some 0, usecnt := glob.usecnt, c := some c, trace := [] }
    | some l =>
      let d := sccp_channel_getDevice_retained c
      let c1 : sccp_channel_t := sccp_pbx_channel_allocate_shape c l d
      let head : List Event :=
        [Event.retain (Handle.line l.name)] ++
        (match d with
         | some dev =>
           [Event.retain (Handle.device dev.id),
            Event.list_lock_devices l.name,
            Event.list_unlock_devices l.name]
         | none => []) ++
        [Event.pbx (PbxCall.alloc_pbxChannel c1.callid)]
      match env.alloc_pbxChannel c1 with
      | none =>
        { ret := some 0, usecnt := glob.usecnt, c := some c1,
          trace := head ++ [Event.release (Handle.line l.name)] ++
            (match d with
             | some dev => [Event.release (Handle.device dev.id)]
             | none => []) }
      | some tmp =>
        let body : List Event := head ++ sccp_pbx_channel_allocate_setup env c1 l d tmp
        match d with
        | none =>
          { ret := some 1, usecnt := glob.usecnt + 1, c := some c1,
            trace := body ++ [Event.release (Handle.line l.name)] }
        | some dev =>
          match dev.session with
          | none =>
            { ret := none, usecnt := glob.usecnt + 1, c := some c1,
              trace := body ++
                [Event.backend (BackendCall.pbx_builtin_setvar_helper (some tmp)
                   "SCCP_DEVICE_MAC" dev.id),
                 Event.null_dereference] }
          | some session =>
            { ret := some 1, usecnt := glob.usecnt + 1, c := some c1,
              trace := body ++
                [Event.backend (BackendCall.pbx_builtin_setvar_helper (some tmp)
                   "SCCP_DEVICE_MAC" dev.id),
                 Event.backend (BackendCall.pbx_builtin_setvar_helper (some tmp)
                   "SCCP_DEVICE_IP" (env.pbx_inet_ntoa session.sin_addr)),
                 Event.backend (BackendCall.pbx_builtin_setvar_helper (some tmp)
                   "SCCP_DEVICE_TYPE" (env.devicetype2str dev.skinny_type)),
                 Event.release (Handle.line l.name),
                 Event.release (Handle.device dev.id)] }

/-! ## Vocabulary of the statements -/

/-- A control frame queued to the originating side. -/
def Event.isControl : Event → Bool
  | Event.queue_control _ => true
  | _ => false

/-- A call that only the body of the second traversal makes: a forward
request with its follow-up messages, an indication to a device, an
auto-answer job, and the handles taken on the way. -/
def Event.isBindingWork : Event → Bool
  | Event.channel_forward _ _ => true
  | Event.device_sendcallstate _ _ _ _ => true
  | Event.channel_send_callinfo _ _ => true
  | Event.indicate _ _ _ => true
  | Event.threadpool_add_work _ => true
  | Event.retain (Handle.channel _) => true
  | Event.release (Handle.channel _) => true
  | Event.retain (Handle.linedevice _) => true
  | _ => false

/-- A forward request or an indication to a device. -/
def Event.isOffer : Event → Bool
  | Event.channel_forward _ _ => true
  | Event.indicate _ _ _ => true
  | _ => false

/-- An indication (of any state) to a device. -/
def Event.isIndication : Event → Bool
  | Event.indicate _ _ _ => true
  | _ => false

/-- A Ringing indication to some device. -/
def Event.isRingingIndication : Event → Bool
  | Event.indicate _ _ sccp_channelstate_t.RINGING => true
  | _ => false

/-- An auto-answer job handed to the thread pool. -/
def Event.isAutoanswerJob : Event → Bool
  | Event.threadpool_add_work _ => true
  | _ => false

/-- An effect of answering: the answer transition, a tone, or a microphone
change. -/
def Event.isAnswerEffect : Event → Bool
  | Event.channel_answer _ _ => true
  | Event.dev_starttone _ _ _ _ _ => true
  | Event.dev_set_microphone_off _ => true
  | _ => false

/-- The answer transition itself. -/
def Event.isAnswer : Event → Bool
  | Event.channel_answer _ _ => true
  | _ => false

/-- A release of a handle. -/
def Event.isRelease : Event → Bool
  | Event.release _ => true
  | _ => false

/-- The call id of the channel whose handle a call releases. -/
def Event.releasedChannel : Event → Option Nat
  | Event.release (Handle.channel callid) => some callid
  | _ => none

/-- The call id of the channel that an end-call is issued on. -/
def Event.endcallTarget : Event → Option Nat
  | Event.driver (DriverCall.channel_endcall callid) => some callid
  | _ => none

/-- A release of media resources: close-receive-channel or media-destroy. -/
def Event.isMediaRelease : Event → Bool
  | Event.driver (DriverCall.channel_closereceivechannel _) => true
  | Event.driver (DriverCall.rtp_destroy _) => true
  | _ => false

/-- The cancellation of a timer. -/
def Event.isTimerCancel : Event → Bool
  | Event.backend (BackendCall.sched_del _) => true
  | _ => false

/-- A teardown step of the hangup other than the on-hook indication to the
owning device, the media release and the timer cancellation: an end-call,
the removal from the line, the clean and destroy of the channel, and the
release of a handle. -/
def Event.isLaterTeardown : Event → Bool
  | Event.driver (DriverCall.channel_endcall _) => true
  | Event.driver (DriverCall.line_removeChannel _ _) => true
  | Event.driver (DriverCall.channel_clean _) => true
  | Event.driver (DriverCall.channel_destroy _) => true
  | Event.release _ => true
  | _ => false

/-- The dial-start call of the backend. -/
def Event.isDialStart : Event → Bool
  | Event.backend (BackendCall.pbx_pbx_start _) => true
  | _ => false

/-- The extension that a call sets on the backend channel. -/
def Event.extenSet : Event → Option String
  | Event.backend (BackendCall.setChannelExten _ exten) => some exten
  | _ => none

/-- The name and number that a call sets as the calling party. -/
def Event.callingPartySet : Event → Option (Option String × Option String)
  | Event.channel_set_callingparty name number => some (name, number)
  | _ => none

/-- A soft-switch action of the `switch` on `c->ss_action`: a forward
setting, a pickup, a barge, a conference barge, a meet-me start, or the
end-call that closes the action. -/
def Event.isSoftSwitchAction : Event → Bool
  | Event.driver (DriverCall.line_cfwd _ _ _ _) => true
  | Event.driver (DriverCall.feat_directpickup _ _) => true
  | Event.driver (DriverCall.feat_barge _ _) => true
  | Event.driver (DriverCall.feat_cbarge _ _) => true
  | Event.driver (DriverCall.feat_meetme_start _) => true
  | Event.driver (DriverCall.channel_endcall _) => true
  | _ => false

/-- The digits that a call sends to the backend. -/
def Event.digitsSent : Event → Option String
  | Event.backend (BackendCall.send_digits _ digits) => some digits
  | _ => none

/-- The reference definition that claim C28 compares `sccp_pbx_helper`
with, written from the words of the claim: ExactMatch if the dialed number
is non-empty, the timeout character is recorded and the last dialed
character is the configured timeout character; otherwise NotExists if the
soft-switch action is get-meetme-room or get-conference-barge-room;
otherwise MatchMore if the channel has an owning device (one that
`sccp_channel_getDevice_retained` yields) and the backend extension status
is the zero value; otherwise the backend extension status. -/
def sccp_pbx_helper_reference (env : Env) (glob : sccp_global_vars)
    (v : sccp_extension_status_values) (c : sccp_channel_t) : Nat :=
  if c.dialedNumber.length > 0 ∧ glob.recorddigittimeoutchar = true ∧
      c.dialedNumber.toList.getLast? = some glob.digittimeoutchar then
    v.SCCP_EXTENSION_EXACTMATCH
  else if c.ss_action = sccp_ss_action_t.SCCP_SS_GETMEETMEROOM ∨
      c.ss_action = sccp_ss_action_t.SCCP_SS_GETCBARGEROOM then
    v.SCCP_EXTENSION_NOTEXISTS
  else if (sccp_channel_getDevice_retained c).isSome = true ∧ env.extension_status c = 0 then
    v.SCCP_EXTENSION_MATCHMORE
  else
    env.extension_status c

/-- The channel with the overlap-dial flag of its owning device set to
`enabled`. -/
def withOverlap (c : sccp_channel_t) (enabled : Bool) : sccp_channel_t :=
  { c with
    device := c.device.map (fun d =>
      { d with overlapFeature := { d.overlapFeature with enabled := enabled } }) }

/-- A call that queries the backend for the extension status. -/
def Event.isExtensionQuery : Event → Bool
  | Event.pbx (PbxCall.extension_status _) => true
  | _ => false

/-- A failed `assert`, or a call that only the timer callback, the helper
and the allocation make. -/
def Event.isOutsideSoftswitch : Event → Bool
  | Event.driver DriverCall.assert_failed => true
  | Event.pbx _ => true
  | _ => false

/-- The call of `sccp_pbx_softswitch` by the timer callback. -/
def Event.isSoftswitchCall : Event → Bool
  | Event.pbx (PbxCall.pbx_softswitch _) => true
  | _ => false

/-- The backend channel that `PBX(alloc_pbxChannel)` yields in
`sccp_pbx_channel_allocate`, when the function gets as far as the allocation
(a channel whose line can be retained); `none` when it does not get there
or the allocation fails. -/
def allocatedChannel (env : Env) (c0 : Option sccp_channel_t) : Option Nat :=
  match c0 with
  | none => none
  | some c =>
    match sccp_line_retain c.line with
    | none => none
    | some l =>
      env.alloc_pbxChannel
        (sccp_pbx_channel_allocate_shape c l (sccp_channel_getDevice_retained c))

/-- A retain or a release of a handle. -/
def Event.isHandleOp : Event → Bool
  | Event.retain _ => true
  | Event.release _ => true
  | _ => false

/-- A line, device or channel handle (not the handle of a binding). -/
def Handle.isEntity : Handle → Bool
  | Handle.linedevice _ => false
  | _ => true

/-- Every line, device or channel handle is released in the trace as often
as it is retained in it. -/
def balanced (trace : List Event) : Prop :=
  ∀ h : Handle, h.isEntity = true →
    trace.count (Event.release h) = trace.count (Event.retain h)

/-- The calls the second traversal makes for one binding. -/
def bindingEvents (env : Env) (c : sccp_channel_t) (ld : sccp_linedevices_t) : List Event :=
  (sccp_pbx_call_binding env c {} ld).trace

/-- The binding has forward-all enabled and the forward request returns 0. -/
def forwardedOk (env : Env) (c : sccp_channel_t) (ld : sccp_linedevices_t) : Prop :=
  ld.cfwdAll.enabled = true ∧ env.sccp_channel_forward c ld ld.cfwdAll.number = 0

/-- The binding has no forward-all, its device has a live session and its
subscription id matches the one the channel asks for. -/
def liveMatch (env : Env) (c : sccp_channel_t) (ld : sccp_linedevices_t) : Prop :=
  ld.cfwdAll.enabled = false ∧ ld.device.session.isSome = true ∧
    env.sccp_util_matchSubscriptionId c ld.subscriptionId.number = true

/-- The device has DND enabled in reject mode. -/
def dndReject (d : sccp_device_t) : Prop :=
  d.dndFeature.enabled = true ∧ d.dndFeature.status = sccp_dndmode_t.SCCP_DNDMODE_REJECT

/-- The binding is shown Call-Waiting: live, matching, device on a call. -/
def shownCallWaiting (env : Env) (c : sccp_channel_t) (ld : sccp_linedevices_t) : Prop :=
  liveMatch env c ld ∧ (env.sccp_channel_get_active ld.device).isSome = true

/-- The binding is rung: live, matching, device free and not in DND-reject. -/
def rung (env : Env) (c : sccp_channel_t) (ld : sccp_linedevices_t) : Prop :=
  liveMatch env c ld ∧ env.sccp_channel_get_active ld.device = none ∧ ¬ dndReject ld.device

/-- The binding is skipped for DND-reject: live, matching, device free and
in DND-reject. -/
def dndSkipped (env : Env) (c : sccp_channel_t) (ld : sccp_linedevices_t) : Prop :=
  liveMatch env c ld ∧ env.sccp_channel_get_active ld.device = none ∧ dndReject ld.device

instance (env : Env) (c : sccp_channel_t) (ld : sccp_linedevices_t) :
    Decidable (forwardedOk env c ld) := by
  unfold forwardedOk; infer_instance

instance (env : Env) (c : sccp_channel_t) (ld : sccp_linedevices_t) :
    Decidable (liveMatch env c ld) := by
  unfold liveMatch; infer_instance

instance (d : sccp_device_t) : Decidable (dndReject d) := by
  unfold dndReject; infer_instance

instance (env : Env) (c : sccp_channel_t) (ld : sccp_linedevices_t) :
    Decidable (shownCallWaiting env c ld) := by
  unfold shownCallWaiting; infer_instance

instance (env : Env) (c : sccp_channel_t) (ld : sccp_linedevices_t) :
    Decidable (rung env c ld) := by
  unfold rung; infer_instance

instance (env : Env) (c : sccp_channel_t) (ld : sccp_linedevices_t) :
    Decidable (dndSkipped env c ld) := by
  unfold dndSkipped; infer_instance

/-! ## Concrete inputs -/

/-- A binding of device `SEP-A` with forward-all to `200`. -/
def ex_A : sccp_linedevices_t :=
  { device := { id := "SEP-A", session := some {} }, lineInstance := 1,
    cfwdAll := { enabled := true, number := "200" } }

/-- A binding of device `SEP-B`, which is on a call in `ex_env`. -/
def ex_B : sccp_linedevices_t :=
  { device := { id := "SEP-B", session := some {} }, lineInstance := 1 }

/-- A binding of the free device `SEP-C`. -/
def ex_C : sccp_linedevices_t :=
  { device := { id := "SEP-C", session := some {} }, lineInstance := 1 }

/-- A binding of the free device `SEP-D`, which has DND in reject mode. -/
def ex_D : sccp_linedevices_t :=
  { device := { id := "SEP-D", session := some {},
                dndFeature := { enabled := true,
                                status := sccp_dndmode_t.SCCP_DNDMODE_REJECT } },
    lineInstance := 1 }

/-- A binding of device `SEP-E`, which has DND in reject mode and is on a
call in `ex_env`. -/
def ex_E : sccp_linedevices_t :=
  { device := { id := "SEP-E", session := some {},
                dndFeature := { enabled := true,
                                status := sccp_dndmode_t.SCCP_DNDMODE_REJECT } },
    lineInstance := 1 }

/-- A binding of device `SEP-N`, which has no session. -/
def ex_N : sccp_linedevices_t :=
  { device := { id := "SEP-N", session := none }, lineInstance := 1 }

/-- An environment: forwards to `200` succeed, every subscription id
matches, devices `SEP-B` and `SEP-E` have the active channel 7, allocation
succeeds, and call id 1 resolves to a Ringing channel on line `100`. -/
def ex_env : Env :=
  { sccp_channel_forward := fun _ _ number => if number = "200" then 0 else -1
    sccp_util_matchSubscriptionId := fun _ _ => true
    sccp_channel_get_active := fun d =>
      if d.id = "SEP-B" ∨ d.id = "SEP-E" then some { callid := 7 } else none
    sccp_calloc := fun _ => true
    get_callerid_presence := none
    sccp_channel_find_byid := fun callid =>
      if callid = 1 then
        some { callid := 1, state := sccp_channelstate_t.RINGING,
               line := some { name := "100" } }
      else none
    sccp_device_find_index_for_line := fun _ _ => 1 }

/-- A line with limit 2 and one channel, bound to `ex_A`, `ex_B`, `ex_C`. -/
def ex_line : sccp_line_t :=
  { name := "100", incominglimit := 2, devices := [ex_A, ex_B, ex_C],
    channels := [{ callid := 1 }] }

/-- An inbound channel on `ex_line`. -/
def ex_chan : sccp_channel_t := { callid := 1, line := some ex_line }

/-- A line over its limit (two channels, limit 1) whose only bound device
has no session. -/
def ex_line_over_nosession : sccp_line_t :=
  { name := "100", incominglimit := 1, devices := [ex_N],
    channels := [{ callid := 1 }, { callid := 2 }] }

/-- An inbound channel on `ex_line_over_nosession`. -/
def ex_chan_over_nosession : sccp_channel_t :=
  { callid := 2, line := some ex_line_over_nosession }

/-- A line over its limit (two channels, limit 1) with a live device. -/
def ex_line_over : sccp_line_t :=
  { name := "100", incominglimit := 1, devices := [ex_A, ex_B, ex_C],
    channels := [{ callid := 1 }, { callid := 2 }] }

/-- An inbound channel on `ex_line_over`. -/
def ex_chan_over : sccp_channel_t := { callid := 2, line := some ex_line_over }

/-- A line exactly at its limit (two channels, limit 2). -/
def ex_line_at_limit : sccp_line_t :=
  { name := "100", incominglimit := 2, devices := [ex_A, ex_B, ex_C],
    channels := [{ callid := 1 }, { callid := 2 }] }

/-- An inbound channel on `ex_line_at_limit`. -/
def ex_chan_at_limit : sccp_channel_t := { callid := 2, line := some ex_line_at_limit }

/-- A line within its limit whose only binding is `ex_E`: DND in reject
mode, no forward-all, device on a call. -/
def ex_line_dnd_oncall : sccp_line_t :=
  { name := "100", incominglimit := 2, devices := [ex_E], channels := [{ callid := 1 }] }

/-- An inbound channel on `ex_line_dnd_oncall`. -/
def ex_chan_dnd_oncall : sccp_channel_t := { callid := 1, line := some ex_line_dnd_oncall }

/-- A line within its limit whose only binding is `ex_D`: DND in reject
mode, no forward-all, device free. -/
def ex_line_dnd : sccp_line_t :=
  { name := "100", incominglimit := 2, devices := [ex_D], channels := [{ callid := 1 }] }

/-- An inbound channel on `ex_line_dnd`. -/
def ex_chan_dnd : sccp_channel_t := { callid := 1, line := some ex_line_dnd }

/-- An environment for the answer of a forwarded leg: the backend channel
20 has the bridge peer `SIP/peer-1`, which resolves to backend channel 30,
and the masquerade succeeds. -/
def ex_env_answer : Env :=
  { ex_env with
    pbx_builtin_getvar_helper := fun chan name =>
      if chan = some 20 ∧ name = "BRIDGEPEER" then some "SIP/peer-1" else none
    getChannelByName := fun name => if name = "SIP/peer-1" then some 30 else none
    pbx_channel_masquerade := fun _ _ => 0 }

/-- A forwarded leg: channel 5 on backend channel 20, with parent channel 4
on backend channel 10. -/
def ex_child : sccp_channel_t :=
  { callid := 5, owner := some 20, line := some ex_line,
    calltype := skinny_calltype_t.SKINNY_CALLTYPE_FORWARD,
    parentChannel := some { callid := 4, owner := some 10 } }

/-- A binding of device `SEP-U`, which has a session but is not registered
(registration in progress). -/
def ex_U : sccp_linedevices_t :=
  { device := { id := "SEP-U", session := some {},
                registrationState := skinny_registrationstate_t.SKINNY_DEVICE_RS_PROGRESS },
    lineInstance := 1 }

/-- A line with channel 4, its forwarded children 5 and 6 and the unrelated
channel 7, bound to `ex_B`, `ex_C` and the unregistered `ex_U`. -/
def ex_line_children : sccp_line_t :=
  { name := "100", incominglimit := 5, devices := [ex_B, ex_C, ex_U],
    channels := [{ callid := 4 }, { callid := 5, parentChannel := some 4 }, { callid := 7 },
                 { callid := 6, parentChannel := some 4 }] }

/-- The ringing channel 4 on `ex_line_children`: no owning device, audio
allocated, digit timer 3 pending. -/
def ex_parent : sccp_channel_t :=
  { callid := 4, state := sccp_channelstate_t.RINGING, line := some ex_line_children,
    owner := some 10, rtp_audio := true, scheduler_digittimeout := some 3 }

/-- The connected channel 4 on `ex_line_children`, owned by the registered
device `SEP-B`: audio allocated, digit timer 3 pending. -/
def ex_owned : sccp_channel_t :=
  { callid := 4, state := sccp_channelstate_t.CONNECTED, line := some ex_line_children,
    owner := some 10, device := some ex_B.device, rtp_audio := true,
    scheduler_digittimeout := some 3 }

/-- An already destroyed channel. -/
def ex_dead : sccp_channel_t :=
  { callid := 9, alive := false, line := some ex_line_children, owner := some 11 }

/-- An inbound channel whose line pointer is null. -/
def ex_chan_noline : sccp_channel_t := { callid := 3, line := none }

/-- A line within its limit whose only bound device has no session. -/
def ex_line_nosession : sccp_line_t :=
  { name := "100", incominglimit := 2, devices := [ex_N], channels := [{ callid := 1 }] }

/-- An inbound channel on `ex_line_nosession`. -/
def ex_chan_nosession : sccp_channel_t := { callid := 1, line := some ex_line_nosession }

/-- An inbound channel on `ex_line` whose caller number starts with the
marker digit. -/
def ex_chan_cid : sccp_channel_t :=
  { callid := 1, line := some ex_line,
    callInfo := { callingPartyName := "Alice", callingPartyNumber := "0301234" } }

/-- An environment for the soft switch: no PBX runs yet on a channel, the
backend channel is not hung up, the extension `0301234` exists, and the
dial plan starts. -/
def ex_env_dial : Env :=
  { ex_env with
    getChannelPbx := fun _ => false
    pbx_check_hangup := fun _ => false
    pbx_exists_extension := fun _ exten _ => exten = "0301234"
    pbx_pbx_start := fun _ => ast_pbx_result.AST_PBX_SUCCESS }

/-- An environment as `ex_env_dial` in which the dial plan fails to start. -/
def ex_env_dial_failed : Env :=
  { ex_env_dial with pbx_pbx_start := fun _ => ast_pbx_result.AST_PBX_FAILED }

/-- An outbound channel on `ex_line`, owned by device `SEP-C`, with the
dialed digits `0301234#`. -/
def ex_dialing : sccp_channel_t :=
  { callid := 8, state := sccp_channelstate_t.DIALING, line := some ex_line,
    owner := some 40, device := some ex_C.device, dialedNumber := "0301234#",
    scheduler_digittimeout := some 2 }

/-- An inbound channel on `ex_line` that requests one-way auto-answer. -/
def ex_chan_auto : sccp_channel_t :=
  { callid := 1, line := some ex_line,
    autoanswer_type := sccp_autoanswer_type_t.SCCP_AUTOANSWER_1W }

/-- Settings that record the timeout character and configure `*` as that
character. -/
def ex_glob_star : sccp_global_vars :=
  { recorddigittimeoutchar := true, digittimeoutchar := '*' }

/-- An environment as `ex_env_dial` in which a PBX already runs on every
channel. -/
def ex_env_pbx : Env :=
  { ex_env_dial with getChannelPbx := fun _ => true }

/-- The channel `ex_dialing` without a backend owner. -/
def ex_dialing_noowner : sccp_channel_t := { ex_dialing with owner := none }

/-- An environment in which the backend allocates channel 50 for every
channel. -/
def ex_env_alloc : Env :=
  { ex_env with alloc_pbxChannel := fun _ => some 50 }

/-- The channel `ex_dialing` on `ex_line_nosession`, owned by device
`SEP-N`, which is bound to that line and has no session. -/
def ex_dialing_nosession : sccp_channel_t :=
  { ex_dialing with line := some ex_line_nosession, device := some ex_N.device }

/-! ## Lemmas on the traversals -/

theorem hasSession_foldl (devices : List sccp_linedevices_t) (b : Bool) :
    devices.foldl (fun hasSession linedevice =>
      if linedevice.device.session.isSome then true else hasSession) b = true ↔
    b = true ∨ ∃ ld ∈ devices, ld.device.session.isSome = true := by
  induction devices generalizing b with
  | nil => simp
  | cons x xs ih =>
    rw [List.foldl_cons, ih]
    by_cases hx : x.device.session.isSome = true
    · simp [hx]
    · simp [hx]

theorem hasSession_iff (devices : List sccp_linedevices_t) :
    sccp_pbx_call_hasSession devices = true ↔
      ∃ ld ∈ devices, ld.device.session.isSome = true := by
  unfold sccp_pbx_call_hasSession
  rw [hasSession_foldl]
  simp

theorem binding_trace (env : Env) (c : sccp_channel_t) (st : FanoutState)
    (ld : sccp_linedevices_t) :
    (sccp_pbx_call_binding env c st ld).trace = st.trace ++ bindingEvents env c ld := by
  unfold bindingEvents sccp_pbx_call_binding
  split_ifs <;> try simp
  all_goals (split <;> try simp)

theorem binding_isRinging (env : Env) (c : sccp_channel_t) (st : FanoutState)
    (ld : sccp_linedevices_t) :
    (sccp_pbx_call_binding env c st ld).isRinging =
      (st.isRinging || (sccp_pbx_call_binding env c {} ld).isRinging) := by
  unfold sccp_pbx_call_binding
  split_ifs <;> try simp
  all_goals (split <;> try simp)

theorem binding_hasDND (env : Env) (c : sccp_channel_t) (st : FanoutState)
    (ld : sccp_linedevices_t) :
    (sccp_pbx_call_binding env c st ld).hasDNDParticipant =
      (st.hasDNDParticipant || (sccp_pbx_call_binding env c {} ld).hasDNDParticipant) := by
  unfold sccp_pbx_call_binding
  split_ifs <;> try simp
  all_goals (split <;> try simp)

theorem fanout_foldl_trace (env : Env) (c : sccp_channel_t)
    (devices : List sccp_linedevices_t) (st : FanoutState) :
    (devices.foldl (sccp_pbx_call_binding env c) st).trace =
      st.trace ++ devices.flatMap (bindingEvents env c) := by
  induction devices generalizing st with
  | nil => simp
  | cons x xs ih =>
    rw [List.foldl_cons, ih, binding_trace, List.flatMap_cons, List.append_assoc]

theorem fanout_foldl_isRinging (env : Env) (c : sccp_channel_t)
    (devices : List sccp_linedevices_t) (st : FanoutState) :
    (devices.foldl (sccp_pbx_call_binding env c) st).isRinging =
      (st.isRinging ||
        devices.any (fun ld => (sccp_pbx_call_binding env c {} ld).isRinging)) := by
  induction devices generalizing st with
  | nil => simp
  | cons x xs ih =>
    rw [List.foldl_cons, ih, binding_isRinging, List.any_cons, Bool.or_assoc]

theorem fanout_foldl_hasDND (env : Env) (c : sccp_channel_t)
    (devices : List sccp_linedevices_t) (st : FanoutState) :
    (devices.foldl (sccp_pbx_call_binding env c) st).hasDNDParticipant =
      (st.hasDNDParticipant ||
        devices.any (fun ld => (sccp_pbx_call_binding env c {} ld).hasDNDParticipant)) := by
  induction devices generalizing st with
  | nil => simp
  | cons x xs ih =>
    rw [List.foldl_cons, ih, binding_hasDND, List.any_cons, Bool.or_assoc]

theorem fanout_trace (env : Env) (c : sccp_channel_t) (devices : List sccp_linedevices_t) :
    (sccp_pbx_call_fanout env c devices).trace = devices.flatMap (bindingEvents env c) := by
  unfold sccp_pbx_call_fanout
  rw [fanout_foldl_trace]
  rfl

theorem fanout_isRinging (env : Env) (c : sccp_channel_t) (devices : List sccp_linedevices_t) :
    (sccp_pbx_call_fanout env c devices).isRinging =
      devices.any (fun ld => (sccp_pbx_call_binding env c {} ld).isRinging) := by
  unfold sccp_pbx_call_fanout
  rw [fanout_foldl_isRinging]
  rfl

theorem fanout_hasDND (env : Env) (c : sccp_channel_t) (devices : List sccp_linedevices_t) :
    (sccp_pbx_call_fanout env c devices).hasDNDParticipant =
      devices.any (fun ld => (sccp_pbx_call_binding env c {} ld).hasDNDParticipant) := by
  unfold sccp_pbx_call_fanout
  rw [fanout_foldl_hasDND]
  rfl

/-- What one binding contributes to `isRinging`, in terms of the binding. -/
theorem binding_isRinging_iff (env : Env) (c : sccp_channel_t) (ld : sccp_linedevices_t) :
    (sccp_pbx_call_binding env c {} ld).isRinging = true ↔
      forwardedOk env c ld ∨ shownCallWaiting env c ld ∨ rung env c ld := by
  unfold sccp_pbx_call_binding forwardedOk shownCallWaiting rung liveMatch dndReject
  by_cases hf : ld.cfwdAll.enabled = true
  · by_cases h0 : env.sccp_channel_forward c ld ld.cfwdAll.number = 0 <;> simp [hf, h0]
  · by_cases hs : ld.device.session.isNone = true
    · have : ld.device.session.isSome = false := by
        cases h : ld.device.session <;> simp_all
      simp [hf, hs, this]
    · have hs2 : ld.device.session.isSome = true := by
        cases h : ld.device.session <;> simp_all
      by_cases hm : env.sccp_util_matchSubscriptionId c ld.subscriptionId.number = true
      · cases ha : env.sccp_channel_get_active ld.device with
        | some a => simp [hf, hs, hs2, hm, ha]
        | none =>
          by_cases hd : ld.device.dndFeature.enabled = true ∧
              ld.device.dndFeature.status = sccp_dndmode_t.SCCP_DNDMODE_REJECT
          · simp [hf, hs, hs2, hm, ha, hd]
          · simp only [hf, hs, hs2, hm, ha, hd]
            split_ifs <;> simp_all
      · simp [hf, hs, hs2, hm]

/-- What one binding contributes to `hasDNDParticipant`, in terms of the
binding. -/
theorem binding_hasDND_iff (env : Env) (c : sccp_channel_t) (ld : sccp_linedevices_t) :
    (sccp_pbx_call_binding env c {} ld).hasDNDParticipant = true ↔ dndSkipped env c ld := by
  unfold sccp_pbx_call_binding dndSkipped liveMatch dndReject
  by_cases hf : ld.cfwdAll.enabled = true
  · by_cases h0 : env.sccp_channel_forward c ld ld.cfwdAll.number = 0 <;> simp [hf, h0]
  · by_cases hs : ld.device.session.isNone = true
    · have : ld.device.session.isSome = false := by
        cases h : ld.device.session <;> simp_all
      simp [hf, hs, this]
    · have hs2 : ld.device.session.isSome = true := by
        cases h : ld.device.session <;> simp_all
      by_cases hm : env.sccp_util_matchSubscriptionId c ld.subscriptionId.number = true
      · cases ha : env.sccp_channel_get_active ld.device with
        | some a => simp [hf, hs, hs2, hm, ha]
        | none =>
          by_cases hd : ld.device.dndFeature.enabled = true ∧
              ld.device.dndFeature.status = sccp_dndmode_t.SCCP_DNDMODE_REJECT
          · simp [hf, hs, hs2, hm, ha, hd]
          · simp only [hf, hs, hs2, hm, ha, hd]
            split_ifs <;> simp_all
      · simp [hf, hs, hs2, hm]

/-- Every call of the traversal body is per-binding work; none is a control
frame. -/
theorem bindingEvents_work (env : Env) (c : sccp_channel_t) (ld : sccp_linedevices_t) :
    ∀ e ∈ bindingEvents env c ld, e.isBindingWork = true ∧ e.isControl = false := by
  unfold bindingEvents sccp_pbx_call_binding
  split_ifs <;> try simp [Event.isBindingWork, Event.isControl]
  all_goals (split <;> try simp [Event.isBindingWork, Event.isControl])

theorem fanout_work (env : Env) (c : sccp_channel_t) (devices : List sccp_linedevices_t) :
    ∀ e ∈ (sccp_pbx_call_fanout env c devices).trace,
      e.isBindingWork = true ∧ e.isControl = false := by
  intro e he
  rw [fanout_trace, List.mem_flatMap] at he
  obtain ⟨ld, _, hld⟩ := he
  exact bindingEvents_work env c ld e hld

/-! ## Admission (claims C1, C2) -/

/-- C1, as stated, fails: on a line that is over its limit (two channels,
limit 1) but whose only bound device has no session, `sccp_pbx_call` returns
-1 and queues no control frame at all, so the call is not rejected with
Busy. -/
theorem sccp_pbx_call_over_limit_no_session :
    sccp_line_retain ex_chan_over_nosession.line = some ex_line_over_nosession ∧
    ex_line_over_nosession.channels.length > ex_line_over_nosession.incominglimit ∧
    (sccp_pbx_call ex_env {} ex_chan_over_nosession).ret = -1 ∧
    (sccp_pbx_call ex_env {} ex_chan_over_nosession).trace.filter Event.isControl = [] := by
  decide

/-- C1, amended: when the line of the channel can be retained and at least
one bound device has a live session, a channel count above the incoming
limit makes `sccp_pbx_call` queue exactly one control frame, Busy, and do no
per-binding work; the whole call is: retain the line, scan the devices
under the lock, release the line, set the backend state to Busy, queue
Busy, return 0. -/
theorem sccp_pbx_call_limit_busy (env : Env) (glob : sccp_global_vars) (c : sccp_channel_t)
    (l : sccp_line_t)
    (hl : sccp_line_retain c.line = some l)
    (hs : ∃ ld ∈ l.devices, ld.device.session.isSome = true)
    (hlim : l.channels.length > l.incominglimit) :
    (sccp_pbx_call env glob c).trace.filter Event.isControl =
      [Event.queue_control ast_control_t.AST_CONTROL_BUSY] ∧
    (∀ e ∈ (sccp_pbx_call env glob c).trace, e.isBindingWork = false) ∧
    (sccp_pbx_call env glob c).trace =
      [Event.retain (Handle.line l.name),
       Event.list_lock_devices l.name,
       Event.list_unlock_devices l.name,
       Event.release (Handle.line l.name),
       Event.pbx_setstate ast_state_t.AST_STATE_BUSY,
       Event.queue_control ast_control_t.AST_CONTROL_BUSY] ∧
    (sccp_pbx_call env glob c).ret = 0 := by
  have hs2 : sccp_pbx_call_hasSession l.devices = true := (hasSession_iff _).2 hs
  have ht : (sccp_pbx_call env glob c).trace =
      [Event.retain (Handle.line l.name),
       Event.list_lock_devices l.name,
       Event.list_unlock_devices l.name,
       Event.release (Handle.line l.name),
       Event.pbx_setstate ast_state_t.AST_STATE_BUSY,
       Event.queue_control ast_control_t.AST_CONTROL_BUSY] := by
    simp [sccp_pbx_call, hl, hs2, hlim]
  refine ⟨?_, ?_, ht, ?_⟩
  · rw [ht]; simp [List.filter, Event.isControl]
  · rw [ht]; simp [Event.isBindingWork]
  · simp [sccp_pbx_call, hl, hs2, hlim]

/-- The amended C1 at `ex_chan_over`: two channels, limit 1, live devices. -/
theorem sccp_pbx_call_limit_busy_witness :
    (sccp_pbx_call ex_env {} ex_chan_over).trace.filter Event.isControl =
      [Event.queue_control ast_control_t.AST_CONTROL_BUSY] ∧
    (∀ e ∈ (sccp_pbx_call ex_env {} ex_chan_over).trace, e.isBindingWork = false) ∧
    (sccp_pbx_call ex_env {} ex_chan_over).trace =
      [Event.retain (Handle.line ex_line_over.name),
       Event.list_lock_devices ex_line_over.name,
       Event.list_unlock_devices ex_line_over.name,
       Event.release (Handle.line ex_line_over.name),
       Event.pbx_setstate ast_state_t.AST_STATE_BUSY,
       Event.queue_control ast_control_t.AST_CONTROL_BUSY] ∧
    (sccp_pbx_call ex_env {} ex_chan_over).ret = 0 :=
  sccp_pbx_call_limit_busy ex_env {} ex_chan_over ex_line_over (by decide)
    ⟨ex_A, by decide, by decide⟩ (by decide)

/-- The trace of an admitted call: the line can be retained, a bound device
has a live session, and the channel count does not exceed the limit. -/
theorem sccp_pbx_call_admitted (env : Env) (glob : sccp_global_vars) (c : sccp_channel_t)
    (l : sccp_line_t)
    (hl : sccp_line_retain c.line = some l)
    (hs : ∃ ld ∈ l.devices, ld.device.session.isSome = true)
    (hlim : l.channels.length ≤ l.incominglimit) :
    (sccp_pbx_call env glob c).trace =
      [Event.retain (Handle.line l.name),
       Event.list_lock_devices l.name,
       Event.list_unlock_devices l.name,
       Event.channel_set_callingparty (sccp_pbx_call_cid c.callInfo.callingPartyName)
         (sccp_pbx_call_callingNumber glob (sccp_pbx_call_cid c.callInfo.callingPartyNumber)),
       Event.channel_set_calledparty l.cid_name l.cid_num,
       Event.set_connected_line,
       Event.channel_display_callInfo,
       Event.list_lock_devices l.name] ++
      (sccp_pbx_call_fanout env (sccp_pbx_call env glob c).c l.devices).trace ++
      [Event.list_unlock_devices l.name] ++
      sccp_pbx_call_outcome (sccp_pbx_call env glob c).c
        (sccp_pbx_call_fanout env (sccp_pbx_call env glob c).c l.devices) ++
      [Event.rtp_setWriteFormat, Event.rtp_setReadFormat,
       Event.release (Handle.line l.name)] ∧
    (sccp_pbx_call env glob c).ret =
      (if (sccp_pbx_call_fanout env (sccp_pbx_call env glob c).c l.devices).isRinging
       then 0 else 1) := by
  have hs2 : sccp_pbx_call_hasSession l.devices = true := (hasSession_iff _).2 hs
  have hlim2 : ¬ l.channels.length > l.incominglimit := Nat.not_lt.mpr hlim
  simp [sccp_pbx_call, hl, hs2, hlim2]

/-- The control frames of the outcome block: exactly one. -/
theorem outcome_controls (c : sccp_channel_t) (st : FanoutState) :
    (sccp_pbx_call_outcome c st).filter Event.isControl =
      [Event.queue_control
        (if st.isRinging then ast_control_t.AST_CONTROL_RINGING
         else if st.hasDNDParticipant then ast_control_t.AST_CONTROL_BUSY
         else ast_control_t.AST_CONTROL_CONGESTION)] := by
  unfold sccp_pbx_call_outcome
  split_ifs <;> simp [List.filter, Event.isControl]

/-- C2: admission compares with a strict "greater than".  When the line can
be retained, a bound device has a live session and the channel count is at
most the incoming limit (equal to it included), `sccp_pbx_call` does not
take the Busy-at-admission branch (the backend state is never set to Busy)
and runs the per-binding pass: between the second lock and unlock of the
devices list the trace is that of the traversal of all bindings, and the
outcome block follows. -/
theorem sccp_pbx_call_admits_at_limit (env : Env) (glob : sccp_global_vars)
    (c : sccp_channel_t) (l : sccp_line_t)
    (hl : sccp_line_retain c.line = some l)
    (hs : ∃ ld ∈ l.devices, ld.device.session.isSome = true)
    (hlim : l.channels.length ≤ l.incominglimit) :
    Event.pbx_setstate ast_state_t.AST_STATE_BUSY ∉ (sccp_pbx_call env glob c).trace ∧
    (∃ pre post,
      (sccp_pbx_call env glob c).trace =
        pre ++ [Event.list_lock_devices l.name] ++
        l.devices.flatMap (bindingEvents env (sccp_pbx_call env glob c).c) ++
        [Event.list_unlock_devices l.name] ++
        sccp_pbx_call_outcome (sccp_pbx_call env glob c).c
          (sccp_pbx_call_fanout env (sccp_pbx_call env glob c).c l.devices) ++ post ∧
      (∀ e ∈ pre, e.isBindingWork = false ∧ e.isControl = false) ∧
      (∀ e ∈ post, e.isBindingWork = false ∧ e.isControl = false)) := by
  obtain ⟨ht, _⟩ := sccp_pbx_call_admitted env glob c l hl hs hlim
  constructor
  · rw [ht]
    intro hmem
    simp only [List.mem_append, List.mem_cons, List.mem_singleton, List.not_mem_nil,
      or_false, reduceCtorEq, false_or] at hmem
    rcases hmem with hmem | hmem
    · have := (fanout_work env _ l.devices _ hmem).1
      simp [Event.isBindingWork] at this
    · unfold sccp_pbx_call_outcome at hmem
      split_ifs at hmem <;> simp at hmem
  · refine ⟨[Event.retain (Handle.line l.name),
       Event.list_lock_devices l.name,
       Event.list_unlock_devices l.name,
       Event.channel_set_callingparty (sccp_pbx_call_cid c.callInfo.callingPartyName)
         (sccp_pbx_call_callingNumber glob (sccp_pbx_call_cid c.callInfo.callingPartyNumber)),
       Event.channel_set_calledparty l.cid_name l.cid_num,
       Event.set_connected_line,
       Event.channel_display_callInfo],
      [Event.rtp_setWriteFormat, Event.rtp_setReadFormat,
       Event.release (Handle.line l.name)], ?_, ?_, ?_⟩
    · rw [ht, fanout_trace]; simp
    · simp [Event.isBindingWork, Event.isControl]
    · simp [Event.isBindingWork, Event.isControl]

/-- C2 at `ex_chan_at_limit`: two channels on a line with limit 2. -/
theorem sccp_pbx_call_admits_at_limit_witness :
    ex_line_at_limit.channels.length = ex_line_at_limit.incominglimit ∧
    Event.pbx_setstate ast_state_t.AST_STATE_BUSY ∉
      (sccp_pbx_call ex_env {} ex_chan_at_limit).trace :=
  ⟨by decide,
   (sccp_pbx_call_admits_at_limit ex_env {} ex_chan_at_limit ex_line_at_limit (by decide)
     ⟨ex_A, by decide, by decide⟩ (by decide)).1⟩


/-! ## Outcome of the fan-out (claim C3) -/

/-- The traversal ends with `isRinging` set exactly when some binding was
forwarded with success, shown Call-Waiting or rung. -/
theorem fanout_isRinging_iff (env : Env) (c : sccp_channel_t)
    (devices : List sccp_linedevices_t) :
    (sccp_pbx_call_fanout env c devices).isRinging = true ↔
      ∃ ld ∈ devices, forwardedOk env c ld ∨ shownCallWaiting env c ld ∨ rung env c ld := by
  rw [fanout_isRinging, List.any_eq_true]
  constructor
  · rintro ⟨ld, hmem, h⟩
    exact ⟨ld, hmem, (binding_isRinging_iff env c ld).1 h⟩
  · rintro ⟨ld, hmem, h⟩
    exact ⟨ld, hmem, (binding_isRinging_iff env c ld).2 h⟩

/-- The traversal ends with `hasDNDParticipant` set exactly when some
binding was skipped for DND-reject. -/
theorem fanout_hasDND_iff (env : Env) (c : sccp_channel_t)
    (devices : List sccp_linedevices_t) :
    (sccp_pbx_call_fanout env c devices).hasDNDParticipant = true ↔
      ∃ ld ∈ devices, dndSkipped env c ld := by
  rw [fanout_hasDND, List.any_eq_true]
  constructor
  · rintro ⟨ld, hmem, h⟩
    exact ⟨ld, hmem, (binding_hasDND_iff env c ld).1 h⟩
  · rintro ⟨ld, hmem, h⟩
    exact ⟨ld, hmem, (binding_hasDND_iff env c ld).2 h⟩

/-- The channel that `sccp_pbx_call` leaves keeps its call id. -/
theorem sccp_pbx_call_callid (env : Env) (glob : sccp_global_vars) (c : sccp_channel_t) :
    (sccp_pbx_call env glob c).c.callid = c.callid := by
  unfold sccp_pbx_call
  split
  · rfl
  · cases env.get_callerid_presence <;> simp only [] <;> split_ifs <;> rfl

/-- C3: a call that passes admission (line retained, a live session on some
bound device, channel count within the limit) queues exactly one control
frame, and queues it after the per-binding pass: the trace is
`pre ++ queue_control sig :: post` with no control frame in `pre` or `post`,
every call of the per-binding pass in `pre` and no per-binding work in
`post`.  The frame is Ringing, preceded by setting the call state to
ring-in, when at least one binding was forwarded with success, shown
Call-Waiting or rung (whether or not a binding was skipped for DND);
otherwise Busy when at least one binding was skipped for DND-reject;
otherwise Congestion.  The call state is set to ring-in in the Ringing case
only. -/
theorem sccp_pbx_call_one_outcome (env : Env) (glob : sccp_global_vars)
    (c : sccp_channel_t) (l : sccp_line_t)
    (hl : sccp_line_retain c.line = some l)
    (hs : ∃ ld ∈ l.devices, ld.device.session.isSome = true)
    (hlim : l.channels.length ≤ l.incominglimit) :
    ∃ sig pre post,
      (sccp_pbx_call env glob c).trace = pre ++ Event.queue_control sig :: post ∧
      (∀ e ∈ pre, e.isControl = false) ∧
      (∀ e ∈ post, e.isControl = false ∧ e.isBindingWork = false) ∧
      (∀ ld ∈ l.devices, ∀ e ∈ bindingEvents env (sccp_pbx_call env glob c).c ld, e ∈ pre) ∧
      ((∃ ld ∈ l.devices, forwardedOk env (sccp_pbx_call env glob c).c ld ∨
            shownCallWaiting env (sccp_pbx_call env glob c).c ld ∨
            rung env (sccp_pbx_call env glob c).c ld) →
        sig = ast_control_t.AST_CONTROL_RINGING ∧
        Event.channel_setSkinnyCallstate c.callid skinny_callstate_t.RINGIN ∈ pre) ∧
      (¬ (∃ ld ∈ l.devices, forwardedOk env (sccp_pbx_call env glob c).c ld ∨
            shownCallWaiting env (sccp_pbx_call env glob c).c ld ∨
            rung env (sccp_pbx_call env glob c).c ld) →
        (∀ st, Event.channel_setSkinnyCallstate c.callid st ∉
          (sccp_pbx_call env glob c).trace) ∧
        ((∃ ld ∈ l.devices, dndSkipped env (sccp_pbx_call env glob c).c ld) →
          sig = ast_control_t.AST_CONTROL_BUSY) ∧
        (¬ (∃ ld ∈ l.devices, dndSkipped env (sccp_pbx_call env glob c).c ld) →
          sig = ast_control_t.AST_CONTROL_CONGESTION)) := by
  obtain ⟨ht, _⟩ := sccp_pbx_call_admitted env glob c l hl hs hlim
  have hid := sccp_pbx_call_callid env glob c
  have hring := fanout_isRinging_iff env (sccp_pbx_call env glob c).c l.devices
  have hdnd := fanout_hasDND_iff env (sccp_pbx_call env glob c).c l.devices
  have hwork := fanout_work env (sccp_pbx_call env glob c).c l.devices
  have hft := fanout_trace env (sccp_pbx_call env glob c).c l.devices
  generalize (sccp_pbx_call env glob c).c = c2 at *
  generalize (sccp_pbx_call env glob c).trace = tr at *
  have hpass : ∀ ld ∈ l.devices, ∀ e ∈ bindingEvents env c2 ld,
      e ∈ (sccp_pbx_call_fanout env c2 l.devices).trace := by
    intro ld hld e he
    rw [hft, List.mem_flatMap]
    exact ⟨ld, hld, he⟩
  generalize sccp_pbx_call_fanout env c2 l.devices = st at *
  by_cases hR : st.isRinging = true
  · refine ⟨ast_control_t.AST_CONTROL_RINGING,
      [Event.retain (Handle.line l.name),
       Event.list_lock_devices l.name,
       Event.list_unlock_devices l.name,
       Event.channel_set_callingparty (sccp_pbx_call_cid c.callInfo.callingPartyName)
         (sccp_pbx_call_callingNumber glob (sccp_pbx_call_cid c.callInfo.callingPartyNumber)),
       Event.channel_set_calledparty l.cid_name l.cid_num,
       Event.set_connected_line,
       Event.channel_display_callInfo,
       Event.list_lock_devices l.name] ++ st.trace ++
      [Event.list_unlock_devices l.name,
       Event.channel_setSkinnyCallstate c2.callid skinny_callstate_t.RINGIN],
      [Event.rtp_setWriteFormat, Event.rtp_setReadFormat,
       Event.release (Handle.line l.name)], ?_, ?_, ?_, ?_, ?_, ?_⟩
    · rw [ht]; simp [sccp_pbx_call_outcome, hR]
    · intro e he
      simp only [List.mem_append, List.mem_cons, List.mem_singleton, List.not_mem_nil,
        or_false] at he
      rcases he with (he | he) | he
      · rcases he with rfl | rfl | rfl | rfl | rfl | rfl | rfl | rfl <;> rfl
      · exact (hwork e he).2
      · rcases he with rfl | rfl <;> rfl
    · intro e he
      simp only [List.mem_cons, List.mem_singleton, List.not_mem_nil, or_false] at he
      rcases he with rfl | rfl | rfl <;> exact ⟨rfl, rfl⟩
    · intro ld hld e he
      have := hpass ld hld e he
      simp [this]
    · intro _
      refine ⟨rfl, ?_⟩
      simp [hid]
    · intro hno
      exact absurd (hring.1 hR) hno
  · have hnoring : ¬ (∃ ld ∈ l.devices, forwardedOk env c2 ld ∨ shownCallWaiting env c2 ld ∨
        rung env c2 ld) := fun h => hR (hring.2 h)
    refine ⟨(if st.hasDNDParticipant then ast_control_t.AST_CONTROL_BUSY
        else ast_control_t.AST_CONTROL_CONGESTION),
      [Event.retain (Handle.line l.name),
       Event.list_lock_devices l.name,
       Event.list_unlock_devices l.name,
       Event.channel_set_callingparty (sccp_pbx_call_cid c.callInfo.callingPartyName)
         (sccp_pbx_call_callingNumber glob (sccp_pbx_call_cid c.callInfo.callingPartyNumber)),
       Event.channel_set_calledparty l.cid_name l.cid_num,
       Event.set_connected_line,
       Event.channel_display_callInfo,
       Event.list_lock_devices l.name] ++ st.trace ++
      [Event.list_unlock_devices l.name],
      [Event.rtp_setWriteFormat, Event.rtp_setReadFormat,
       Event.release (Handle.line l.name)], ?_, ?_, ?_, ?_, ?_, ?_⟩
    · rw [ht]
      unfold sccp_pbx_call_outcome
      split_ifs <;> simp
    · intro e he
      simp only [List.mem_append, List.mem_cons, List.mem_singleton, List.not_mem_nil,
        or_false] at he
      rcases he with (he | he) | he
      · rcases he with rfl | rfl | rfl | rfl | rfl | rfl | rfl | rfl <;> rfl
      · exact (hwork e he).2
      · subst he; rfl
    · intro e he
      simp only [List.mem_cons, List.mem_singleton, List.not_mem_nil, or_false] at he
      rcases he with rfl | rfl | rfl <;> exact ⟨rfl, rfl⟩
    · intro ld hld e he
      have := hpass ld hld e he
      simp [this]
    · intro h
      exact absurd h hnoring
    · intro _
      refine ⟨?_, ?_, ?_⟩
      · intro s hmem
        rw [ht] at hmem
        simp only [List.mem_append, List.mem_cons, List.mem_singleton, List.not_mem_nil,
          or_false, reduceCtorEq, false_or] at hmem
        rcases hmem with hmem | hmem
        · have := (hwork _ hmem).1
          simp [Event.isBindingWork] at this
        · unfold sccp_pbx_call_outcome at hmem
          split_ifs at hmem <;> simp at hmem
      · intro h
        simp [hdnd.2 h]
      · intro h
        have : ¬ st.hasDNDParticipant = true := fun hh => h (hdnd.1 hh)
        simp [this]

/-- C3 at `ex_chan`: one channel on a line with limit 2, bindings forwarded,
on a call and free. -/
theorem sccp_pbx_call_one_outcome_witness :
    ∃ sig pre post,
      (sccp_pbx_call ex_env {} ex_chan).trace = pre ++ Event.queue_control sig :: post ∧
      (∀ e ∈ pre, e.isControl = false) ∧
      (∀ e ∈ post, e.isControl = false ∧ e.isBindingWork = false) := by
  obtain ⟨sig, pre, post, h1, h2, h3, _⟩ :=
    sccp_pbx_call_one_outcome ex_env {} ex_chan ex_line (by decide)
      ⟨ex_A, by decide, by decide⟩ (by decide)
  exact ⟨sig, pre, post, h1, h2, h3⟩


/-! ## The per-binding pass (claims C4 to C8) -/

/-- C5: for a binding with forward-all enabled the traversal body requests
a forward of the channel to the binding's configured number, sends the
device no indication of any state (so neither Ringing nor Call-Waiting) and
schedules no auto-answer job, whatever the forward request returns; the
only further calls are the call-state and call-info messages that follow a
successful forward.  The binding sets `isRinging` if and only if the
forward request returns 0, and it leaves `hasDNDParticipant` as it was. -/
theorem sccp_pbx_call_binding_forward (env : Env) (c : sccp_channel_t) (st : FanoutState)
    (ld : sccp_linedevices_t) (hf : ld.cfwdAll.enabled = true) :
    (sccp_pbx_call_binding env c st ld).trace =
      st.trace ++ Event.channel_forward ld ld.cfwdAll.number ::
        (if env.sccp_channel_forward c ld ld.cfwdAll.number = 0 then
           [Event.device_sendcallstate ld.device ld.lineInstance c.callid
              skinny_callstate_t.INTERCOMONEWAY,
            Event.channel_send_callinfo ld.device c.callid]
         else []) ∧
    (∀ e ∈ bindingEvents env c ld, e.isIndication = false ∧ e.isAutoanswerJob = false) ∧
    ((sccp_pbx_call_binding env c st ld).isRinging = true ↔
      st.isRinging = true ∨ env.sccp_channel_forward c ld ld.cfwdAll.number = 0) ∧
    ((sccp_pbx_call_binding env c {} ld).isRinging = true ↔
      env.sccp_channel_forward c ld ld.cfwdAll.number = 0) ∧
    (sccp_pbx_call_binding env c st ld).hasDNDParticipant = st.hasDNDParticipant := by
  unfold bindingEvents sccp_pbx_call_binding
  by_cases h0 : env.sccp_channel_forward c ld ld.cfwdAll.number = 0 <;>
    simp [hf, h0, Event.isIndication, Event.isAutoanswerJob]

/-- C5 at `ex_A`, whose forward to `200` succeeds in `ex_env`. -/
theorem sccp_pbx_call_binding_forward_witness :
    (sccp_pbx_call_binding ex_env ex_chan {} ex_A).trace =
      [Event.channel_forward ex_A "200",
       Event.device_sendcallstate ex_A.device 1 1 skinny_callstate_t.INTERCOMONEWAY,
       Event.channel_send_callinfo ex_A.device 1] :=
  (sccp_pbx_call_binding_forward ex_env ex_chan {} ex_A (by decide)).1

/-- A Ringing indication in the calls made for a binding goes to the
device of that binding, and that device has no active channel. -/
theorem bindingEvents_ringing (env : Env) (c : sccp_channel_t) (ld : sccp_linedevices_t)
    (d : sccp_device_t) (callid : Nat)
    (h : Event.indicate d callid sccp_channelstate_t.RINGING ∈ bindingEvents env c ld) :
    d = ld.device ∧ env.sccp_channel_get_active ld.device = none := by
  unfold bindingEvents sccp_pbx_call_binding at h
  split_ifs at h <;> try simp at h
  all_goals (split at h <;> try simp at h)
  all_goals (refine ⟨h.1, ?_⟩; assumption)

/-- The trace of `sccp_pbx_call` holds no indication to a device unless the
call is admitted, and then only those of the per-binding pass. -/
theorem sccp_pbx_call_indication (env : Env) (glob : sccp_global_vars) (c : sccp_channel_t)
    (d : sccp_device_t) (callid : Nat) (s : sccp_channelstate_t)
    (h : Event.indicate d callid s ∈ (sccp_pbx_call env glob c).trace) :
    ∃ l, sccp_line_retain c.line = some l ∧
      ∃ ld ∈ l.devices,
        Event.indicate d callid s ∈ bindingEvents env (sccp_pbx_call env glob c).c ld := by
  cases hl : sccp_line_retain c.line with
  | none => simp [sccp_pbx_call, hl] at h
  | some l =>
    refine ⟨l, rfl, ?_⟩
    by_cases hs : sccp_pbx_call_hasSession l.devices = true
    · by_cases hlim : l.channels.length > l.incominglimit
      · simp [sccp_pbx_call, hl, hs, hlim] at h
      · have hadm := (sccp_pbx_call_admitted env glob c l hl ((hasSession_iff _).1 hs)
          (Nat.not_lt.mp hlim)).1
        rw [hadm] at h
        simp only [List.mem_append, List.mem_cons, List.mem_singleton, List.not_mem_nil,
          or_false, reduceCtorEq, false_or] at h
        rcases h with h | h
        · rw [fanout_trace, List.mem_flatMap] at h
          exact h
        · unfold sccp_pbx_call_outcome at h
          split_ifs at h <;> simp at h
    · simp [sccp_pbx_call, hl, hs] at h

/-- C6: for a binding without forward-all, with a live session and a
matching subscription id, whose device has an active channel, the
traversal body sends the device exactly one indication, Call-Waiting, between
taking and releasing the handle of the active channel: no Ringing
indication and no auto-answer job.  It sets `isRinging` and leaves
`hasDNDParticipant` as it was.  Nothing is asked of the DND setting of the
device.  Hence no run of `sccp_pbx_call`, on any channel, sends a Ringing
indication to a device that has an active channel. -/
theorem sccp_pbx_call_binding_callwaiting (env : Env) (c : sccp_channel_t)
    (st : FanoutState) (ld : sccp_linedevices_t) (active_channel : sccp_channel_t)
    (hf : ld.cfwdAll.enabled = false)
    (hs : ld.device.session.isSome = true)
    (hm : env.sccp_util_matchSubscriptionId c ld.subscriptionId.number = true)
    (ha : env.sccp_channel_get_active ld.device = some active_channel) :
    (sccp_pbx_call_binding env c st ld).trace =
      st.trace ++
        [Event.retain (Handle.channel active_channel.callid),
         Event.indicate ld.device c.callid sccp_channelstate_t.CALLWAITING,
         Event.release (Handle.channel active_channel.callid)] ∧
    (bindingEvents env c ld).filter Event.isIndication =
      [Event.indicate ld.device c.callid sccp_channelstate_t.CALLWAITING] ∧
    (sccp_pbx_call_binding env c st ld).isRinging = true ∧
    (sccp_pbx_call_binding env c st ld).hasDNDParticipant = st.hasDNDParticipant ∧
    (∀ (glob : sccp_global_vars) (c0 : sccp_channel_t) (d : sccp_device_t) (callid : Nat),
      (env.sccp_channel_get_active d).isSome = true →
      Event.indicate d callid sccp_channelstate_t.RINGING ∉
        (sccp_pbx_call env glob c0).trace) := by
  have hs2 : ld.device.session.isNone = false := by
    cases h : ld.device.session <;> simp_all
  refine ⟨?_, ?_, ?_, ?_, ?_⟩
  · simp [sccp_pbx_call_binding, hf, hs2, hm, ha]
  · simp [bindingEvents, sccp_pbx_call_binding, hf, hs2, hm, ha, List.filter,
      Event.isIndication]
  · simp [sccp_pbx_call_binding, hf, hs2, hm, ha]
  · simp [sccp_pbx_call_binding, hf, hs2, hm, ha]
  · intro glob c0 d callid hd hmem
    obtain ⟨l, _, ld2, _, hev⟩ := sccp_pbx_call_indication env glob c0 _ _ _ hmem
    obtain ⟨hd2, hnone⟩ := bindingEvents_ringing env _ ld2 _ _ hev
    rw [← hd2] at hnone
    rw [hnone] at hd
    exact absurd hd (by simp)

/-- C6 at `ex_E`, a device on a call with DND in reject mode. -/
theorem sccp_pbx_call_binding_callwaiting_witness :
    (bindingEvents ex_env ex_chan ex_E).filter Event.isIndication =
      [Event.indicate ex_E.device 1 sccp_channelstate_t.CALLWAITING] ∧
    (sccp_pbx_call_binding ex_env ex_chan {} ex_E).isRinging = true :=
  ⟨(sccp_pbx_call_binding_callwaiting ex_env ex_chan {} ex_E { callid := 7 }
      (by decide) (by decide) (by decide) (by decide)).2.1,
   (sccp_pbx_call_binding_callwaiting ex_env ex_chan {} ex_E { callid := 7 }
      (by decide) (by decide) (by decide) (by decide)).2.2.1⟩

/-- C7, the DND branch: for a binding without forward-all, with a live
session, a matching subscription id and no active channel on its device,
whose device has DND enabled in reject mode, the traversal body makes no
call at all (no indication, no auto-answer job), sets `hasDNDParticipant`
and leaves `isRinging` as it was.  The ring branch: when DND is disabled or
enabled in another mode, the body sends the device exactly one indication,
Ringing, followed only by the auto-answer job when the channel asks for
auto-answer and the conveyor is allocated; it sets `isRinging` and leaves
`hasDNDParticipant` as it was. -/
theorem sccp_pbx_call_binding_free_device (env : Env) (c : sccp_channel_t)
    (st : FanoutState) (ld : sccp_linedevices_t)
    (hf : ld.cfwdAll.enabled = false)
    (hs : ld.device.session.isSome = true)
    (hm : env.sccp_util_matchSubscriptionId c ld.subscriptionId.number = true)
    (ha : env.sccp_channel_get_active ld.device = none) :
    (dndReject ld.device →
      sccp_pbx_call_binding env c st ld = { st with hasDNDParticipant := true } ∧
      bindingEvents env c ld = []) ∧
    (¬ dndReject ld.device →
      (sccp_pbx_call_binding env c st ld).trace =
        st.trace ++ Event.indicate ld.device c.callid sccp_channelstate_t.RINGING ::
          (if c.autoanswer_type ≠ sccp_autoanswer_type_t.SCCP_AUTOANSWER_NONE ∧
              env.sccp_calloc ld = true then
             [Event.retain (Handle.linedevice ld),
              Event.threadpool_add_work { callid := c.callid, linedevice := some ld }]
           else []) ∧
      (bindingEvents env c ld).filter Event.isIndication =
        [Event.indicate ld.device c.callid sccp_channelstate_t.RINGING] ∧
      (sccp_pbx_call_binding env c st ld).isRinging = true ∧
      (sccp_pbx_call_binding env c st ld).hasDNDParticipant = st.hasDNDParticipant) := by
  have hs2 : ld.device.session.isNone = false := by
    cases h : ld.device.session <;> simp_all
  constructor
  · intro hd
    unfold dndReject at hd
    simp [bindingEvents, sccp_pbx_call_binding, hf, hs2, hm, ha, hd]
  · intro hd
    unfold dndReject at hd
    by_cases hauto : c.autoanswer_type = sccp_autoanswer_type_t.SCCP_AUTOANSWER_NONE
    · simp [bindingEvents, sccp_pbx_call_binding, hf, hs2, hm, ha, hd, hauto, List.filter,
        Event.isIndication]
    · by_cases hc : env.sccp_calloc ld = true
      · simp [bindingEvents, sccp_pbx_call_binding, hf, hs2, hm, ha, hd, hauto, hc,
          List.filter, Event.isIndication]
      · simp [bindingEvents, sccp_pbx_call_binding, hf, hs2, hm, ha, hd, hauto, hc,
          List.filter, Event.isIndication]

/-- C7 at `ex_D` (free, DND in reject mode: skipped) and at `ex_C` (free,
no DND: rung). -/
theorem sccp_pbx_call_binding_free_device_witness :
    (sccp_pbx_call_binding ex_env ex_chan {} ex_D = { hasDNDParticipant := true } ∧
      bindingEvents ex_env ex_chan ex_D = []) ∧
    (bindingEvents ex_env ex_chan ex_C).filter Event.isIndication =
      [Event.indicate ex_C.device 1 sccp_channelstate_t.RINGING] :=
  ⟨(sccp_pbx_call_binding_free_device ex_env ex_chan {} ex_D
      (by decide) (by decide) (by decide) (by decide)).1 (by decide),
   ((sccp_pbx_call_binding_free_device ex_env ex_chan {} ex_C
      (by decide) (by decide) (by decide) (by decide)).2 (by decide)).2.1⟩

/-- C8: for a binding without forward-all whose device has no live session,
or whose subscription id does not match the one the channel asks for, the
traversal body changes nothing: the state after the binding is the state
before it (same trace, so no indication and no auto-answer job, same
`isRinging`, same `hasDNDParticipant`). -/
theorem sccp_pbx_call_binding_skipped (env : Env) (c : sccp_channel_t)
    (st : FanoutState) (ld : sccp_linedevices_t)
    (hf : ld.cfwdAll.enabled = false)
    (hskip : ld.device.session = none ∨
      env.sccp_util_matchSubscriptionId c ld.subscriptionId.number = false) :
    sccp_pbx_call_binding env c st ld = st ∧ bindingEvents env c ld = [] := by
  rcases hskip with h | h
  · simp [bindingEvents, sccp_pbx_call_binding, hf, h]
  · by_cases hs : ld.device.session.isNone = true <;>
      simp [bindingEvents, sccp_pbx_call_binding, hf, h, hs]

/-- C8 at `ex_N`, a device without session. -/
theorem sccp_pbx_call_binding_skipped_witness :
    sccp_pbx_call_binding ex_env ex_chan {} ex_N = {} ∧
    bindingEvents ex_env ex_chan ex_N = [] :=
  sccp_pbx_call_binding_skipped ex_env ex_chan {} ex_N (by decide) (Or.inl (by decide))

/-- The calls made for a binding with forward-all enabled. -/
theorem bindingEvents_of_forward (env : Env) (c : sccp_channel_t) (ld : sccp_linedevices_t)
    (hf : ld.cfwdAll.enabled = true) :
    bindingEvents env c ld =
      Event.channel_forward ld ld.cfwdAll.number ::
        (if env.sccp_channel_forward c ld ld.cfwdAll.number = 0 then
           [Event.device_sendcallstate ld.device ld.lineInstance c.callid
              skinny_callstate_t.INTERCOMONEWAY,
            Event.channel_send_callinfo ld.device c.callid]
         else []) := by
  unfold bindingEvents sccp_pbx_call_binding
  by_cases h0 : env.sccp_channel_forward c ld ld.cfwdAll.number = 0 <;> simp [hf, h0]

/-- The calls made for a binding that is shown Call-Waiting. -/
theorem bindingEvents_of_callwaiting (env : Env) (c : sccp_channel_t)
    (ld : sccp_linedevices_t) (h : shownCallWaiting env c ld) :
    ∃ active_channel, env.sccp_channel_get_active ld.device = some active_channel ∧
      bindingEvents env c ld =
        [Event.retain (Handle.channel active_channel.callid),
         Event.indicate ld.device c.callid sccp_channelstate_t.CALLWAITING,
         Event.release (Handle.channel active_channel.callid)] := by
  obtain ⟨⟨hf, hs, hm⟩, ha⟩ := h
  obtain ⟨act, hact⟩ := Option.isSome_iff_exists.1 ha
  have hs2 : ld.device.session.isNone = false := by
    cases h : ld.device.session <;> simp_all
  exact ⟨act, hact, by simp [bindingEvents, sccp_pbx_call_binding, hf, hs2, hm, hact]⟩

/-- The calls made for a binding that is rung. -/
theorem bindingEvents_of_rung (env : Env) (c : sccp_channel_t) (ld : sccp_linedevices_t)
    (h : rung env c ld) :
    bindingEvents env c ld =
      Event.indicate ld.device c.callid sccp_channelstate_t.RINGING ::
        (if c.autoanswer_type ≠ sccp_autoanswer_type_t.SCCP_AUTOANSWER_NONE ∧
            env.sccp_calloc ld = true then
           [Event.retain (Handle.linedevice ld),
            Event.threadpool_add_work { callid := c.callid, linedevice := some ld }]
         else []) := by
  obtain ⟨⟨hf, hs, hm⟩, ha, hd⟩ := h
  unfold dndReject at hd
  have hs2 : ld.device.session.isNone = false := by
    cases h : ld.device.session <;> simp_all
  by_cases hauto : c.autoanswer_type = sccp_autoanswer_type_t.SCCP_AUTOANSWER_NONE
  · simp [bindingEvents, sccp_pbx_call_binding, hf, hs2, hm, ha, hd, hauto]
  · by_cases hc : env.sccp_calloc ld = true <;>
      simp [bindingEvents, sccp_pbx_call_binding, hf, hs2, hm, ha, hd, hauto, hc]

/-- The traversal of three bindings, the first forward-all, the second shown
Call-Waiting, the third rung: its forward requests and indications in
order, and its result. -/
theorem fanout_three_bindings (env : Env) (c : sccp_channel_t)
    (A B C : sccp_linedevices_t)
    (hA : A.cfwdAll.enabled = true)
    (hB : shownCallWaiting env c B)
    (hC : rung env c C) :
    (sccp_pbx_call_fanout env c [A, B, C]).trace.filter Event.isOffer =
      [Event.channel_forward A A.cfwdAll.number,
       Event.indicate B.device c.callid sccp_channelstate_t.CALLWAITING,
       Event.indicate C.device c.callid sccp_channelstate_t.RINGING] ∧
    (∀ e ∈ bindingEvents env c A, e.isIndication = false) ∧
    (A.device ≠ B.device → A.device ≠ C.device →
      ∀ callid s, Event.indicate A.device callid s ∉
        (sccp_pbx_call_fanout env c [A, B, C]).trace) ∧
    (sccp_pbx_call_fanout env c [A, B, C]).isRinging = true := by
  have evA := bindingEvents_of_forward env c A hA
  obtain ⟨act, _, evB⟩ := bindingEvents_of_callwaiting env c B hB
  have evC := bindingEvents_of_rung env c C hC
  have htr : (sccp_pbx_call_fanout env c [A, B, C]).trace =
      bindingEvents env c A ++ (bindingEvents env c B ++ bindingEvents env c C) := by
    rw [fanout_trace]; simp [List.flatMap_cons]
  have hR : (sccp_pbx_call_fanout env c [A, B, C]).isRinging = true := by
    rw [fanout_isRinging_iff]
    exact ⟨B, by simp, Or.inr (Or.inl hB)⟩
  refine ⟨?_, ?_, ?_, hR⟩
  · rw [htr, evA, evB, evC]
    split_ifs <;> simp [List.filter, Event.isOffer]
  · rw [evA]
    split_ifs <;> simp [Event.isIndication]
  · intro hAB hAC callid s
    rw [htr, evA, evB, evC]
    split_ifs <;> simp [hAB, hAC]

/-- The outcome block makes no forward request and no indication. -/
theorem outcome_offers (c : sccp_channel_t) (st : FanoutState) :
    (sccp_pbx_call_outcome c st).filter Event.isOffer = [] := by
  unfold sccp_pbx_call_outcome
  split_ifs <;> simp [List.filter, Event.isOffer]

/-- The traversal queues no control frame. -/
theorem fanout_controls (env : Env) (c : sccp_channel_t) (devices : List sccp_linedevices_t) :
    (sccp_pbx_call_fanout env c devices).trace.filter Event.isControl = [] := by
  rw [List.filter_eq_nil_iff]
  intro e he
  simp [(fanout_work env c devices e he).2]

/-- C4: the fan-out works through the bindings in list order.  For a line
whose bindings are `[A, B, C]`, with `A` forward-all enabled, `B` live,
matching and on a call, `C` live, matching, free and not in DND-reject, the
forward requests and indications of the per-binding pass of `sccp_pbx_call`
are, in this order, the forward of `A` to its configured number,
Call-Waiting to the device of `B`, Ringing to the device of `C`; nothing is
indicated for binding `A`; the one control frame of the outcome block is
Ringing.  For an admitted call (channel count within the limit) these are
the forward requests and indications of the whole call, its one control
frame is Ringing, it returns 0, and the device of `A`, when it is not also
the device of `B` or `C`, receives no indication. -/
theorem sccp_pbx_call_fanout_list_order (env : Env) (glob : sccp_global_vars)
    (c : sccp_channel_t) (l : sccp_line_t) (A B C : sccp_linedevices_t)
    (hl : sccp_line_retain c.line = some l)
    (hdev : l.devices = [A, B, C])
    (hA : A.cfwdAll.enabled = true)
    (hB : shownCallWaiting env (sccp_pbx_call env glob c).c B)
    (hC : rung env (sccp_pbx_call env glob c).c C) :
    (sccp_pbx_call_fanout env (sccp_pbx_call env glob c).c l.devices).trace.filter
        Event.isOffer =
      [Event.channel_forward A A.cfwdAll.number,
       Event.indicate B.device c.callid sccp_channelstate_t.CALLWAITING,
       Event.indicate C.device c.callid sccp_channelstate_t.RINGING] ∧
    (∀ e ∈ bindingEvents env (sccp_pbx_call env glob c).c A, e.isIndication = false) ∧
    (sccp_pbx_call_outcome (sccp_pbx_call env glob c).c
        (sccp_pbx_call_fanout env (sccp_pbx_call env glob c).c l.devices)).filter
        Event.isControl =
      [Event.queue_control ast_control_t.AST_CONTROL_RINGING] ∧
    (l.channels.length ≤ l.incominglimit →
      (sccp_pbx_call env glob c).trace.filter Event.isOffer =
        [Event.channel_forward A A.cfwdAll.number,
         Event.indicate B.device c.callid sccp_channelstate_t.CALLWAITING,
         Event.indicate C.device c.callid sccp_channelstate_t.RINGING] ∧
      (sccp_pbx_call env glob c).trace.filter Event.isControl =
        [Event.queue_control ast_control_t.AST_CONTROL_RINGING] ∧
      (sccp_pbx_call env glob c).ret = 0 ∧
      (A.device ≠ B.device → A.device ≠ C.device →
        ∀ callid s, Event.indicate A.device callid s ∉ (sccp_pbx_call env glob c).trace)) := by
  have hid := sccp_pbx_call_callid env glob c
  obtain ⟨h1, h2, h3, hR⟩ := fanout_three_bindings env (sccp_pbx_call env glob c).c A B C hA hB hC
  rw [hid] at h1
  rw [← hdev] at h1 h3 hR
  have hoc := outcome_controls (sccp_pbx_call env glob c).c
    (sccp_pbx_call_fanout env (sccp_pbx_call env glob c).c l.devices)
  rw [hR] at hoc
  refine ⟨h1, h2, by simpa using hoc, ?_⟩
  intro hlim
  have hs : ∃ ld ∈ l.devices, ld.device.session.isSome = true :=
    ⟨B, by simp [hdev], hB.1.2.1⟩
  obtain ⟨ht, hret⟩ := sccp_pbx_call_admitted env glob c l hl hs hlim
  have hfc := fanout_controls env (sccp_pbx_call env glob c).c l.devices
  have hoo := outcome_offers (sccp_pbx_call env glob c).c
    (sccp_pbx_call_fanout env (sccp_pbx_call env glob c).c l.devices)
  refine ⟨?_, ?_, ?_, ?_⟩
  · rw [ht]
    simp only [List.filter_append, h1, hoo]
    simp [List.filter, Event.isOffer]
  · rw [ht]
    simp only [List.filter_append, hfc, hoc]
    simp [List.filter, Event.isControl]
  · rw [hret, hR]; simp
  · intro hAB hAC callid s hmem
    rw [ht] at hmem
    simp only [List.mem_append, List.mem_cons, List.mem_singleton, List.not_mem_nil,
      or_false, reduceCtorEq, false_or] at hmem
    rcases hmem with hmem | hmem
    · exact h3 hAB hAC callid s hmem
    · simp [sccp_pbx_call_outcome, hR] at hmem

/-- C4 at `ex_chan`: bindings `[ex_A, ex_B, ex_C]`, forwarded, on a call,
free, one channel on a line with limit 2. -/
theorem sccp_pbx_call_fanout_list_order_witness :
    (sccp_pbx_call ex_env {} ex_chan).trace.filter Event.isOffer =
      [Event.channel_forward ex_A "200",
       Event.indicate ex_B.device 1 sccp_channelstate_t.CALLWAITING,
       Event.indicate ex_C.device 1 sccp_channelstate_t.RINGING] ∧
    (sccp_pbx_call ex_env {} ex_chan).trace.filter Event.isControl =
      [Event.queue_control ast_control_t.AST_CONTROL_RINGING] :=
  ⟨((sccp_pbx_call_fanout_list_order ex_env {} ex_chan ex_line ex_A ex_B ex_C (by decide)
      (by decide) (by decide) (by decide) (by decide)).2.2.2 (by decide)).1,
   ((sccp_pbx_call_fanout_list_order ex_env {} ex_chan ex_line ex_A ex_B ex_C (by decide)
      (by decide) (by decide) (by decide) (by decide)).2.2.2 (by decide)).2.1⟩


/-! ## A line in DND (claim C9) -/

/-- C9, as stated, fails: on `ex_line_dnd_oncall` every binding has DND in
reject mode and none has forward-all, the call passes admission, yet the
device is on a call, is shown Call-Waiting, and the outcome queued is
Ringing, not Busy. -/
theorem sccp_pbx_call_dnd_line_ringing :
    (∀ ld ∈ ex_line_dnd_oncall.devices,
      dndReject ld.device ∧ ld.cfwdAll.enabled = false) ∧
    sccp_line_retain ex_chan_dnd_oncall.line = some ex_line_dnd_oncall ∧
    sccp_pbx_call_hasSession ex_line_dnd_oncall.devices = true ∧
    ex_line_dnd_oncall.channels.length ≤ ex_line_dnd_oncall.incominglimit ∧
    (sccp_pbx_call ex_env {} ex_chan_dnd_oncall).trace.filter Event.isControl =
      [Event.queue_control ast_control_t.AST_CONTROL_RINGING] ∧
    (sccp_pbx_call ex_env {} ex_chan_dnd_oncall).trace.filter Event.isIndication =
      [Event.indicate ex_E.device 1 sccp_channelstate_t.CALLWAITING] := by
  decide

/-- A Ringing indication is made only for a binding that is not in
DND-reject. -/
theorem bindingEvents_ringing_not_dnd (env : Env) (c : sccp_channel_t)
    (ld : sccp_linedevices_t) (e : Event) (he : e ∈ bindingEvents env c ld)
    (hr : e.isRingingIndication = true) : ¬ dndReject ld.device := by
  unfold bindingEvents sccp_pbx_call_binding at he
  unfold dndReject
  split_ifs at he <;> try simp at he
  all_goals (try (rcases he with rfl | rfl | rfl <;> simp [Event.isRingingIndication] at hr))
  all_goals (split at he <;> try simp at he)
  all_goals (try (rcases he with rfl | rfl | rfl <;> simp [Event.isRingingIndication] at hr))
  all_goals assumption

/-- C9, amended: on a line whose bindings all have DND enabled in reject
mode and none has forward-all, a call that passes admission sends no
Ringing indication and queues exactly one control frame.  The frame is Busy
when no live, matching binding has a device on a call and at least one live,
matching binding exists; it is Ringing when the device of some live,
matching binding is on a call (that device is shown Call-Waiting); it is
Congestion when no binding is live and matching. -/
theorem sccp_pbx_call_dnd_line (env : Env) (glob : sccp_global_vars)
    (c : sccp_channel_t) (l : sccp_line_t)
    (hl : sccp_line_retain c.line = some l)
    (hs : ∃ ld ∈ l.devices, ld.device.session.isSome = true)
    (hlim : l.channels.length ≤ l.incominglimit)
    (hall : ∀ ld ∈ l.devices, dndReject ld.device ∧ ld.cfwdAll.enabled = false) :
    (∀ e ∈ (sccp_pbx_call env glob c).trace, e.isRingingIndication = false) ∧
    ∃ sig,
      (sccp_pbx_call env glob c).trace.filter Event.isControl = [Event.queue_control sig] ∧
      ((∃ ld ∈ l.devices, shownCallWaiting env (sccp_pbx_call env glob c).c ld) →
        sig = ast_control_t.AST_CONTROL_RINGING) ∧
      (¬ (∃ ld ∈ l.devices, shownCallWaiting env (sccp_pbx_call env glob c).c ld) →
        (∃ ld ∈ l.devices, liveMatch env (sccp_pbx_call env glob c).c ld) →
        sig = ast_control_t.AST_CONTROL_BUSY) ∧
      (¬ (∃ ld ∈ l.devices, liveMatch env (sccp_pbx_call env glob c).c ld) →
        sig = ast_control_t.AST_CONTROL_CONGESTION) := by
  obtain ⟨ht, _⟩ := sccp_pbx_call_admitted env glob c l hl hs hlim
  have hring := fanout_isRinging_iff env (sccp_pbx_call env glob c).c l.devices
  have hdnd := fanout_hasDND_iff env (sccp_pbx_call env glob c).c l.devices
  have hwork := fanout_work env (sccp_pbx_call env glob c).c l.devices
  have hft := fanout_trace env (sccp_pbx_call env glob c).c l.devices
  have hoc := outcome_controls (sccp_pbx_call env glob c).c
    (sccp_pbx_call_fanout env (sccp_pbx_call env glob c).c l.devices)
  generalize (sccp_pbx_call env glob c).c = c2 at *
  generalize (sccp_pbx_call env glob c).trace = tr at *
  -- on this line, ringing means Call-Waiting, and a DND skip means live, matching and free
  have hring2 : (sccp_pbx_call_fanout env c2 l.devices).isRinging = true ↔
      ∃ ld ∈ l.devices, shownCallWaiting env c2 ld := by
    rw [hring]
    constructor
    · rintro ⟨ld, hmem, h | h | h⟩
      · exact absurd h.1 (by simp [(hall ld hmem).2])
      · exact ⟨ld, hmem, h⟩
      · exact absurd (hall ld hmem).1 h.2.2
    · rintro ⟨ld, hmem, h⟩
      exact ⟨ld, hmem, Or.inr (Or.inl h)⟩
  constructor
  · intro e he
    rw [ht] at he
    simp only [List.mem_append, List.mem_cons, List.mem_singleton, List.not_mem_nil,
      or_false] at he
    rcases he with (((he | he) | he) | he) | he
    · rcases he with rfl | rfl | rfl | rfl | rfl | rfl | rfl | rfl <;> rfl
    · rw [hft, List.mem_flatMap] at he
      obtain ⟨ld, hmem, hev⟩ := he
      by_contra hne
      have hr : e.isRingingIndication = true := by simpa using hne
      exact bindingEvents_ringing_not_dnd env c2 ld e hev hr (hall ld hmem).1
    · subst he; rfl
    · unfold sccp_pbx_call_outcome at he
      split_ifs at he <;> simp at he
      · rcases he with rfl | rfl <;> rfl
      · subst he; rfl
      · subst he; rfl
    · rcases he with rfl | rfl | rfl <;> rfl
  · have hfilt : tr.filter Event.isControl =
        (sccp_pbx_call_outcome c2 (sccp_pbx_call_fanout env c2 l.devices)).filter
          Event.isControl := by
      rw [ht]
      simp only [List.filter_append]
      have h0 : (sccp_pbx_call_fanout env c2 l.devices).trace.filter Event.isControl = [] := by
        rw [List.filter_eq_nil_iff]
        intro e he
        simp [(hwork e he).2]
      rw [h0]
      simp [List.filter, Event.isControl]
    rw [hfilt, hoc]
    refine ⟨_, rfl, ?_, ?_, ?_⟩
    · intro h
      simp [hring2.2 h]
    · intro hno hlive
      have hR : ¬ (sccp_pbx_call_fanout env c2 l.devices).isRinging = true :=
        fun h => hno (hring2.1 h)
      have hD : (sccp_pbx_call_fanout env c2 l.devices).hasDNDParticipant = true := by
        rw [hdnd]
        obtain ⟨ld, hmem, hlm⟩ := hlive
        refine ⟨ld, hmem, hlm, ?_, (hall ld hmem).1⟩
        cases ha : env.sccp_channel_get_active ld.device with
        | none => rfl
        | some a => exact absurd ⟨ld, hmem, hlm, by simp [ha]⟩ hno
      simp [hR, hD]
    · intro hno
      have hR : ¬ (sccp_pbx_call_fanout env c2 l.devices).isRinging = true := by
        intro h
        obtain ⟨ld, hmem, hcw⟩ := hring2.1 h
        exact hno ⟨ld, hmem, hcw.1⟩
      have hD : ¬ (sccp_pbx_call_fanout env c2 l.devices).hasDNDParticipant = true := by
        intro h
        obtain ⟨ld, hmem, hsk⟩ := hdnd.1 h
        exact hno ⟨ld, hmem, hsk.1⟩
      simp [hR, hD]

/-- The amended C9 at `ex_chan_dnd`: one free device with DND in reject
mode; the outcome is Busy. -/
theorem sccp_pbx_call_dnd_line_witness :
    (∀ e ∈ (sccp_pbx_call ex_env {} ex_chan_dnd).trace, e.isRingingIndication = false) ∧
    (sccp_pbx_call ex_env {} ex_chan_dnd).trace.filter Event.isControl =
      [Event.queue_control ast_control_t.AST_CONTROL_BUSY] := by
  obtain ⟨h1, sig, hf, _, hb, _⟩ :=
    sccp_pbx_call_dnd_line ex_env {} ex_chan_dnd ex_line_dnd (by decide)
      ⟨ex_D, by decide, by decide⟩ (by decide) (by decide)
  refine ⟨h1, ?_⟩
  rw [hf, hb (by decide) (by decide)]


/-! ## The auto-answer job (claim C10) -/

/-- C10: when the auto-answer job fires, it issues the answer transition
if and only if the conveyor holds a binding, the device of that binding can
be retained, `sccp_channel_find_byid` finds a channel for the conveyed call
id, and that channel is in state Ringing.  In that case the transition is
issued exactly once, for that device and channel.  In every other case (a
null conveyor, no binding, a device that cannot be retained, no channel
with that call id, as after a hangup, or a channel in another state) the job
issues no answer, starts no tone and leaves the microphone alone. -/
theorem sccp_pbx_call_autoanswer_thread_answer (env : Env) (glob : sccp_global_vars)
    (data : Option sccp_answer_conveyor_struct) :
    ((∃ e ∈ sccp_pbx_call_autoanswer_thread env glob data, e.isAnswer = true) ↔
      ∃ conveyor ld c, data = some conveyor ∧ conveyor.linedevice = some ld ∧
        sccp_device_retain ld.device = some ld.device ∧
        env.sccp_channel_find_byid conveyor.callid = some c ∧
        c.state = sccp_channelstate_t.RINGING) ∧
    (∀ conveyor ld c, data = some conveyor → conveyor.linedevice = some ld →
        sccp_device_retain ld.device = some ld.device →
        env.sccp_channel_find_byid conveyor.callid = some c →
        c.state = sccp_channelstate_t.RINGING →
      (sccp_pbx_call_autoanswer_thread env glob data).filter Event.isAnswer =
        [Event.channel_answer ld.device c.callid]) ∧
    (¬ (∃ conveyor ld c, data = some conveyor ∧ conveyor.linedevice = some ld ∧
        sccp_device_retain ld.device = some ld.device ∧
        env.sccp_channel_find_byid conveyor.callid = some c ∧
        c.state = sccp_channelstate_t.RINGING) →
      ∀ e ∈ sccp_pbx_call_autoanswer_thread env glob data, e.isAnswerEffect = false) := by
  cases data with
  | none =>
    simp [sccp_pbx_call_autoanswer_thread, Event.isAnswer, Event.isAnswerEffect]
  | some conv =>
    cases hld : conv.linedevice with
    | none =>
      simp [sccp_pbx_call_autoanswer_thread, sccp_pbx_call_autoanswer_FINAL, hld,
        Event.isAnswer, Event.isAnswerEffect]
      intro _ _ _ h1 h2
      subst h1
      rw [hld] at h2
      cases h2
    | some ld =>
      by_cases hal : ld.device.alive = true
      · have hret : sccp_device_retain ld.device = some ld.device := by
          simp [sccp_device_retain, hal]
        cases hfind : env.sccp_channel_find_byid conv.callid with
        | none =>
          simp [sccp_pbx_call_autoanswer_thread, sccp_pbx_call_autoanswer_FINAL, hld, hret,
            hfind, Event.isAnswer, Event.isAnswerEffect]
          intro _ _ _ h1 _ _ h4
          subst h1
          rw [hfind] at h4
          cases h4
        | some c =>
          by_cases hst : c.state = sccp_channelstate_t.RINGING
          · refine ⟨?_, ?_, ?_⟩
            · constructor
              · intro _
                exact ⟨conv, ld, c, rfl, hld, hret, hfind, hst⟩
              · intro _
                refine ⟨Event.channel_answer ld.device c.callid, ?_, rfl⟩
                simp [sccp_pbx_call_autoanswer_thread, hld, hret, hfind, hst]
            · intro conv2 ld2 c2 h1 h2 _ h4 _
              cases h1
              rw [hld] at h2
              cases h2
              rw [hfind] at h4
              cases h4
              have hne : ¬ sccp_channelstate_t.RINGING ≠ sccp_channelstate_t.RINGING :=
                fun h => h rfl
              simp only [sccp_pbx_call_autoanswer_thread, sccp_pbx_call_autoanswer_FINAL, hld,
                hret, hfind, hst, hne, if_false]
              split_ifs <;> (try split) <;>
                simp [List.filter, Event.isAnswer]
            · intro hno
              exact absurd ⟨conv, ld, c, rfl, hld, hret, hfind, hst⟩ hno
          · simp [sccp_pbx_call_autoanswer_thread, sccp_pbx_call_autoanswer_FINAL, hld, hret,
              hfind, hst, Event.isAnswer, Event.isAnswerEffect]
            intro _ _ _ h1 _ _ h4
            subst h1
            rw [hfind] at h4
            cases h4
            exact hst
      · have hret : sccp_device_retain ld.device = none := by
          simp [sccp_device_retain, hal]
        simp [sccp_pbx_call_autoanswer_thread, sccp_pbx_call_autoanswer_FINAL, hld, hret,
          Event.isAnswer, Event.isAnswerEffect]
        intro _ _ _ h1 h2 h3
        subst h1
        rw [hld] at h2
        cases h2
        rw [hret] at h3
        cases h3

/-- The job on `ex_env` for call id 1, which resolves to a Ringing channel:
the answer transition is issued once, for the device of the binding. -/
theorem sccp_pbx_call_autoanswer_thread_ringing_example :
    (sccp_pbx_call_autoanswer_thread ex_env {} (some { callid := 1, linedevice := some ex_C })
      ).filter Event.isAnswerEffect = [Event.channel_answer ex_C.device 1] := by
  decide

/-- The job on `ex_env` for call id 2, which resolves to no channel (the
call was hung up): it only releases what it holds. -/
theorem sccp_pbx_call_autoanswer_thread_hungup_example :
    sccp_pbx_call_autoanswer_thread ex_env {} (some { callid := 2, linedevice := some ex_C }) =
      [Event.sleep 0, Event.pthread_testcancel,
       Event.retain (Handle.device "SEP-C"),
       Event.release (Handle.device "SEP-C"),
       Event.release (Handle.linedevice ex_C),
       Event.free_conveyor] := by
  decide


/-! ## Answer of a forwarded leg (claim C11) -/

/-- C11: for a channel that can be retained and has a parent channel,
`sccp_pbx_answer` releases the parent handle exactly once, as its last call
but one, after every call of the bridge attempt (state changes and
masquerade, or hangup of the forwarded backend channel when no bridge peer
is found): the trace is the retain of the channel, the bridge calls, the
release of the parent, the release of the channel.  This holds whatever the
backend answers (masquerade succeeded or failed, no bridge peer).  The
channel is left with its parent link cleared, no indication of any state is
sent to a device, and a second `sccp_pbx_answer` on the channel as left
releases the handle of the channel only, no parent. -/
theorem sccp_pbx_answer_releases_parent_once (env : Env) (channel : Option sccp_channel_t)
    (c : sccp_channel_t) (parent : sccp_parent_channel_t)
    (hc : sccp_channel_retain channel = some c)
    (hp : c.parentChannel = some parent) :
    (∃ bridge,
      (sccp_pbx_answer env channel).trace =
        Event.retain (Handle.channel c.callid) :: bridge ++
          [Event.release (Handle.channel parent.callid),
           Event.release (Handle.channel c.callid)] ∧
      ∀ e ∈ bridge, e.isRelease = false ∧ e.isIndication = false) ∧
    (sccp_pbx_answer env channel).trace.filterMap Event.releasedChannel =
      [parent.callid, c.callid] ∧
    (∀ e ∈ (sccp_pbx_answer env channel).trace, e.isIndication = false) ∧
    (sccp_pbx_answer env channel).c = some { c with parentChannel := none } ∧
    (∀ env2 : Env,
      (sccp_pbx_answer env2 (sccp_pbx_answer env channel).c).trace.filterMap
        Event.releasedChannel = [c.callid]) := by
  have halive : c.alive = true := by
    cases channel with
    | none => simp [sccp_channel_retain] at hc
    | some x =>
      simp only [sccp_channel_retain] at hc
      split_ifs at hc with h
      cases hc
      exact h
  have hres : (sccp_pbx_answer env channel).c = some { c with parentChannel := none } := by
    simp [sccp_pbx_answer, hc, hp]
  have h2 : ∀ env2 : Env,
      (sccp_pbx_answer env2 (some { c with parentChannel := none })).trace.filterMap
        Event.releasedChannel = [c.callid] := by
    intro env2
    simp only [sccp_pbx_answer, sccp_channel_retain, sccp_channel_getDevice_retained, halive,
      if_true]
    cases hdev : c.device with
    | none =>
      by_cases hv : c.rtp_video_writeActive = true <;>
        simp [hv, List.filterMap, Event.releasedChannel]
    | some dev =>
      cases hd : sccp_device_retain dev <;>
        by_cases hv : c.rtp_video_writeActive = true <;>
        simp [hv, hd, List.filterMap, Event.releasedChannel]
  rw [hres]
  refine ⟨?_, ?_, ?_, rfl, h2⟩
  · simp only [sccp_pbx_answer, hc, hp]
    refine ⟨_, rfl, ?_⟩
    split <;> (try split_ifs) <;> simp [Event.isRelease, Event.isIndication]
  · simp only [sccp_pbx_answer, hc, hp]
    split <;> (try split_ifs) <;> simp [List.filterMap, Event.releasedChannel]
  · simp only [sccp_pbx_answer, hc, hp]
    split <;> (try split_ifs) <;> simp [Event.isIndication]

/-- C11 at `ex_child` in `ex_env_answer`: the bridge peer is found and the
masquerade succeeds. -/
theorem sccp_pbx_answer_releases_parent_once_witness :
    (sccp_pbx_answer ex_env_answer (some ex_child)).trace.filterMap Event.releasedChannel =
      [4, 5] ∧
    (sccp_pbx_answer ex_env_answer (some ex_child)).c =
      some { ex_child with parentChannel := none } :=
  ⟨(sccp_pbx_answer_releases_parent_once ex_env_answer (some ex_child) ex_child
      { callid := 4, owner := some 10 } (by decide) (by decide)).2.1,
   (sccp_pbx_answer_releases_parent_once ex_env_answer (some ex_child) ex_child
      { callid := 4, owner := some 10 } (by decide) (by decide)).2.2.2.1⟩


/-! ## Teardown (claims C16 to C19) -/

theorem hangup_children_foldl (c : sccp_channel_t) (channels : List sccp_line_channel_t)
    (acc : List Event) :
    channels.foldl (fun trace channel =>
      if channel.parentChannel = some c.callid then
        trace ++ [Event.driver (DriverCall.channel_endcall channel.callid)]
      else trace) acc =
    acc ++ (channels.filter (fun ch => decide (ch.parentChannel = some c.callid))).map
      (fun ch => Event.driver (DriverCall.channel_endcall ch.callid)) := by
  induction channels generalizing acc with
  | nil => simp
  | cons x xs ih =>
    rw [List.foldl_cons, ih]
    by_cases h : x.parentChannel = some c.callid <;> simp [List.filter, h]

/-- The traversal of the channels issues one end-call per member whose
parent link is the channel, in list order. -/
theorem hangup_children_eq (c : sccp_channel_t) (channels : List sccp_line_channel_t) :
    sccp_pbx_hangup_children c channels =
      (channels.filter (fun ch => decide (ch.parentChannel = some c.callid))).map
        (fun ch => Event.driver (DriverCall.channel_endcall ch.callid)) := by
  unfold sccp_pbx_hangup_children
  rw [hangup_children_foldl]
  simp

theorem hangup_devices_foldl (c : sccp_channel_t) (devices : List sccp_linedevices_t)
    (acc : List Event) :
    devices.foldl (fun trace linedevice =>
      if linedevice.device.registrationState =
          skinny_registrationstate_t.SKINNY_DEVICE_RS_OK then
        match sccp_device_retain linedevice.device with
        | some d =>
          trace ++
            [Event.retain (Handle.device d.id),
             Event.indicate d c.callid sccp_channelstate_t.ONHOOK,
             Event.release (Handle.device d.id)]
        | none => trace
      else trace) acc =
    acc ++ (devices.filter (fun ld =>
        decide (ld.device.registrationState = skinny_registrationstate_t.SKINNY_DEVICE_RS_OK) &&
          ld.device.alive)).flatMap
      (fun ld =>
        [Event.retain (Handle.device ld.device.id),
         Event.indicate ld.device c.callid sccp_channelstate_t.ONHOOK,
         Event.release (Handle.device ld.device.id)]) := by
  induction devices generalizing acc with
  | nil => simp
  | cons x xs ih =>
    rw [List.foldl_cons, ih]
    by_cases h : x.device.registrationState = skinny_registrationstate_t.SKINNY_DEVICE_RS_OK
    · by_cases ha : x.device.alive = true
      · simp [List.filter, h, ha, sccp_device_retain]
      · simp [List.filter, h, ha, sccp_device_retain]
    · simp [List.filter, h]

/-- The traversal of the bindings indicates on-hook, between retain and
release, to the device of every binding that is registered and can be
retained, in list order. -/
theorem hangup_devices_eq (c : sccp_channel_t) (devices : List sccp_linedevices_t) :
    sccp_pbx_hangup_devices c devices =
      (devices.filter (fun ld =>
        decide (ld.device.registrationState = skinny_registrationstate_t.SKINNY_DEVICE_RS_OK) &&
          ld.device.alive)).flatMap
      (fun ld =>
        [Event.retain (Handle.device ld.device.id),
         Event.indicate ld.device c.callid sccp_channelstate_t.ONHOOK,
         Event.release (Handle.device ld.device.id)]) := by
  unfold sccp_pbx_hangup_devices
  rw [hangup_devices_foldl]
  simp

/-- The trace of a hangup of a channel that can be retained, on a line that
can be retained. -/
theorem sccp_pbx_hangup_trace (env : Env) (glob : sccp_global_vars)
    (c0 : Option sccp_channel_t) (c : sccp_channel_t) (l : sccp_line_t)
    (hc : sccp_channel_retain c0 = some c)
    (hl : sccp_line_retain c.line = some l) :
    (sccp_pbx_hangup env glob c0).trace =
      sccp_pbx_hangup_usecnt ++ [Event.retain (Handle.channel c.callid)] ++
        sccp_pbx_hangup_owner glob c (sccp_channel_getDevice_retained c) ++
        [Event.retain (Handle.line l.name)] ++
        sccp_pbx_hangup_media env { c with owner := none } (sccp_channel_getDevice_retained c) ++
        [Event.backend (BackendCall.sched_del c.scheduler_digittimeout)] ++
        [Event.driver (DriverCall.list_lock_channels l.name)] ++
        sccp_pbx_hangup_children c l.channels ++
        [Event.driver (DriverCall.list_unlock_channels l.name),
         Event.driver (DriverCall.line_removeChannel l.name c.callid)] ++
        (sccp_pbx_hangup_notify { c with owner := none, scheduler_digittimeout := none }
          (sccp_channel_getDevice_retained c) l).2 ++
        [Event.driver (DriverCall.channel_clean c.callid),
         Event.driver (DriverCall.channel_destroy c.callid)] ++
        (match sccp_channel_getDevice_retained c with
         | some dev => [Event.release (Handle.device dev.id)]
         | none => []) ++
        [Event.release (Handle.line l.name),
         Event.release (Handle.channel c.callid)] := by
  simp only [sccp_pbx_hangup, hc, hl]
  rfl

/-- The calls of the owner block are a retain of the device, a tone and an
on-hook indication: no timer cancellation and no later teardown step. -/
theorem hangup_owner_mem (glob : sccp_global_vars) (c : sccp_channel_t)
    (d : Option sccp_device_t) :
    ∀ e ∈ sccp_pbx_hangup_owner glob c d,
      e.isTimerCancel = false ∧ e.isLaterTeardown = false ∧ e.endcallTarget = none ∧
        e.releasedChannel = none := by
  unfold sccp_pbx_hangup_owner
  cases d with
  | none => simp
  | some dev =>
    simp only []
    split_ifs <;>
      simp [Event.isTimerCancel, Event.isLaterTeardown, Event.endcallTarget,
        Event.releasedChannel]

/-- The calls of the media block are the conference retraction and media
releases: no timer cancellation and no later teardown step. -/
theorem hangup_media_mem (env : Env) (c : sccp_channel_t) (d : Option sccp_device_t) :
    ∀ e ∈ sccp_pbx_hangup_media env c d,
      e.isTimerCancel = false ∧ e.isLaterTeardown = false ∧ e.endcallTarget = none ∧
        e.releasedChannel = none ∧ e.isIndication = false := by
  unfold sccp_pbx_hangup_media
  cases d with
  | none =>
    cases c.conference <;> simp only [] <;> split_ifs <;>
      simp [Event.isTimerCancel, Event.isLaterTeardown, Event.endcallTarget,
        Event.releasedChannel, Event.isIndication]
  | some dev =>
    cases c.conference <;> simp only [] <;> split_ifs <;>
      simp [Event.isTimerCancel, Event.isLaterTeardown, Event.endcallTarget,
        Event.releasedChannel, Event.isIndication]

/-- The calls of the notify block cancel no timer, release no media, end no
call and release no channel handle. -/
theorem hangup_notify_mem (c : sccp_channel_t) (d : Option sccp_device_t) (l : sccp_line_t) :
    ∀ e ∈ (sccp_pbx_hangup_notify c d l).2,
      e.isTimerCancel = false ∧ e.isMediaRelease = false ∧ e.endcallTarget = none ∧
        e.releasedChannel = none := by
  unfold sccp_pbx_hangup_notify
  cases d with
  | none =>
    simp only [hangup_devices_eq]
    intro e he
    simp only [List.mem_append, List.mem_cons, List.mem_singleton, List.not_mem_nil,
      List.mem_flatMap, or_false] at he
    rcases he with (rfl | ⟨ld, _, rfl | rfl | rfl⟩) | rfl <;> exact ⟨rfl, rfl, rfl, rfl⟩
  | some dev =>
    simp only []
    split_ifs
    · simp
    · unfold sccp_pbx_needcheckringback
      cases hs : dev.session <;>
        simp [hs, Event.isTimerCancel, Event.isMediaRelease, Event.endcallTarget,
          Event.releasedChannel]

/-- C17: on the hangup of a channel `c` that can be retained, on a line
that can be retained, `sccp_channel_endcall` is issued exactly once on each
member of the line's channel collection whose parent link is `c`, in list
order, and on no other channel; all of these end-calls come before `c` is
removed from the line's channel collection, and the release of the handle
of `c` is the last call of the teardown: the trace is
`pre ++ line_removeChannel :: mid ++ [release c]`, with the end-calls in
`pre`, none in `mid`, and no release of a channel handle in `pre` or
`mid`. -/
theorem sccp_pbx_hangup_ends_children (env : Env) (glob : sccp_global_vars)
    (c0 : Option sccp_channel_t) (c : sccp_channel_t) (l : sccp_line_t)
    (hc : sccp_channel_retain c0 = some c)
    (hl : sccp_line_retain c.line = some l) :
    (sccp_pbx_hangup env glob c0).trace.filterMap Event.endcallTarget =
      (l.channels.filter (fun ch => decide (ch.parentChannel = some c.callid))).map
        (fun ch => ch.callid) ∧
    ∃ pre mid,
      (sccp_pbx_hangup env glob c0).trace =
        pre ++ Event.driver (DriverCall.line_removeChannel l.name c.callid) :: mid ++
          [Event.release (Handle.channel c.callid)] ∧
      pre.filterMap Event.endcallTarget =
        (l.channels.filter (fun ch => decide (ch.parentChannel = some c.callid))).map
          (fun ch => ch.callid) ∧
      (∀ e ∈ mid, e.endcallTarget = none) ∧
      (∀ e ∈ pre ++ mid, e.releasedChannel = none) := by
  have ht := sccp_pbx_hangup_trace env glob c0 c l hc hl
  have hown := hangup_owner_mem glob c (sccp_channel_getDevice_retained c)
  have hmed := hangup_media_mem env { c with owner := none } (sccp_channel_getDevice_retained c)
  have hnot := hangup_notify_mem { c with owner := none, scheduler_digittimeout := none }
    (sccp_channel_getDevice_retained c) l
  have hnone : ∀ (L : List Event), (∀ e ∈ L, e.endcallTarget = none) →
      L.filterMap Event.endcallTarget = [] := by
    intro L hL
    rw [List.filterMap_eq_nil_iff]
    exact hL
  have hchildren : (sccp_pbx_hangup_children c l.channels).filterMap Event.endcallTarget =
      (l.channels.filter (fun ch => decide (ch.parentChannel = some c.callid))).map
        (fun ch => ch.callid) := by
    rw [hangup_children_eq, List.filterMap_map]
    have : (Event.endcallTarget ∘ fun ch : sccp_line_channel_t =>
        Event.driver (DriverCall.channel_endcall ch.callid)) = fun ch => some ch.callid := by
      funext ch; rfl
    rw [this]
    induction (l.channels.filter (fun ch => decide (ch.parentChannel = some c.callid))) with
    | nil => rfl
    | cons x xs ih => simp [List.filterMap_cons, ih]
  have hrel : ∀ e ∈ (match sccp_channel_getDevice_retained c with
      | some dev => [Event.release (Handle.device dev.id)]
      | none => []), e.endcallTarget = none ∧ e.releasedChannel = none := by
    cases sccp_channel_getDevice_retained c <;> simp [Event.endcallTarget, Event.releasedChannel]
  have hpre : (sccp_pbx_hangup_usecnt ++ [Event.retain (Handle.channel c.callid)] ++
        sccp_pbx_hangup_owner glob c (sccp_channel_getDevice_retained c) ++
        [Event.retain (Handle.line l.name)] ++
        sccp_pbx_hangup_media env { c with owner := none } (sccp_channel_getDevice_retained c) ++
        [Event.backend (BackendCall.sched_del c.scheduler_digittimeout)] ++
        [Event.driver (DriverCall.list_lock_channels l.name)] ++
        sccp_pbx_hangup_children c l.channels ++
        [Event.driver (DriverCall.list_unlock_channels l.name)]).filterMap
          Event.endcallTarget =
      (l.channels.filter (fun ch => decide (ch.parentChannel = some c.callid))).map
        (fun ch => ch.callid) := by
    simp only [List.filterMap_append, hchildren,
      hnone _ (fun e he => (hown e he).2.2.1), hnone _ (fun e he => (hmed e he).2.2.1)]
    simp [sccp_pbx_hangup_usecnt, List.filterMap, Event.endcallTarget]
  have hmid : ∀ e ∈
        (sccp_pbx_hangup_notify { c with owner := none, scheduler_digittimeout := none }
          (sccp_channel_getDevice_retained c) l).2 ++
        [Event.driver (DriverCall.channel_clean c.callid),
         Event.driver (DriverCall.channel_destroy c.callid)] ++
        (match sccp_channel_getDevice_retained c with
         | some dev => [Event.release (Handle.device dev.id)]
         | none => []) ++
        [Event.release (Handle.line l.name)],
      e.endcallTarget = none ∧ e.releasedChannel = none := by
    intro e he
    simp only [List.mem_append, List.mem_cons, List.mem_singleton, List.not_mem_nil,
      or_false] at he
    rcases he with ((he | (rfl | rfl)) | he) | rfl
    · exact ⟨(hnot e he).2.2.1, (hnot e he).2.2.2⟩
    · exact ⟨rfl, rfl⟩
    · exact ⟨rfl, rfl⟩
    · exact hrel e he
    · exact ⟨rfl, rfl⟩
  have hsplit : (sccp_pbx_hangup env glob c0).trace =
      (sccp_pbx_hangup_usecnt ++ [Event.retain (Handle.channel c.callid)] ++
        sccp_pbx_hangup_owner glob c (sccp_channel_getDevice_retained c) ++
        [Event.retain (Handle.line l.name)] ++
        sccp_pbx_hangup_media env { c with owner := none } (sccp_channel_getDevice_retained c) ++
        [Event.backend (BackendCall.sched_del c.scheduler_digittimeout)] ++
        [Event.driver (DriverCall.list_lock_channels l.name)] ++
        sccp_pbx_hangup_children c l.channels ++
        [Event.driver (DriverCall.list_unlock_channels l.name)]) ++
      Event.driver (DriverCall.line_removeChannel l.name c.callid) ::
        ((sccp_pbx_hangup_notify { c with owner := none, scheduler_digittimeout := none }
          (sccp_channel_getDevice_retained c) l).2 ++
        [Event.driver (DriverCall.channel_clean c.callid),
         Event.driver (DriverCall.channel_destroy c.callid)] ++
        (match sccp_channel_getDevice_retained c with
         | some dev => [Event.release (Handle.device dev.id)]
         | none => []) ++
        [Event.release (Handle.line l.name)]) ++
      [Event.release (Handle.channel c.callid)] := by
    rw [ht]; simp
  constructor
  · rw [hsplit]
    simp only [List.filterMap_append, List.filterMap_cons, hpre,
      hnone _ (fun e he => (hmid e he).1)]
    simp [List.filterMap, Event.endcallTarget]
  · refine ⟨_, _, hsplit, hpre, fun e he => (hmid e he).1, ?_⟩
    intro e he
    rw [List.mem_append] at he
    rcases he with he | he
    · simp only [List.mem_append, List.mem_cons, List.mem_singleton, List.not_mem_nil,
        or_false, sccp_pbx_hangup_usecnt, hangup_children_eq, List.mem_map] at he
      rcases he with ((((((((rfl | rfl | rfl) | rfl) | he) | rfl) | he) | rfl) | rfl) |
        ⟨ch, _, rfl⟩) | rfl
      · rfl
      · rfl
      · rfl
      · rfl
      · exact (hown e he).2.2.2
      · rfl
      · exact (hmed e he).2.2.2.1
      · rfl
      · rfl
      · rfl
      · rfl
    · exact (hmid e he).2

/-- C17 at `ex_parent`: the line holds the forwarded children 5 and 6 of
channel 4 and the unrelated channel 7. -/
theorem sccp_pbx_hangup_ends_children_witness :
    (sccp_pbx_hangup ex_env {} (some ex_parent)).trace.filterMap Event.endcallTarget =
      [5, 6] :=
  (sccp_pbx_hangup_ends_children ex_env {} (some ex_parent) ex_parent ex_line_children
    (by decide) (by decide)).1


/-- The indications of a hangup are those of the owner block and those of
the notify block. -/
theorem sccp_pbx_hangup_indications (env : Env) (glob : sccp_global_vars)
    (c0 : Option sccp_channel_t) (c : sccp_channel_t) (l : sccp_line_t)
    (hc : sccp_channel_retain c0 = some c)
    (hl : sccp_line_retain c.line = some l) :
    (sccp_pbx_hangup env glob c0).trace.filter Event.isIndication =
      (sccp_pbx_hangup_owner glob c (sccp_channel_getDevice_retained c)).filter
        Event.isIndication ++
      (sccp_pbx_hangup_notify { c with owner := none, scheduler_digittimeout := none }
        (sccp_channel_getDevice_retained c) l).2.filter Event.isIndication := by
  have hmed : (sccp_pbx_hangup_media env { c with owner := none }
      (sccp_channel_getDevice_retained c)).filter Event.isIndication = [] := by
    rw [List.filter_eq_nil_iff]
    intro e he
    simp [(hangup_media_mem env _ _ e he).2.2.2.2]
  have hch : (sccp_pbx_hangup_children c l.channels).filter Event.isIndication = [] := by
    rw [List.filter_eq_nil_iff, hangup_children_eq]
    intro e he
    rw [List.mem_map] at he
    obtain ⟨ch, _, rfl⟩ := he
    simp [Event.isIndication]
  have hrel : (match sccp_channel_getDevice_retained c with
      | some dev => [Event.release (Handle.device dev.id)]
      | none => []).filter Event.isIndication = [] := by
    cases sccp_channel_getDevice_retained c <;> simp [List.filter, Event.isIndication]
  rw [sccp_pbx_hangup_trace env glob c0 c l hc hl]
  simp only [List.filter_append, hmed, hch, hrel]
  simp [sccp_pbx_hangup_usecnt, List.filter, Event.isIndication]

/-- C18, as stated, fails: on the hangup of `ex_parent`, which no device
owns, the bound device `SEP-U` is not registered and receives no on-hook
indication; only the registered devices `SEP-B` and `SEP-C` do. -/
theorem sccp_pbx_hangup_unregistered_no_onhook :
    sccp_channel_getDevice_retained ex_parent = none ∧
    ex_U ∈ ex_line_children.devices ∧
    (sccp_pbx_hangup ex_env {} (some ex_parent)).trace.filter Event.isIndication =
      [Event.indicate ex_B.device 4 sccp_channelstate_t.ONHOOK,
       Event.indicate ex_C.device 4 sccp_channelstate_t.ONHOOK] := by
  decide

/-- C18, amended: on the hangup of a channel that can be retained, on a line
that can be retained.  When no device owns the channel, the indications sent
are on-hook indications to the devices of the bindings of the line that are
registered (`SKINNY_DEVICE_RS_OK`) and can be retained, one per binding in
list order, and nothing else.  When a device owns the channel, the only
indication is an on-hook indication to the owning device, sent when the
channel is not Down and the device is registered, and no bound device is
indicated; a registered owning device is left flagged for the ringback
check on its session (when it has one), and with an owning device that is
not registered the channel is set to Down and its device is left as it was. -/
theorem sccp_pbx_hangup_onhook (env : Env) (glob : sccp_global_vars)
    (c0 : Option sccp_channel_t) (c : sccp_channel_t) (l : sccp_line_t)
    (hc : sccp_channel_retain c0 = some c)
    (hl : sccp_line_retain c.line = some l) :
    (sccp_channel_getDevice_retained c = none →
      (sccp_pbx_hangup env glob c0).trace.filter Event.isIndication =
        (l.devices.filter (fun ld =>
          decide (ld.device.registrationState =
            skinny_registrationstate_t.SKINNY_DEVICE_RS_OK) && ld.device.alive)).map
          (fun ld => Event.indicate ld.device c.callid sccp_channelstate_t.ONHOOK)) ∧
    (∀ d, sccp_channel_getDevice_retained c = some d →
      (sccp_pbx_hangup env glob c0).trace.filter Event.isIndication =
        (if c.state ≠ sccp_channelstate_t.DOWN ∧
            d.registrationState = skinny_registrationstate_t.SKINNY_DEVICE_RS_OK then
          [Event.indicate d c.callid sccp_channelstate_t.ONHOOK]
        else []) ∧
      (d.registrationState = skinny_registrationstate_t.SKINNY_DEVICE_RS_OK →
        ∃ c3, (sccp_pbx_hangup env glob c0).c = some c3 ∧ c3.state = c.state ∧
          c3.device = (sccp_pbx_needcheckringback (some d)).1 ∧
          (∀ s, d.session = some s →
            c3.device = some { d with session := some { s with needcheckringback := 1 } })) ∧
      (d.registrationState ≠ skinny_registrationstate_t.SKINNY_DEVICE_RS_OK →
        ∃ c3, (sccp_pbx_hangup env glob c0).c = some c3 ∧
          c3.state = sccp_channelstate_t.DOWN ∧ c3.device = c.device)) := by
  have hind := sccp_pbx_hangup_indications env glob c0 c l hc hl
  constructor
  · intro hd
    rw [hind, hd]
    simp only [sccp_pbx_hangup_owner, sccp_pbx_hangup_notify, hangup_devices_eq,
      List.filter_nil, List.nil_append, List.filter_append]
    simp only [List.filter, Event.isIndication, List.append_nil, List.nil_append]
    induction l.devices with
    | nil => rfl
    | cons x xs ih =>
      by_cases hx : (decide (x.device.registrationState =
          skinny_registrationstate_t.SKINNY_DEVICE_RS_OK) && x.device.alive) = true
      · simp only [List.filter_cons, hx, if_true, List.flatMap_cons, List.map_cons,
          List.filter_append, ih]
        simp [List.filter, Event.isIndication]
      · simp only [List.filter_cons, hx]
        simpa using ih
  · intro d hd
    refine ⟨?_, ?_, ?_⟩
    · rw [hind, hd]
      simp only [sccp_pbx_hangup_owner, sccp_pbx_hangup_notify, sccp_pbx_needcheckringback]
      by_cases hs : c.state ≠ sccp_channelstate_t.DOWN <;>
        by_cases hr : d.registrationState = skinny_registrationstate_t.SKINNY_DEVICE_RS_OK <;>
        cases hses : d.session <;>
        (try split_ifs) <;>
        simp_all [List.filter, Event.isIndication]
    · intro hr
      refine ⟨_, by simp only [sccp_pbx_hangup, hc, hl, hd]; rfl, ?_, ?_, ?_⟩
      · simp [sccp_pbx_hangup_notify, hr]
      · simp [sccp_pbx_hangup_notify, hr]
      · intro s hs
        simp [sccp_pbx_hangup_notify, hr, sccp_pbx_needcheckringback, hs]
    · intro hr
      refine ⟨_, by simp only [sccp_pbx_hangup, hc, hl, hd]; rfl, ?_, ?_⟩
      · simp [sccp_pbx_hangup_notify, hr]
      · simp [sccp_pbx_hangup_notify, hr]

/-- The amended C18 at `ex_owned`, owned by the registered device `SEP-B`:
the one indication is on-hook to `SEP-B`, whose session is left flagged. -/
theorem sccp_pbx_hangup_onhook_witness :
    (sccp_pbx_hangup ex_env {} (some ex_owned)).trace.filter Event.isIndication =
      [Event.indicate ex_B.device 4 sccp_channelstate_t.ONHOOK] ∧
    ∃ c3, (sccp_pbx_hangup ex_env {} (some ex_owned)).c = some c3 ∧
      c3.device = some { ex_B.device with session := some { needcheckringback := 1 } } := by
  obtain ⟨h1, h2, _⟩ :=
    (sccp_pbx_hangup_onhook ex_env {} (some ex_owned) ex_owned ex_line_children
      (by decide) (by decide)).2 ex_B.device (by decide)
  obtain ⟨c3, hc3, _, _, hflag⟩ := h2 (by decide)
  refine ⟨?_, c3, hc3, hflag {} (by decide)⟩
  rw [h1]
  decide

/-- C19, as stated, fails: the hangup of the already destroyed channel
`ex_dead` with a use count of 1 returns -1 and leaves the use count at 0. -/
theorem sccp_pbx_hangup_dead_usecnt :
    sccp_channel_retain (some ex_dead) = none ∧
    (sccp_pbx_hangup ex_env { usecnt := 1 } (some ex_dead)).ret = some (-1) ∧
    (sccp_pbx_hangup ex_env { usecnt := 1 } (some ex_dead)).usecnt = 0 := by
  decide

/-- C19, amended: when the channel passed to `sccp_pbx_hangup` cannot be
retained, the call returns -1, decrements the global use count by one and
tells the backend, and does nothing else: the channel, with its line, the
collections of the line, its device and the session of the device, its
timer and its media, is left as it was, and the only calls are the mutex
lock and unlock and the use-count update (no indication, no tone, no
end-call, no release). -/
theorem sccp_pbx_hangup_not_retained (env : Env) (glob : sccp_global_vars)
    (c0 : Option sccp_channel_t)
    (hc : sccp_channel_retain c0 = none) :
    (sccp_pbx_hangup env glob c0).ret = some (-1) ∧
    (sccp_pbx_hangup env glob c0).usecnt = glob.usecnt - 1 ∧
    (sccp_pbx_hangup env glob c0).c = c0 ∧
    (sccp_pbx_hangup env glob c0).trace =
      [Event.backend BackendCall.mutex_lock_usecnt,
       Event.backend BackendCall.mutex_unlock_usecnt,
       Event.backend BackendCall.pbx_update_use_count] ∧
    (∀ e ∈ (sccp_pbx_hangup env glob c0).trace, e.isIndication = false) := by
  simp [sccp_pbx_hangup, hc, sccp_pbx_hangup_usecnt, sccp_pbx_needcheckringback,
    Event.isIndication]

/-- The amended C19 at `ex_dead`. -/
theorem sccp_pbx_hangup_not_retained_witness :
    (sccp_pbx_hangup ex_env { usecnt := 1 } (some ex_dead)).ret = some (-1) ∧
    (sccp_pbx_hangup ex_env { usecnt := 1 } (some ex_dead)).c = some ex_dead :=
  ⟨(sccp_pbx_hangup_not_retained ex_env { usecnt := 1 } (some ex_dead) (by decide)).1,
   (sccp_pbx_hangup_not_retained ex_env { usecnt := 1 } (some ex_dead) (by decide)).2.2.1⟩


/-! ## Admission errors and caller-id shaping (claims C20, C15) -/

/-- C20, as stated, fails: for `ex_chan_noline`, whose line cannot be
retained, and for `ex_chan_nosession`, whose line has no bound device with
a session, `sccp_pbx_call` returns -1 and queues no control frame, neither
Busy nor Congestion. -/
theorem sccp_pbx_call_errors_silent :
    (sccp_line_retain ex_chan_noline.line = none ∧
      (sccp_pbx_call ex_env {} ex_chan_noline).ret = -1 ∧
      (sccp_pbx_call ex_env {} ex_chan_noline).trace = []) ∧
    (sccp_line_retain ex_chan_nosession.line = some ex_line_nosession ∧
      sccp_pbx_call_hasSession ex_line_nosession.devices = false ∧
      (sccp_pbx_call ex_env {} ex_chan_nosession).ret = -1 ∧
      (sccp_pbx_call ex_env {} ex_chan_nosession).trace.filter Event.isControl = []) := by
  decide

/-- C20, amended: of the admission errors of `sccp_pbx_call` only the
exceeded incoming limit is reported upward by a control frame: the call
queues exactly one control frame, Busy, and returns 0.  When the line of
the channel cannot be retained the call makes no call at all and returns
-1; when no bound device has a live session it only scans the devices and
releases the line, queues no control frame and returns -1. -/
theorem sccp_pbx_call_admission_errors (env : Env) (glob : sccp_global_vars)
    (c : sccp_channel_t) :
    (sccp_line_retain c.line = none →
      (sccp_pbx_call env glob c).ret = -1 ∧ (sccp_pbx_call env glob c).trace = []) ∧
    (∀ l, sccp_line_retain c.line = some l →
      (¬ ∃ ld ∈ l.devices, ld.device.session.isSome = true) →
      (sccp_pbx_call env glob c).ret = -1 ∧
      (sccp_pbx_call env glob c).trace.filter Event.isControl = [] ∧
      (sccp_pbx_call env glob c).trace =
        [Event.retain (Handle.line l.name),
         Event.list_lock_devices l.name,
         Event.list_unlock_devices l.name,
         Event.release (Handle.line l.name)]) ∧
    (∀ l, sccp_line_retain c.line = some l →
      (∃ ld ∈ l.devices, ld.device.session.isSome = true) →
      l.channels.length > l.incominglimit →
      (sccp_pbx_call env glob c).ret = 0 ∧
      (sccp_pbx_call env glob c).trace.filter Event.isControl =
        [Event.queue_control ast_control_t.AST_CONTROL_BUSY]) := by
  refine ⟨?_, ?_, ?_⟩
  · intro hl
    simp [sccp_pbx_call, hl]
  · intro l hl hs
    have hs2 : sccp_pbx_call_hasSession l.devices = false := by
      cases h : sccp_pbx_call_hasSession l.devices with
      | false => rfl
      | true => exact absurd ((hasSession_iff _).1 h) hs
    simp [sccp_pbx_call, hl, hs2, List.filter, Event.isControl]
  · intro l hl hs hlim
    have hs2 : sccp_pbx_call_hasSession l.devices = true := (hasSession_iff _).2 hs
    simp [sccp_pbx_call, hl, hs2, hlim, List.filter, Event.isControl]

/-- C15: the calling-party number that `sccp_pbx_call` sets is the caller
number `n` of the channel with `#` appended, one character longer, exactly
when the timeout character is recorded and `n` is non-empty, shorter than
253 characters and begins with `0`; in every other case it is `n` itself
(a null pointer, which leaves the number of the channel as it is, when `n`
is empty).  The calling-party name passed is the name of the channel
unchanged (a null pointer when it is empty).  An admitted call sets the
calling party exactly once, to this name and number. -/
theorem sccp_pbx_call_callerid_shaping (env : Env) (glob : sccp_global_vars)
    (c : sccp_channel_t) :
    ((glob.recorddigittimeoutchar = true ∧ 0 < c.callInfo.callingPartyNumber.length ∧
        c.callInfo.callingPartyNumber.length < 253 ∧
        c.callInfo.callingPartyNumber.toList.head? = some '0') →
      sccp_pbx_call_callingNumber glob (sccp_pbx_call_cid c.callInfo.callingPartyNumber) =
        some (c.callInfo.callingPartyNumber ++ "#") ∧
      (c.callInfo.callingPartyNumber ++ "#").length =
        c.callInfo.callingPartyNumber.length + 1) ∧
    (¬ (glob.recorddigittimeoutchar = true ∧ 0 < c.callInfo.callingPartyNumber.length ∧
        c.callInfo.callingPartyNumber.length < 253 ∧
        c.callInfo.callingPartyNumber.toList.head? = some '0') →
      sccp_pbx_call_callingNumber glob (sccp_pbx_call_cid c.callInfo.callingPartyNumber) =
        (if c.callInfo.callingPartyNumber.length > 0 then
          some c.callInfo.callingPartyNumber else none)) ∧
    (∀ l, sccp_line_retain c.line = some l →
      (∃ ld ∈ l.devices, ld.device.session.isSome = true) →
      l.channels.length ≤ l.incominglimit →
      (sccp_pbx_call env glob c).trace.filterMap Event.callingPartySet =
        [((if c.callInfo.callingPartyName.length > 0 then
            some c.callInfo.callingPartyName else none),
          sccp_pbx_call_callingNumber glob
            (sccp_pbx_call_cid c.callInfo.callingPartyNumber))]) := by
  refine ⟨?_, ?_, ?_⟩
  · rintro ⟨hr, h0, h253, hhead⟩
    constructor
    · have hcid : sccp_pbx_call_cid c.callInfo.callingPartyNumber =
          some c.callInfo.callingPartyNumber := by
        simp [sccp_pbx_call_cid, h0]
      have hlen : c.callInfo.callingPartyNumber.length < 255 - 2 := by omega
      rw [hcid]
      unfold sccp_pbx_call_callingNumber
      simp only [hr, if_true]
      rw [if_pos ⟨h0, hlen, hhead⟩]
    · rw [String.length_append]
      rfl
  · intro hno
    unfold sccp_pbx_call_callingNumber sccp_pbx_call_cid
    by_cases hr : glob.recorddigittimeoutchar = true
    · by_cases h0 : c.callInfo.callingPartyNumber.length > 0
      · simp only [hr, h0, if_true]
        rw [if_neg]
        intro h
        exact hno ⟨hr, h0, by omega, h.2.2⟩
      · simp [hr, h0]
    · simp [hr]
  · intro l hl hs hlim
    have ht := (sccp_pbx_call_admitted env glob c l hl hs hlim).1
    have hf : (sccp_pbx_call_fanout env (sccp_pbx_call env glob c).c l.devices).trace.filterMap
        Event.callingPartySet = [] := by
      rw [List.filterMap_eq_nil_iff]
      intro e he
      have := (fanout_work env _ l.devices e he).1
      cases e <;> simp_all [Event.isBindingWork, Event.callingPartySet]
    have ho : (sccp_pbx_call_outcome (sccp_pbx_call env glob c).c
        (sccp_pbx_call_fanout env (sccp_pbx_call env glob c).c l.devices)).filterMap
        Event.callingPartySet = [] := by
      unfold sccp_pbx_call_outcome
      split_ifs <;> simp [List.filterMap, Event.callingPartySet]
    rw [ht]
    simp only [List.filterMap_append, hf, ho]
    simp [List.filterMap, Event.callingPartySet, sccp_pbx_call_cid]

/-- C15 at `ex_chan_cid` with the timeout character recorded: the number
`0301234` is set as `0301234#`, the name `Alice` as it is. -/
theorem sccp_pbx_call_callerid_shaping_example :
    (sccp_pbx_call ex_env { recorddigittimeoutchar := true } ex_chan_cid).trace.filterMap
        Event.callingPartySet = [(some "Alice", some "0301234#")] ∧
    (sccp_pbx_call ex_env { recorddigittimeoutchar := false } ex_chan_cid).trace.filterMap
        Event.callingPartySet = [(some "Alice", some "0301234")] := by
  decide


/-! ## The soft switch (claims C12 to C14) -/

/-- A string that fits the 256-byte buffer is copied whole. -/
theorem sccp_copy_string_of_le (s : String) (h : s.length ≤ 255) :
    sccp_copy_string s 256 = s := by
  unfold sccp_copy_string
  have : s.toList.take (256 - 1) = s.toList := List.take_of_length_le (by simpa using h)
  rw [this]
  cases s
  rfl

/-- The plain-dial path of the soft switch: no PBX runs on the channel yet,
the channel is outbound, its owning device can be retained and has an
identifier, the channel has a line, the dialed number fits the buffer of
`shortenedNumber`, and the action is a plain dial. -/
theorem sccp_pbx_softswitch_plain_dial (env : Env) (glob : sccp_global_vars)
    (c : sccp_channel_t) (d : sccp_device_t) (l : sccp_line_t)
    (hp : env.getChannelPbx (sccp_pbx_softswitch_enbloc glob c) = false)
    (ht : c.calltype = skinny_calltype_t.SKINNY_CALLTYPE_OUTBOUND)
    (hd : sccp_channel_getDevice_retained c = some d)
    (hid : 0 < d.id.length)
    (hline : c.line = some l)
    (hlen : c.dialedNumber.length ≤ 255)
    (hss : c.ss_action = sccp_ss_action_t.SCCP_SS_DIAL) :
    (sccp_pbx_softswitch env glob (some c)).trace =
      [Event.backend (BackendCall.sched_del c.scheduler_digittimeout),
       Event.retain (Handle.device d.id)] ++
      sccp_pbx_softswitch_export env c d l ++
      [Event.backend (BackendCall.setChannelExten c.callid
         (sccp_pbx_softswitch_shorten glob c.dialedNumber)),
       Event.driver (DriverCall.softkey_setSoftkeyState d),
       Event.channel_set_calledparty
         (sccp_pbx_softswitch_dialedNumber glob c.dialedNumber c.dialedNumber)
         (sccp_pbx_softswitch_shorten glob c.dialedNumber)] ++
      sccp_pbx_softswitch_proceed c d (env.sccp_device_find_index_for_line d l.name) ++
      sccp_pbx_softswitch_start env glob c d l
        (sccp_pbx_softswitch_shorten glob c.dialedNumber) ++
      [Event.release (Handle.device d.id)] ∧
    ∃ c3, (sccp_pbx_softswitch env glob (some c)).c = some c3 ∧
      c3.dialedNumber = sccp_pbx_softswitch_dialedNumber glob c.dialedNumber c.dialedNumber ∧
      c3.device = some { d with lastNumber :=
        sccp_pbx_softswitch_dialedNumber glob c.dialedNumber c.dialedNumber } := by
  have hcopy := sccp_copy_string_of_le c.dialedNumber hlen
  have hd' : sccp_channel_getDevice_retained
      { sccp_pbx_softswitch_enbloc glob c with scheduler_digittimeout := none } = some d := hd
  have hid' : ¬ d.id.length = 0 := by omega
  unfold sccp_pbx_softswitch
  simp only [hp, hd']
  simp only [sccp_pbx_softswitch_enbloc, ht, hline, hss, hcopy, hid']
  simp only [ne_eq, not_true_eq_false, if_false, Bool.false_eq_true]
  constructor
  · rfl
  · exact ⟨_, rfl, rfl, rfl⟩

/-- The export block makes no indication, no dial-start and sets no
extension. -/
theorem softswitch_export_mem (env : Env) (c : sccp_channel_t) (d : sccp_device_t)
    (l : sccp_line_t) :
    ∀ e ∈ sccp_pbx_softswitch_export env c d l,
      e.isIndication = false ∧ e.isDialStart = false ∧ e.extenSet = none := by
  unfold sccp_pbx_softswitch_export
  split_ifs <;>
    simp [Event.isIndication, Event.isDialStart, Event.extenSet]
  all_goals
    rintro e (⟨a, b, _, rfl⟩ | ⟨a, b, _, rfl⟩) <;> exact ⟨rfl, rfl, rfl⟩

/-- A number that ends with the timeout character passes the test of source
line 1222, and without its last character it is the number before that
character. -/
theorem endsWithTimeoutChar_push (glob : sccp_global_vars) (p : String) :
    endsWithTimeoutChar glob (p.push glob.digittimeoutchar) = true ∧
    dropLastChar (p.push glob.digittimeoutchar) = p := by
  cases p with
  | mk data =>
    constructor
    · simp [endsWithTimeoutChar, String.push, String.length]
    · simp [dropLastChar, String.push]

/-- C12: on the plain-dial path of `sccp_pbx_softswitch` (no PBX running on
the channel yet, outbound channel, owning device retained and identified,
line present, number fitting the buffer, plain dial action) the indications
are the Dialing indication followed by what the dial-start decides.  When
the shortened number is non-empty, the backend channel is not hung up and
the extension exists, `pbx_pbx_start` is called exactly once, and a Failed
result is followed by an InvalidNumber indication, a call-limit result by a
Congestion indication, and any other result by no indication.  Otherwise
`pbx_pbx_start` is not called and InvalidNumber is indicated. -/
theorem sccp_pbx_softswitch_dial_start (env : Env) (glob : sccp_global_vars)
    (c : sccp_channel_t) (d : sccp_device_t) (l : sccp_line_t)
    (hp : env.getChannelPbx (sccp_pbx_softswitch_enbloc glob c) = false)
    (ht : c.calltype = skinny_calltype_t.SKINNY_CALLTYPE_OUTBOUND)
    (hd : sccp_channel_getDevice_retained c = some d)
    (hid : 0 < d.id.length)
    (hline : c.line = some l)
    (hlen : c.dialedNumber.length ≤ 255)
    (hss : c.ss_action = sccp_ss_action_t.SCCP_SS_DIAL) :
    (((sccp_pbx_softswitch_shorten glob c.dialedNumber).length > 0 ∧
        env.pbx_check_hangup c.owner = false ∧
        env.pbx_exists_extension c.owner (sccp_pbx_softswitch_shorten glob c.dialedNumber)
          l.cid_num = true) →
      (sccp_pbx_softswitch env glob (some c)).trace.filter Event.isDialStart =
        [Event.backend (BackendCall.pbx_pbx_start c.owner)] ∧
      (sccp_pbx_softswitch env glob (some c)).trace.filter Event.isIndication =
        Event.indicate d c.callid sccp_channelstate_t.DIALING ::
          (match env.pbx_pbx_start c.owner with
           | ast_pbx_result.AST_PBX_FAILED =>
             [Event.indicate d c.callid sccp_channelstate_t.INVALIDNUMBER]
           | ast_pbx_result.AST_PBX_CALL_LIMIT =>
             [Event.indicate d c.callid sccp_channelstate_t.CONGESTION]
           | ast_pbx_result.AST_PBX_SUCCESS => [])) ∧
    (¬ ((sccp_pbx_softswitch_shorten glob c.dialedNumber).length > 0 ∧
        env.pbx_check_hangup c.owner = false ∧
        env.pbx_exists_extension c.owner (sccp_pbx_softswitch_shorten glob c.dialedNumber)
          l.cid_num = true) →
      (sccp_pbx_softswitch env glob (some c)).trace.filter Event.isDialStart = [] ∧
      (sccp_pbx_softswitch env glob (some c)).trace.filter Event.isIndication =
        [Event.indicate d c.callid sccp_channelstate_t.DIALING,
         Event.indicate d c.callid sccp_channelstate_t.INVALIDNUMBER]) := by
  have htr := (sccp_pbx_softswitch_plain_dial env glob c d l hp ht hd hid hline hlen hss).1
  have hexp := softswitch_export_mem env c d l
  have he1 : (sccp_pbx_softswitch_export env c d l).filter Event.isIndication = [] := by
    rw [List.filter_eq_nil_iff]
    intro e he
    simp [(hexp e he).1]
  have he2 : (sccp_pbx_softswitch_export env c d l).filter Event.isDialStart = [] := by
    rw [List.filter_eq_nil_iff]
    intro e he
    simp [(hexp e he).2.1]
  rw [htr]
  simp only [List.filter_append, he1, he2]
  constructor
  · intro hstart
    unfold sccp_pbx_softswitch_start sccp_pbx_softswitch_proceed
    rw [if_pos hstart]
    cases env.pbx_pbx_start c.owner <;>
      (try split_ifs) <;>
      simp [List.filter, Event.isDialStart, Event.isIndication]
  · intro hstart
    unfold sccp_pbx_softswitch_start sccp_pbx_softswitch_proceed
    rw [if_neg hstart]
    simp [List.filter, Event.isDialStart, Event.isIndication]

/-- C12 at `ex_dialing`: the extension `0301234` exists; a dial plan that
fails to start is followed by InvalidNumber. -/
theorem sccp_pbx_softswitch_dial_start_witness :
    (sccp_pbx_softswitch ex_env_dial_failed {} (some ex_dialing)).trace.filter
        Event.isDialStart = [Event.backend (BackendCall.pbx_pbx_start (some 40))] ∧
    (sccp_pbx_softswitch ex_env_dial_failed {} (some ex_dialing)).trace.filter
        Event.isIndication =
      [Event.indicate ex_C.device 8 sccp_channelstate_t.DIALING,
       Event.indicate ex_C.device 8 sccp_channelstate_t.INVALIDNUMBER] :=
  (sccp_pbx_softswitch_dial_start ex_env_dial_failed {} ex_dialing ex_C.device ex_line
    (by decide) (by decide) (by decide) (by decide) (by decide) (by decide) (by decide)).1
    (by decide)

/-- C13: on the plain-dial path, with the recording of the timeout
character disabled, a dialed number that ends with the configured timeout
character is dialed without that character (the extension set on the
backend channel is the number before it) and the character is removed from
the dialed number stored on the channel. -/
theorem sccp_pbx_softswitch_strips_suffix (env : Env) (glob : sccp_global_vars)
    (c : sccp_channel_t) (d : sccp_device_t) (l : sccp_line_t) (p : String)
    (hp : env.getChannelPbx (sccp_pbx_softswitch_enbloc glob c) = false)
    (ht : c.calltype = skinny_calltype_t.SKINNY_CALLTYPE_OUTBOUND)
    (hd : sccp_channel_getDevice_retained c = some d)
    (hid : 0 < d.id.length)
    (hline : c.line = some l)
    (hlen : c.dialedNumber.length ≤ 255)
    (hss : c.ss_action = sccp_ss_action_t.SCCP_SS_DIAL)
    (hrec : glob.recorddigittimeoutchar = false)
    (hnum : c.dialedNumber = p.push glob.digittimeoutchar) :
    (sccp_pbx_softswitch env glob (some c)).trace.filterMap Event.extenSet = [p] ∧
    ∃ c3, (sccp_pbx_softswitch env glob (some c)).c = some c3 ∧ c3.dialedNumber = p := by
  obtain ⟨htr, c3, hc3, hnum3, _⟩ :=
    sccp_pbx_softswitch_plain_dial env glob c d l hp ht hd hid hline hlen hss
  obtain ⟨hend, hdrop⟩ := endsWithTimeoutChar_push glob p
  have hshort : sccp_pbx_softswitch_shorten glob c.dialedNumber = p := by
    simp [sccp_pbx_softswitch_shorten, hnum, hend, hdrop]
  have hstored : sccp_pbx_softswitch_dialedNumber glob c.dialedNumber c.dialedNumber = p := by
    simp [sccp_pbx_softswitch_dialedNumber, hnum, hend, hdrop, hrec]
  have hexp : (sccp_pbx_softswitch_export env c d l).filterMap Event.extenSet = [] := by
    rw [List.filterMap_eq_nil_iff]
    exact fun e he => (softswitch_export_mem env c d l e he).2.2
  have hstart : (sccp_pbx_softswitch_start env glob c d l p).filterMap Event.extenSet = [] := by
    unfold sccp_pbx_softswitch_start
    split_ifs <;> (try cases env.pbx_pbx_start c.owner) <;>
      simp [List.filterMap, Event.extenSet]
  constructor
  · rw [htr, hshort]
    simp only [List.filterMap_append, hexp, hstart]
    simp [sccp_pbx_softswitch_proceed, List.filterMap, Event.extenSet]
  · exact ⟨c3, hc3, by rw [hnum3, hstored]⟩

/-- C13 at `ex_dialing`: the digits `0301234#` dial `0301234` and leave
`0301234` stored. -/
theorem sccp_pbx_softswitch_strips_suffix_witness :
    (sccp_pbx_softswitch ex_env_dial {} (some ex_dialing)).trace.filterMap Event.extenSet =
      ["0301234"] ∧
    ∃ c3, (sccp_pbx_softswitch ex_env_dial {} (some ex_dialing)).c = some c3 ∧
      c3.dialedNumber = "0301234" :=
  sccp_pbx_softswitch_strips_suffix ex_env_dial {} ex_dialing ex_C.device ex_line "0301234"
    (by decide) (by decide) (by decide) (by decide) (by decide) (by decide) (by decide)
    (by decide) (by decide)

/-- C14, as stated, fails: with the recording of the timeout character
enabled, the digits `0301234#` of `ex_dialing` dial the extension
`0301234`, not `0301234#`; the suffix is kept only in the number stored on
the channel. -/
theorem sccp_pbx_softswitch_record_dials_stripped :
    (sccp_pbx_softswitch ex_env_dial { recorddigittimeoutchar := true }
        (some ex_dialing)).trace.filterMap Event.extenSet = ["0301234"] ∧
    (sccp_pbx_softswitch ex_env_dial { recorddigittimeoutchar := true }
        (some ex_dialing)).c.map (fun c => c.dialedNumber) = some "0301234#" := by
  decide

/-- C14, amended: on the plain-dial path, with the recording of the timeout
character enabled, a dialed number that ends with the configured timeout
character is still dialed without that character (the extension set on the
backend channel is the number before it); the suffix is kept in the dialed
number stored on the channel, which is passed as the called-party name with
the shortened number as the called-party number. -/
theorem sccp_pbx_softswitch_record_keeps_stored (env : Env) (glob : sccp_global_vars)
    (c : sccp_channel_t) (d : sccp_device_t) (l : sccp_line_t) (p : String)
    (hp : env.getChannelPbx (sccp_pbx_softswitch_enbloc glob c) = false)
    (ht : c.calltype = skinny_calltype_t.SKINNY_CALLTYPE_OUTBOUND)
    (hd : sccp_channel_getDevice_retained c = some d)
    (hid : 0 < d.id.length)
    (hline : c.line = some l)
    (hlen : c.dialedNumber.length ≤ 255)
    (hss : c.ss_action = sccp_ss_action_t.SCCP_SS_DIAL)
    (hrec : glob.recorddigittimeoutchar = true)
    (hnum : c.dialedNumber = p.push glob.digittimeoutchar) :
    (sccp_pbx_softswitch env glob (some c)).trace.filterMap Event.extenSet = [p] ∧
    Event.channel_set_calledparty (p.push glob.digittimeoutchar) p ∈
      (sccp_pbx_softswitch env glob (some c)).trace ∧
    ∃ c3, (sccp_pbx_softswitch env glob (some c)).c = some c3 ∧
      c3.dialedNumber = p.push glob.digittimeoutchar := by
  obtain ⟨htr, c3, hc3, hnum3, _⟩ :=
    sccp_pbx_softswitch_plain_dial env glob c d l hp ht hd hid hline hlen hss
  obtain ⟨hend, hdrop⟩ := endsWithTimeoutChar_push glob p
  have hshort : sccp_pbx_softswitch_shorten glob c.dialedNumber = p := by
    simp [sccp_pbx_softswitch_shorten, hnum, hend, hdrop]
  have hstored : sccp_pbx_softswitch_dialedNumber glob c.dialedNumber c.dialedNumber =
      p.push glob.digittimeoutchar := by
    simp [sccp_pbx_softswitch_dialedNumber, hnum, hrec]
  have hexp : (sccp_pbx_softswitch_export env c d l).filterMap Event.extenSet = [] := by
    rw [List.filterMap_eq_nil_iff]
    exact fun e he => (softswitch_export_mem env c d l e he).2.2
  have hstart : (sccp_pbx_softswitch_start env glob c d l p).filterMap Event.extenSet = [] := by
    unfold sccp_pbx_softswitch_start
    split_ifs <;> (try cases env.pbx_pbx_start c.owner) <;>
      simp [List.filterMap, Event.extenSet]
  refine ⟨?_, ?_, c3, hc3, by rw [hnum3, hstored]⟩
  · rw [htr, hshort]
    simp only [List.filterMap_append, hexp, hstart]
    simp [sccp_pbx_softswitch_proceed, List.filterMap, Event.extenSet]
  · rw [htr, hshort, hstored]
    simp

/-- The amended C14 at `ex_dialing`: the digits `0301234#` dial `0301234`
and stay stored as `0301234#`. -/
theorem sccp_pbx_softswitch_record_keeps_stored_witness :
    (sccp_pbx_softswitch ex_env_dial { recorddigittimeoutchar := true }
        (some ex_dialing)).trace.filterMap Event.extenSet = ["0301234"] ∧
    ∃ c3, (sccp_pbx_softswitch ex_env_dial { recorddigittimeoutchar := true }
        (some ex_dialing)).c = some c3 ∧ c3.dialedNumber = "0301234#" := by
  obtain ⟨h1, _, h3⟩ :=
    sccp_pbx_softswitch_record_keeps_stored ex_env_dial { recorddigittimeoutchar := true }
      ex_dialing ex_C.device ex_line "0301234"
      (by decide) (by decide) (by decide) (by decide) (by decide) (by decide) (by decide)
      (by decide) (by decide)
  exact ⟨h1, h3⟩

/-! ## The return value of `sccp_pbx_call` (claim C27) -/

/-- C27: `sccp_pbx_call` returns -1 if and only if the line of the channel
cannot be retained or no device bound to the line has a session, and then
it makes no forward request, no indication and queues no control frame,
whatever the forward-all settings of the bindings.  Otherwise it returns 0
if and only if the incoming limit is exceeded or some binding was marked
ringing (forwarded with success, shown Call-Waiting or rung), and it
returns 1 in the remaining case, in which the one control frame queued is
Busy or Congestion.  So the Busy rejection for the limit returns the same
value, 0, as a fan-out that rings. -/
theorem sccp_pbx_call_return_value (env : Env) (glob : sccp_global_vars)
    (c : sccp_channel_t) :
    ((sccp_pbx_call env glob c).ret = -1 ↔
      (sccp_line_retain c.line = none ∨
        ∃ l, sccp_line_retain c.line = some l ∧
          ∀ ld ∈ l.devices, ld.device.session = none)) ∧
    ((sccp_pbx_call env glob c).ret = -1 →
      ∀ e ∈ (sccp_pbx_call env glob c).trace, e.isOffer = false ∧ e.isControl = false) ∧
    (∀ l, sccp_line_retain c.line = some l →
      (∃ ld ∈ l.devices, ld.device.session.isSome = true) →
      ((sccp_pbx_call env glob c).ret = 0 ↔
        (l.channels.length > l.incominglimit ∨
          ∃ ld ∈ l.devices, forwardedOk env (sccp_pbx_call env glob c).c ld ∨
            shownCallWaiting env (sccp_pbx_call env glob c).c ld ∨
            rung env (sccp_pbx_call env glob c).c ld)) ∧
      ((sccp_pbx_call env glob c).ret ≠ 0 →
        (sccp_pbx_call env glob c).ret = 1 ∧
        ((sccp_pbx_call env glob c).trace.filter Event.isControl =
            [Event.queue_control ast_control_t.AST_CONTROL_BUSY] ∨
          (sccp_pbx_call env glob c).trace.filter Event.isControl =
            [Event.queue_control ast_control_t.AST_CONTROL_CONGESTION])) ∧
      (l.channels.length > l.incominglimit →
        (sccp_pbx_call env glob c).ret = 0 ∧
        (sccp_pbx_call env glob c).trace.filter Event.isControl =
          [Event.queue_control ast_control_t.AST_CONTROL_BUSY])) := by
  have key : ∀ l, sccp_line_retain c.line = some l →
      (∃ ld ∈ l.devices, ld.device.session.isSome = true) →
      ((sccp_pbx_call env glob c).ret = 0 ↔
        (l.channels.length > l.incominglimit ∨
          ∃ ld ∈ l.devices, forwardedOk env (sccp_pbx_call env glob c).c ld ∨
            shownCallWaiting env (sccp_pbx_call env glob c).c ld ∨
            rung env (sccp_pbx_call env glob c).c ld)) ∧
      ((sccp_pbx_call env glob c).ret ≠ 0 →
        (sccp_pbx_call env glob c).ret = 1 ∧
        ((sccp_pbx_call env glob c).trace.filter Event.isControl =
            [Event.queue_control ast_control_t.AST_CONTROL_BUSY] ∨
          (sccp_pbx_call env glob c).trace.filter Event.isControl =
            [Event.queue_control ast_control_t.AST_CONTROL_CONGESTION])) ∧
      (l.channels.length > l.incominglimit →
        (sccp_pbx_call env glob c).ret = 0 ∧
        (sccp_pbx_call env glob c).trace.filter Event.isControl =
          [Event.queue_control ast_control_t.AST_CONTROL_BUSY]) := by
    intro l hl hs
    have hs2 : sccp_pbx_call_hasSession l.devices = true := (hasSession_iff _).2 hs
    have hover : l.channels.length > l.incominglimit →
        (sccp_pbx_call env glob c).ret = 0 ∧
        (sccp_pbx_call env glob c).trace.filter Event.isControl =
          [Event.queue_control ast_control_t.AST_CONTROL_BUSY] := by
      intro hlim
      simp [sccp_pbx_call, hl, hs2, hlim, List.filter, Event.isControl]
    by_cases hlim : l.channels.length > l.incominglimit
    · refine ⟨⟨fun _ => Or.inl hlim, fun _ => (hover hlim).1⟩, ?_, hover⟩
      intro hne
      exact absurd (hover hlim).1 hne
    · have hadm := sccp_pbx_call_admitted env glob c l hl hs (Nat.le_of_not_lt hlim)
      have hring := fanout_isRinging_iff env (sccp_pbx_call env glob c).c l.devices
      refine ⟨?_, ?_, hover⟩
      · rw [hadm.2]
        constructor
        · intro h
          right
          apply hring.1
          by_contra hn
          simp [hn] at h
        · rintro (h | h)
          · exact absurd h hlim
          · rw [if_pos (hring.2 h)]
      · intro hne
        have hnr : (sccp_pbx_call_fanout env (sccp_pbx_call env glob c).c l.devices).isRinging
            = false := by
          cases hr : (sccp_pbx_call_fanout env (sccp_pbx_call env glob c).c l.devices).isRinging
          · rfl
          · rw [hadm.2, hr] at hne
            simp at hne
        refine ⟨by rw [hadm.2, hnr]; simp, ?_⟩
        rw [hadm.1]
        simp only [List.filter_append, fanout_controls, outcome_controls, hnr]
        by_cases hd : (sccp_pbx_call_fanout env (sccp_pbx_call env glob c).c
            l.devices).hasDNDParticipant = true
        · left
          simp [hd, List.filter, Event.isControl]
        · right
          simp [hd, List.filter, Event.isControl]
  refine ⟨?_, ?_, key⟩
  · cases hl : sccp_line_retain c.line with
    | none => simp [sccp_pbx_call, hl]
    | some l =>
      by_cases hs : ∃ ld ∈ l.devices, ld.device.session.isSome = true
      · have hk := key l hl hs
        constructor
        · intro h
          exfalso
          by_cases h0 : (sccp_pbx_call env glob c).ret = 0
          · rw [h0] at h; exact absurd h (by decide)
          · rw [(hk.2.1 h0).1] at h; exact absurd h (by decide)
        · rintro (h | ⟨l2, h2, hall⟩)
          · exact absurd h (by simp)
          · exfalso
            cases h2
            obtain ⟨ld, hm, hsome⟩ := hs
            rw [hall ld hm] at hsome
            exact absurd hsome (by simp)
      · have hs2 : sccp_pbx_call_hasSession l.devices = false := by
          cases h : sccp_pbx_call_hasSession l.devices with
          | false => rfl
          | true => exact absurd ((hasSession_iff _).1 h) hs
        constructor
        · intro _
          right
          refine ⟨l, rfl, ?_⟩
          intro ld hm
          cases hsess : ld.device.session with
          | none => rfl
          | some s => exact absurd ⟨ld, hm, by simp [hsess]⟩ hs
        · intro _
          simp [sccp_pbx_call, hl, hs2]
  · intro hret
    cases hl : sccp_line_retain c.line with
    | none => simp [sccp_pbx_call, hl]
    | some l =>
      by_cases hs : ∃ ld ∈ l.devices, ld.device.session.isSome = true
      · exfalso
        have hk := key l hl hs
        by_cases h0 : (sccp_pbx_call env glob c).ret = 0
        · rw [h0] at hret; exact absurd hret (by decide)
        · rw [(hk.2.1 h0).1] at hret; exact absurd hret (by decide)
      · have hs2 : sccp_pbx_call_hasSession l.devices = false := by
          cases h : sccp_pbx_call_hasSession l.devices with
          | false => rfl
          | true => exact absurd ((hasSession_iff _).1 h) hs
        simp [sccp_pbx_call, hl, hs2, Event.isOffer, Event.isControl]

/-- C27 at concrete inputs: the over-limit call on `ex_chan_over` and the
ringing fan-out on `ex_chan` both return 0, and the call on
`ex_chan_nosession`, whose only device has no session, returns -1. -/
theorem sccp_pbx_call_return_value_witness :
    (sccp_pbx_call ex_env {} ex_chan_over).ret = 0 ∧
    (sccp_pbx_call ex_env {} ex_chan).ret = 0 ∧
    (sccp_pbx_call ex_env {} ex_chan_nosession).ret = -1 :=
  ⟨(((sccp_pbx_call_return_value ex_env {} ex_chan_over).2.2 ex_line_over (by decide)
      ⟨ex_A, by decide, by decide⟩).2.2 (by decide)).1,
   (((sccp_pbx_call_return_value ex_env {} ex_chan).2.2 ex_line (by decide)
      ⟨ex_A, by decide, by decide⟩).1).2 (Or.inr ⟨ex_A, by decide, Or.inl (by decide)⟩),
   (sccp_pbx_call_return_value ex_env {} ex_chan_nosession).1.2
      (Or.inr ⟨ex_line_nosession, by decide, by decide⟩)⟩

/-! ## Scheduling of the auto-answer job (claim C23) -/

/-- A binding that is not rung is sent no Ringing indication and gets no
auto-answer job. -/
theorem bindingEvents_not_rung (env : Env) (c : sccp_channel_t) (ld : sccp_linedevices_t)
    (h : ¬ rung env c ld) :
    ∀ e ∈ bindingEvents env c ld,
      e.isRingingIndication = false ∧ e.isAutoanswerJob = false := by
  unfold rung liveMatch dndReject at h
  unfold bindingEvents sccp_pbx_call_binding
  by_cases hf : ld.cfwdAll.enabled = true
  · by_cases h0 : env.sccp_channel_forward c ld ld.cfwdAll.number = 0 <;>
      simp [hf, h0, Event.isRingingIndication, Event.isAutoanswerJob]
  · by_cases hs : ld.device.session.isNone = true
    · simp [hf, hs]
    · have hs2 : ld.device.session.isSome = true := by
        cases h : ld.device.session <;> simp_all
      by_cases hm : env.sccp_util_matchSubscriptionId c ld.subscriptionId.number = true
      · cases ha : env.sccp_channel_get_active ld.device with
        | some a =>
          simp [hf, hs, hm, ha, Event.isRingingIndication, Event.isAutoanswerJob]
        | none =>
          by_cases hd : ld.device.dndFeature.enabled = true ∧
              ld.device.dndFeature.status = sccp_dndmode_t.SCCP_DNDMODE_REJECT
          · simp [hf, hs, hm, ha, hd]
          · exfalso
            apply h
            simp only [Bool.not_eq_true] at hf
            exact ⟨⟨hf, hs2, hm⟩, ha, hd⟩
      · simp [hf, hs, hm]

/-- The auto-answer jobs that the traversal body schedules for one
binding. -/
theorem bindingEvents_jobs (env : Env) (c : sccp_channel_t) (ld : sccp_linedevices_t) :
    (bindingEvents env c ld).filter Event.isAutoanswerJob =
      if rung env c ld ∧ c.autoanswer_type ≠ sccp_autoanswer_type_t.SCCP_AUTOANSWER_NONE ∧
          env.sccp_calloc ld = true then
        [Event.threadpool_add_work { callid := c.callid, linedevice := some ld }]
      else [] := by
  by_cases hr : rung env c ld
  · rw [bindingEvents_of_rung env c ld hr]
    by_cases ha : c.autoanswer_type ≠ sccp_autoanswer_type_t.SCCP_AUTOANSWER_NONE ∧
        env.sccp_calloc ld = true
    · rw [if_pos ha, if_pos ⟨hr, ha⟩]
      simp [List.filter, Event.isAutoanswerJob]
    · rw [if_neg ha, if_neg (fun h => ha h.2)]
      simp [List.filter, Event.isAutoanswerJob]
  · rw [if_neg (fun h => hr h.1), List.filter_eq_nil_iff]
    intro e he
    simp [(bindingEvents_not_rung env c ld hr e he).2]

/-- The auto-answer jobs of a whole traversal, binding by binding. -/
theorem fanout_jobs (env : Env) (c : sccp_channel_t) (devices : List sccp_linedevices_t) :
    (sccp_pbx_call_fanout env c devices).trace.filter Event.isAutoanswerJob =
      devices.flatMap (fun ld => (bindingEvents env c ld).filter Event.isAutoanswerJob) := by
  rw [fanout_trace]
  induction devices with
  | nil => rfl
  | cons ld rest ih => simp only [List.flatMap_cons, List.filter_append, ih]

/-- The channel that `sccp_pbx_call` leaves keeps its auto-answer mode. -/
theorem sccp_pbx_call_autoanswer_type (env : Env) (glob : sccp_global_vars)
    (c : sccp_channel_t) :
    (sccp_pbx_call env glob c).c.autoanswer_type = c.autoanswer_type := by
  unfold sccp_pbx_call
  split
  · rfl
  · cases env.get_callerid_presence <;> simp only [] <;> split_ifs <;> rfl

/-- C23: in the per-binding pass of `sccp_pbx_call` a binding gets an
auto-answer job exactly when it is rung (it is then the binding that is sent
the Ringing indication), the channel requests auto-answer and the job record
can be allocated.  The job carries the call id of the channel and that
binding, whose handle is retained just before the job is handed over.  A
binding that is not rung (forwarded, shown Call-Waiting, skipped for DND or
otherwise) is sent no Ringing indication and gets no job; the jobs of the
pass are those of its bindings, in list order; a channel that does not
request auto-answer gets no job in the whole call. -/
theorem sccp_pbx_call_autoanswer_jobs (env : Env) (glob : sccp_global_vars)
    (c : sccp_channel_t) (ld : sccp_linedevices_t) (devices : List sccp_linedevices_t) :
    ((bindingEvents env c ld).filter Event.isAutoanswerJob =
      if rung env c ld ∧ c.autoanswer_type ≠ sccp_autoanswer_type_t.SCCP_AUTOANSWER_NONE ∧
          env.sccp_calloc ld = true then
        [Event.threadpool_add_work { callid := c.callid, linedevice := some ld }]
      else []) ∧
    (rung env c ld →
      bindingEvents env c ld =
        Event.indicate ld.device c.callid sccp_channelstate_t.RINGING ::
          (if c.autoanswer_type ≠ sccp_autoanswer_type_t.SCCP_AUTOANSWER_NONE ∧
              env.sccp_calloc ld = true then
             [Event.retain (Handle.linedevice ld),
              Event.threadpool_add_work { callid := c.callid, linedevice := some ld }]
           else [])) ∧
    (¬ rung env c ld →
      ∀ e ∈ bindingEvents env c ld,
        e.isRingingIndication = false ∧ e.isAutoanswerJob = false) ∧
    ((forwardedOk env c ld ∨ ld.cfwdAll.enabled = true ∨ shownCallWaiting env c ld ∨
        dndSkipped env c ld ∨ ld.device.session = none ∨
        env.sccp_util_matchSubscriptionId c ld.subscriptionId.number = false) →
      (bindingEvents env c ld).filter Event.isAutoanswerJob = []) ∧
    ((sccp_pbx_call_fanout env c devices).trace.filter Event.isAutoanswerJob =
      (devices.filter (fun ld => decide (rung env c ld) &&
          decide (c.autoanswer_type ≠ sccp_autoanswer_type_t.SCCP_AUTOANSWER_NONE) &&
          env.sccp_calloc ld)).map
        (fun ld => Event.threadpool_add_work { callid := c.callid, linedevice := some ld })) ∧
    (c.autoanswer_type = sccp_autoanswer_type_t.SCCP_AUTOANSWER_NONE →
      ∀ e ∈ (sccp_pbx_call env glob c).trace, e.isAutoanswerJob = false) ∧
    (∀ l, sccp_line_retain c.line = some l →
      (∃ b ∈ l.devices, b.device.session.isSome = true) →
      l.channels.length ≤ l.incominglimit →
      (sccp_pbx_call env glob c).trace.filter Event.isAutoanswerJob =
        (l.devices.filter (fun b => decide (rung env (sccp_pbx_call env glob c).c b) &&
            decide (c.autoanswer_type ≠ sccp_autoanswer_type_t.SCCP_AUTOANSWER_NONE) &&
            env.sccp_calloc b)).map
          (fun b => Event.threadpool_add_work { callid := c.callid, linedevice := some b })) := by
  have hjobs : ∀ (ch : sccp_channel_t) (ds : List sccp_linedevices_t),
      (sccp_pbx_call_fanout env ch ds).trace.filter Event.isAutoanswerJob =
      (ds.filter (fun ld => decide (rung env ch ld) &&
          decide (ch.autoanswer_type ≠ sccp_autoanswer_type_t.SCCP_AUTOANSWER_NONE) &&
          env.sccp_calloc ld)).map
        (fun ld => Event.threadpool_add_work { callid := ch.callid, linedevice := some ld }) := by
    intro ch ds
    rw [fanout_jobs]
    induction ds with
    | nil => rfl
    | cons b rest ih =>
      rw [List.flatMap_cons, ih, bindingEvents_jobs, List.filter_cons]
      by_cases hb : rung env ch b ∧
          ch.autoanswer_type ≠ sccp_autoanswer_type_t.SCCP_AUTOANSWER_NONE ∧
          env.sccp_calloc b = true
      · have hb2 : (decide (rung env ch b) &&
            decide (ch.autoanswer_type ≠ sccp_autoanswer_type_t.SCCP_AUTOANSWER_NONE) &&
            env.sccp_calloc b) = true := by
          simp [hb.1, hb.2.1, hb.2.2]
        rw [if_pos hb, if_pos hb2]
        rfl
      · have hb2 : ¬ (decide (rung env ch b) &&
            decide (ch.autoanswer_type ≠ sccp_autoanswer_type_t.SCCP_AUTOANSWER_NONE) &&
            env.sccp_calloc b) = true := by
          intro h
          apply hb
          simp only [Bool.and_eq_true, decide_eq_true_eq] at h
          exact ⟨h.1.1, h.1.2, h.2⟩
        rw [if_neg hb, if_neg hb2]
        rfl
  have hother : ∀ (l : sccp_line_t), sccp_line_retain c.line = some l →
      (∃ b ∈ l.devices, b.device.session.isSome = true) →
      l.channels.length ≤ l.incominglimit →
      (sccp_pbx_call env glob c).trace.filter Event.isAutoanswerJob =
        (sccp_pbx_call_fanout env (sccp_pbx_call env glob c).c l.devices).trace.filter
          Event.isAutoanswerJob := by
    intro l hl hs hlim
    have ht := (sccp_pbx_call_admitted env glob c l hl hs hlim).1
    have ho : (sccp_pbx_call_outcome (sccp_pbx_call env glob c).c
        (sccp_pbx_call_fanout env (sccp_pbx_call env glob c).c l.devices)).filter
        Event.isAutoanswerJob = [] := by
      unfold sccp_pbx_call_outcome
      split_ifs <;> simp [List.filter, Event.isAutoanswerJob]
    rw [ht]
    simp only [List.filter_append, ho]
    simp [List.filter, Event.isAutoanswerJob]
  refine ⟨bindingEvents_jobs env c ld, bindingEvents_of_rung env c ld,
    bindingEvents_not_rung env c ld, ?_, hjobs c devices, ?_, ?_⟩
  · intro hcase
    have hnr : ¬ rung env c ld := by
      unfold rung liveMatch
      unfold forwardedOk shownCallWaiting dndSkipped liveMatch at hcase
      rintro ⟨⟨hf, hs, hm⟩, ha, hd⟩
      rcases hcase with h | h | h | h | h | h
      · rw [hf] at h; exact absurd h.1 (by simp)
      · rw [hf] at h; exact absurd h (by simp)
      · rw [ha] at h; exact absurd h.2 (by simp)
      · exact hd h.2.2
      · rw [h] at hs; exact absurd hs (by simp)
      · rw [hm] at h; exact absurd h (by simp)
    rw [bindingEvents_jobs, if_neg (fun h => hnr h.1)]
  · intro hnone e he
    cases hl : sccp_line_retain c.line with
    | none =>
      simp [sccp_pbx_call, hl] at he
    | some l =>
      by_cases hs : ∃ b ∈ l.devices, b.device.session.isSome = true
      · by_cases hlim : l.channels.length ≤ l.incominglimit
        · have hf := hother l hl hs hlim
          rw [hjobs] at hf
          have hnil : (sccp_pbx_call env glob c).trace.filter Event.isAutoanswerJob = [] := by
            rw [hf, sccp_pbx_call_autoanswer_type, hnone]
            simp
          rw [List.filter_eq_nil_iff] at hnil
          simpa using hnil e he
        · have hs2 : sccp_pbx_call_hasSession l.devices = true := (hasSession_iff _).2 hs
          have hlim2 : l.channels.length > l.incominglimit := Nat.lt_of_not_le hlim
          simp [sccp_pbx_call, hl, hs2, hlim2] at he
          rcases he with rfl | rfl | rfl | rfl | rfl | rfl <;> rfl
      · have hs2 : sccp_pbx_call_hasSession l.devices = false := by
          cases h : sccp_pbx_call_hasSession l.devices with
          | false => rfl
          | true => exact absurd ((hasSession_iff _).1 h) hs
        simp [sccp_pbx_call, hl, hs2] at he
        rcases he with rfl | rfl | rfl | rfl <;> rfl
  · intro l hl hs hlim
    rw [hother l hl hs hlim, hjobs, sccp_pbx_call_autoanswer_type, sccp_pbx_call_callid]

/-- C23 at `ex_chan_auto` on `ex_line`: of the bindings `ex_A` (forwarded),
`ex_B` (shown Call-Waiting) and `ex_C` (rung) only `ex_C` gets a job, with
call id 1 and the handle of `ex_C`. -/
theorem sccp_pbx_call_autoanswer_jobs_witness :
    rung ex_env ex_chan_auto ex_C ∧
    bindingEvents ex_env ex_chan_auto ex_C =
      [Event.indicate ex_C.device 1 sccp_channelstate_t.RINGING,
       Event.retain (Handle.linedevice ex_C),
       Event.threadpool_add_work { callid := 1, linedevice := some ex_C }] ∧
    (sccp_pbx_call ex_env {} ex_chan_auto).trace.filter Event.isAutoanswerJob =
      [Event.threadpool_add_work { callid := 1, linedevice := some ex_C }] :=
  ⟨by decide,
   ((sccp_pbx_call_autoanswer_jobs ex_env {} ex_chan_auto ex_C []).2.1 (by decide)).trans
     (by decide),
   ((sccp_pbx_call_autoanswer_jobs ex_env {} ex_chan_auto ex_C []).2.2.2.2.2.2 ex_line
     (by decide) ⟨ex_A, by decide, by decide⟩ (by decide)).trans (by decide)⟩

/-! ## The suffix of the caller number and its stripping (claim C29) -/

/-- The stripping of the soft switch removes at most the last character, and
none from a number that does not end with the timeout character. -/
theorem sccp_pbx_softswitch_shorten_bounds (glob : sccp_global_vars) (s : String) :
    (sccp_pbx_softswitch_shorten glob s).length ≤ s.length ∧
    s.length ≤ (sccp_pbx_softswitch_shorten glob s).length + 1 ∧
    (endsWithTimeoutChar glob s = false → sccp_pbx_softswitch_shorten glob s = s) ∧
    (endsWithTimeoutChar glob s = true →
      s = (sccp_pbx_softswitch_shorten glob s).push glob.digittimeoutchar) := by
  unfold sccp_pbx_softswitch_shorten
  cases h : endsWithTimeoutChar glob s with
  | false => simp
  | true =>
    simp only [if_true]
    cases s with
    | mk data =>
      simp only [endsWithTimeoutChar, Bool.and_eq_true, decide_eq_true_eq, beq_iff_eq] at h
      have hlast : data.getLast? = some glob.digittimeoutchar := h.2
      have hd : data.dropLast ++ [glob.digittimeoutchar] = data :=
        List.dropLast_append_getLast? _ (by rw [hlast]; rfl)
      have hlen : data.length = data.dropLast.length + 1 := by
        conv_lhs => rw [← hd]
        simp
      refine ⟨?_, ?_, by simp, ?_⟩
      · simp [dropLastChar, String.length]
      · show data.length ≤ data.dropLast.length + 1
        omega
      · intro _
        show String.mk data = String.mk (data.dropLast ++ [glob.digittimeoutchar])
        rw [hd]

/-- When the configured timeout character is `#`, the number that the
caller-id shaping suffixes is given back by the stripping of the soft
switch. -/
theorem sccp_pbx_softswitch_shorten_shaped (glob : sccp_global_vars) (n : String)
    (hchar : glob.digittimeoutchar = '#')
    (hrec : glob.recorddigittimeoutchar = true)
    (h0 : 0 < n.length) (hlen : n.length < 253) (hhead : n.toList.head? = some '0') :
    ∃ shaped, sccp_pbx_call_callingNumber glob (sccp_pbx_call_cid n) = some shaped ∧
      sccp_pbx_softswitch_shorten glob (sccp_copy_string shaped 256) = n := by
  refine ⟨n ++ "#", ?_, ?_⟩
  · have hcid : sccp_pbx_call_cid n = some n := by simp [sccp_pbx_call_cid, h0]
    rw [hcid]
    unfold sccp_pbx_call_callingNumber
    simp only [hrec, if_true]
    rw [if_pos ⟨h0, by omega, hhead⟩]
  · have hpush : n ++ "#" = n.push glob.digittimeoutchar := by
      rw [hchar]
      cases n
      rfl
    have hl : (n ++ "#").length ≤ 255 := by
      rw [String.length_append]
      have : ("#" : String).length = 1 := rfl
      omega
    rw [sccp_copy_string_of_le _ hl, hpush]
    unfold sccp_pbx_softswitch_shorten
    rw [(endsWithTimeoutChar_push glob n).1, if_pos rfl, (endsWithTimeoutChar_push glob n).2]

/-- C29 at the settings `ex_glob_star` (timeout character `*`, recorded)
and the caller number `0301234`: the caller-id shaping of `sccp_pbx_call`
suffixes the number with `#`, not with the configured character, and the
stripping of `sccp_pbx_softswitch`, which tests for the configured
character, leaves `0301234#` as it is, so the round trip does not give the
number back. -/
theorem sccp_pbx_call_suffix_not_stripped :
    ex_glob_star.recorddigittimeoutchar = true ∧
    ("0301234" : String).toList.head? = some '0' ∧
    0 < ("0301234" : String).length ∧ ("0301234" : String).length < 253 ∧
    sccp_pbx_call_callingNumber ex_glob_star (sccp_pbx_call_cid "0301234") =
      some "0301234#" ∧
    sccp_pbx_softswitch_shorten ex_glob_star (sccp_copy_string "0301234#" 256) =
      "0301234#" ∧
    sccp_pbx_softswitch_shorten ex_glob_star (sccp_copy_string "0301234#" 256) ≠
      "0301234" := by
  decide

/-! ## The soft switch on a channel with a running PBX (claim C25) -/

/-- C25: on a channel on which a PBX already runs `sccp_pbx_softswitch`
calls no dial-start, runs no soft-switch action, cancels no timer and
leaves the stored dialed number as it is.  With an empty dialed number it
makes no call at all; with a non-empty one it calls `sccp_pbx_senddigits`
with the dialed number, sets the called party and, when the channel has an
owning device that can be retained, indicates Dialing to it between the
retain and the release of its handle.  So, the backend providing the
`send_digits` hook, the digits sent are the dialed number if it is non-empty
and none otherwise, and for an owning device the Dialing indication is sent
if and only if the dialed number is non-empty. -/
theorem sccp_pbx_softswitch_pbx_running (env : Env) (glob : sccp_global_vars)
    (c : sccp_channel_t)
    (hp : env.getChannelPbx (sccp_pbx_softswitch_enbloc glob c) = true) :
    (∀ e ∈ (sccp_pbx_softswitch env glob (some c)).trace,
      e.isDialStart = false ∧ e.isSoftSwitchAction = false ∧ e.isTimerCancel = false) ∧
    (∃ c3, (sccp_pbx_softswitch env glob (some c)).c = some c3 ∧
      c3.dialedNumber = c.dialedNumber ∧ c3 = sccp_pbx_softswitch_enbloc glob c) ∧
    (c.dialedNumber.length = 0 → (sccp_pbx_softswitch env glob (some c)).trace = []) ∧
    (c.dialedNumber.length > 0 →
      (sccp_pbx_softswitch env glob (some c)).trace =
        sccp_pbx_senddigits env (sccp_pbx_softswitch_enbloc glob c) c.dialedNumber ++
        [Event.channel_set_calledparty c.dialedNumber c.dialedNumber] ++
        (match sccp_channel_getDevice_retained c with
         | some d =>
           [Event.retain (Handle.device d.id),
            Event.indicate d c.callid sccp_channelstate_t.DIALING,
            Event.release (Handle.device d.id)]
         | none => [])) ∧
    (env.send_digits = true →
      (sccp_pbx_softswitch env glob (some c)).trace.filterMap Event.digitsSent =
        if c.dialedNumber.length > 0 then [c.dialedNumber] else []) ∧
    (∀ d, sccp_channel_getDevice_retained c = some d →
      (sccp_pbx_softswitch env glob (some c)).trace.filter Event.isIndication =
        (if c.dialedNumber.length > 0 then
          [Event.indicate d c.callid sccp_channelstate_t.DIALING] else []) ∧
      (Event.indicate d c.callid sccp_channelstate_t.DIALING ∈
          (sccp_pbx_softswitch env glob (some c)).trace ↔ c.dialedNumber.length > 0)) := by
  have hdev : sccp_channel_getDevice_retained (sccp_pbx_softswitch_enbloc glob c) =
      sccp_channel_getDevice_retained c := rfl
  have hnum : (sccp_pbx_softswitch_enbloc glob c).dialedNumber = c.dialedNumber := rfl
  have hcid : (sccp_pbx_softswitch_enbloc glob c).callid = c.callid := rfl
  by_cases hlen : c.dialedNumber.length > 0
  · have htr : (sccp_pbx_softswitch env glob (some c)).trace =
        sccp_pbx_senddigits env (sccp_pbx_softswitch_enbloc glob c) c.dialedNumber ++
        [Event.channel_set_calledparty c.dialedNumber c.dialedNumber] ++
        (match sccp_channel_getDevice_retained c with
         | some d =>
           [Event.retain (Handle.device d.id),
            Event.indicate d c.callid sccp_channelstate_t.DIALING,
            Event.release (Handle.device d.id)]
         | none => []) := by
      unfold sccp_pbx_softswitch
      simp only [hp, if_true, hnum, hlen, hdev, hcid]
    have hc : (sccp_pbx_softswitch env glob (some c)).c =
        some (sccp_pbx_softswitch_enbloc glob c) := by
      unfold sccp_pbx_softswitch
      simp only [hp, if_true, hnum, hlen]
    have hne : ¬ c.dialedNumber.length = 0 := by omega
    refine ⟨?_, ⟨_, hc, rfl, rfl⟩, fun h => absurd h hne, fun _ => htr, ?_, ?_⟩
    · rw [htr]
      intro e he
      unfold sccp_pbx_senddigits at he
      cases hd : sccp_channel_getDevice_retained c <;> rw [hd] at he <;>
        split_ifs at he <;>
        simp at he <;>
        (rcases he with rfl | rfl | rfl | rfl | rfl) <;>
        simp [Event.isDialStart, Event.isSoftSwitchAction, Event.isTimerCancel]
    · intro hsend
      rw [htr, if_pos hlen]
      unfold sccp_pbx_senddigits
      cases hd : sccp_channel_getDevice_retained c <;>
        simp [hsend, List.filterMap, Event.digitsSent]
    · intro d hd
      rw [htr, hd, if_pos hlen]
      unfold sccp_pbx_senddigits
      constructor
      · split_ifs <;> simp [List.filter, Event.isIndication]
      · simp [hlen]
  · have hzero : c.dialedNumber.length = 0 := by omega
    have htr : (sccp_pbx_softswitch env glob (some c)).trace = [] := by
      unfold sccp_pbx_softswitch
      simp only [hp, if_true, hnum, hlen, if_false]
    have hc : (sccp_pbx_softswitch env glob (some c)).c =
        some (sccp_pbx_softswitch_enbloc glob c) := by
      unfold sccp_pbx_softswitch
      simp only [hp, if_true, hnum, hlen, if_false]
    refine ⟨?_, ⟨_, hc, rfl, rfl⟩, fun _ => htr, fun h => absurd h hlen, ?_, ?_⟩
    · rw [htr]; simp
    · intro _
      rw [htr, if_neg hlen]
      rfl
    · intro d _
      rw [htr, if_neg hlen]
      simp [hlen]

/-- C25 at `ex_dialing` with a PBX already running: the digits `0301234#`
are sent and Dialing is indicated to the owning device `SEP-C`; the stored
number stays `0301234#` and no dial-start is called. -/
theorem sccp_pbx_softswitch_pbx_running_witness :
    (sccp_pbx_softswitch ex_env_pbx {} (some ex_dialing)).trace.filterMap Event.digitsSent =
      ["0301234#"] ∧
    (sccp_pbx_softswitch ex_env_pbx {} (some ex_dialing)).trace.filter Event.isIndication =
      [Event.indicate ex_C.device 8 sccp_channelstate_t.DIALING] ∧
    (∀ e ∈ (sccp_pbx_softswitch ex_env_pbx {} (some ex_dialing)).trace,
      e.isDialStart = false ∧ e.isSoftSwitchAction = false ∧ e.isTimerCancel = false) :=
  ⟨((sccp_pbx_softswitch_pbx_running ex_env_pbx {} ex_dialing (by decide)).2.2.2.2.1
      (by decide)).trans (by decide),
   ((sccp_pbx_softswitch_pbx_running ex_env_pbx {} ex_dialing (by decide)).2.2.2.2.2
      ex_C.device (by decide)).1.trans (by decide),
   (sccp_pbx_softswitch_pbx_running ex_env_pbx {} ex_dialing (by decide)).1⟩

/-! ## The extension helper (claim C28) -/

/-- C28: for every channel `sccp_pbx_helper` returns what the reference
definition gives: ExactMatch for a non-empty dialed number that ends with
the configured timeout character when that character is recorded; otherwise
NotExists for the meet-me and conference-barge actions, without a query of
the backend; otherwise MatchMore when the channel has an owning device and
the backend status is the zero value; otherwise the backend status.  The
result is the same whatever the overlap-dial flag of the owning device (the
backend answering the same). -/
theorem sccp_pbx_helper_eq_reference (env : Env) (glob : sccp_global_vars)
    (v : sccp_extension_status_values) (c : sccp_channel_t) :
    (sccp_pbx_helper env glob v c).status = sccp_pbx_helper_reference env glob v c ∧
    ((c.ss_action = sccp_ss_action_t.SCCP_SS_GETMEETMEROOM ∨
        c.ss_action = sccp_ss_action_t.SCCP_SS_GETCBARGEROOM) →
      ∀ e ∈ (sccp_pbx_helper env glob v c).trace, e.isExtensionQuery = false) ∧
    (∀ enabled : Bool,
      env.extension_status (withOverlap c enabled) = env.extension_status c →
      (sccp_pbx_helper env glob v (withOverlap c enabled)).status =
        (sccp_pbx_helper env glob v c).status) := by
  have href : ∀ ch : sccp_channel_t,
      (sccp_pbx_helper env glob v ch).status = sccp_pbx_helper_reference env glob v ch := by
    intro ch
    unfold sccp_pbx_helper sccp_pbx_helper_reference
    by_cases h1 : ch.dialedNumber.length > 0 ∧ glob.recorddigittimeoutchar = true ∧
        ch.dialedNumber.toList.getLast? = some glob.digittimeoutchar
    · rw [if_pos h1, if_pos h1]
    · rw [if_neg h1, if_neg h1]
      cases hd : sccp_channel_getDevice_retained ch with
      | none =>
        cases hss : ch.ss_action <;> simp
      | some d =>
        cases hov : d.overlapFeature.enabled <;> cases hss : ch.ss_action <;>
          simp [hov] <;> split_ifs <;> simp_all
  refine ⟨href c, ?_, ?_⟩
  · intro hss e he
    unfold sccp_pbx_helper at he
    rcases hss with hss | hss <;> simp [hss] at he <;> split_ifs at he <;> simp at he
  · intro enabled henv
    rw [href, href]
    have hd : (sccp_channel_getDevice_retained (withOverlap c enabled)).isSome =
        (sccp_channel_getDevice_retained c).isSome := by
      unfold sccp_channel_getDevice_retained withOverlap sccp_device_retain
      cases hdev : c.device with
      | none => rfl
      | some d => simp only [Option.map_some']; split_ifs <;> rfl
    unfold sccp_pbx_helper_reference
    rw [henv, hd]
    rfl

/-- C28 at `ex_dialing` (owning device `SEP-C`, dialed `0301234#`): with
the timeout character recorded the result is ExactMatch; without, the
backend answering the zero value, it is MatchMore, with the overlap-dial
flag set as well as cleared. -/
theorem sccp_pbx_helper_eq_reference_witness :
    (sccp_pbx_helper ex_env { recorddigittimeoutchar := true } {} ex_dialing).status = 2 ∧
    (sccp_pbx_helper ex_env {} {} ex_dialing).status = 1 ∧
    (sccp_pbx_helper ex_env {} {} (withOverlap ex_dialing true)).status = 1 :=
  ⟨(sccp_pbx_helper_eq_reference ex_env { recorddigittimeoutchar := true } {}
      ex_dialing).1.trans (by decide),
   (sccp_pbx_helper_eq_reference ex_env {} {} ex_dialing).1.trans (by decide),
   ((sccp_pbx_helper_eq_reference ex_env {} {} ex_dialing).2.2 true (by decide)).trans
     (by decide)⟩

/-! ## The digit timer callback (claim C24) -/

/-- The export block of the soft switch makes no call from outside the soft
switch and fails no `assert`. -/
theorem softswitch_export_inside (env : Env) (c : sccp_channel_t) (d : sccp_device_t)
    (l : sccp_line_t) :
    ∀ e ∈ sccp_pbx_softswitch_export env c d l, e.isOutsideSoftswitch = false := by
  unfold sccp_pbx_softswitch_export
  split_ifs <;> simp [Event.isOutsideSoftswitch]
  all_goals (intro e h; rcases h with ⟨a, b, _, rfl⟩ | ⟨a, b, _, rfl⟩ <;> rfl)

/-- The dial-start block of the soft switch makes no call from outside the
soft switch and fails no `assert`. -/
theorem softswitch_start_inside (env : Env) (glob : sccp_global_vars) (c : sccp_channel_t)
    (d : sccp_device_t) (l : sccp_line_t) (shortenedNumber : String) :
    ∀ e ∈ sccp_pbx_softswitch_start env glob c d l shortenedNumber,
      e.isOutsideSoftswitch = false := by
  unfold sccp_pbx_softswitch_start
  cases env.pbx_pbx_start c.owner <;> simp only [] <;> split_ifs <;>
    simp [Event.isOutsideSoftswitch]

/-- The proceed block of the soft switch makes no call from outside the soft
switch and fails no `assert`. -/
theorem softswitch_proceed_inside (c : sccp_channel_t) (d : sccp_device_t)
    (lineInstance : Nat) :
    ∀ e ∈ sccp_pbx_softswitch_proceed c d lineInstance, e.isOutsideSoftswitch = false := by
  unfold sccp_pbx_softswitch_proceed
  simp [Event.isOutsideSoftswitch]

/-- The dial block of the soft switch makes no call from outside the soft
switch and fails no `assert`. -/
theorem softswitch_dial_inside (env : Env) (glob : sccp_global_vars) (c : sccp_channel_t)
    (d : sccp_device_t) (l : sccp_line_t) (lineInstance : Nat) (shortenedNumber : String) :
    ∀ e ∈ (sccp_pbx_softswitch_dial env glob c d l lineInstance shortenedNumber).trace,
      e.isOutsideSoftswitch = false := by
  have h1 : ∀ e ∈ [Event.backend (BackendCall.setChannelExten c.callid shortenedNumber),
      Event.driver (DriverCall.softkey_setSoftkeyState d),
      Event.channel_set_calledparty c.dialedNumber shortenedNumber],
      e.isOutsideSoftswitch = false := by
    simp [Event.isOutsideSoftswitch]
  intro e he
  unfold sccp_pbx_softswitch_dial at he
  simp only [List.mem_append] at he
  rcases he with (((he | he) | he) | he) | he
  · exact softswitch_export_inside env c d l e he
  · exact h1 e he
  · exact softswitch_proceed_inside c d lineInstance e he
  · exact softswitch_start_inside env glob c d l shortenedNumber e he
  · simp only [List.mem_singleton] at he; subst he; rfl

/-- A pickup or barge block of the soft switch makes no call from outside the
soft switch and fails no `assert`, the request being a call of the soft
switch. -/
theorem softswitch_feature_inside (c : sccp_channel_t) (d : sccp_device_t)
    (lineInstance : Nat) (shortenedNumber : String) (request : Event) (result : Int)
    (hr : request.isOutsideSoftswitch = false) :
    ∀ e ∈ (sccp_pbx_softswitch_feature c d lineInstance shortenedNumber request result).trace,
      e.isOutsideSoftswitch = false := by
  intro e he
  unfold sccp_pbx_softswitch_feature at he
  simp only [List.mem_append] at he
  rcases he with (he | he) | he
  · exact softswitch_proceed_inside c d lineInstance e he
  · split_ifs at he <;>
      simp only [List.mem_append, List.mem_singleton, List.not_mem_nil, or_false] at he
    · rcases he with rfl | rfl
      · exact hr
      · rfl
    · subst he; exact hr
    · subst he; rfl
  · simp only [List.mem_singleton] at he; subst he; rfl
/-- With a dialed number that fits the buffer of `shortenedNumber`, the soft
switch makes no call from outside the soft switch and fails no `assert`. -/
theorem softswitch_inside (env : Env) (glob : sccp_global_vars) (c : sccp_channel_t)
    (hlen : c.dialedNumber.length ≤ 255) :
    ∀ e ∈ (sccp_pbx_softswitch env glob (some c)).trace, e.isOutsideSoftswitch = false := by
  have hcopy : (sccp_copy_string c.dialedNumber 256).length = c.dialedNumber.length := by
    rw [sccp_copy_string_of_le c.dialedNumber hlen]
  have hdial : ∀ (c : sccp_channel_t) (d : sccp_device_t) (l : sccp_line_t) (i : Nat)
      (n : String),
      (∀ e ∈ (sccp_pbx_softswitch_dial env glob c d l i n).trace,
        e.isOutsideSoftswitch = false) = True :=
    fun c d l i n => eq_true (softswitch_dial_inside env glob c d l i n)
  have hsend : ∀ (c : sccp_channel_t) (digits : String),
      (∀ e ∈ sccp_pbx_senddigits env c digits, e.isOutsideSoftswitch = false) = True := by
    intro c digits
    apply eq_true
    unfold sccp_pbx_senddigits
    split_ifs <;> simp [Event.isOutsideSoftswitch]
  have hpick : ∀ (c : sccp_channel_t) (d : sccp_device_t) (i : Nat) (n : String) (cid : Nat)
      (r : Int),
      (∀ e ∈ (sccp_pbx_softswitch_feature c d i n
        (Event.driver (DriverCall.feat_directpickup cid n)) r).trace,
        e.isOutsideSoftswitch = false) = True :=
    fun c d i n cid r => eq_true (softswitch_feature_inside c d i n _ r rfl)
  have hbarge : ∀ (c : sccp_channel_t) (d : sccp_device_t) (i : Nat) (n : String) (cid : Nat)
      (r : Int),
      (∀ e ∈ (sccp_pbx_softswitch_feature c d i n
        (Event.driver (DriverCall.feat_barge cid n)) r).trace,
        e.isOutsideSoftswitch = false) = True :=
    fun c d i n cid r => eq_true (softswitch_feature_inside c d i n _ r rfl)
  have hcbarge : ∀ (c : sccp_channel_t) (d : sccp_device_t) (i : Nat) (n : String) (cid : Nat)
      (r : Int),
      (∀ e ∈ (sccp_pbx_softswitch_feature c d i n
        (Event.driver (DriverCall.feat_cbarge cid n)) r).trace,
        e.isOutsideSoftswitch = false) = True :=
    fun c d i n cid r => eq_true (softswitch_feature_inside c d i n _ r rfl)
  unfold sccp_pbx_softswitch
  simp only [sccp_pbx_softswitch_enbloc, hcopy, ne_eq, not_true_eq_false, if_false]
  repeat' split
  all_goals
    simp only [List.mem_append, or_imp, forall_and, List.mem_cons, List.mem_singleton,
      List.not_mem_nil, false_imp_iff, implies_true, forall_eq, and_true, true_and,
      hdial, hsend, hpick, hbarge, hcbarge]
  all_goals (try simp [Event.isOutsideSoftswitch])

/-- C24: the callback of the digit timer, `sccp_pbx_sched_dial`, calls
`sccp_pbx_softswitch` on the channel, with the digits collected so far, once
if the channel can be retained, has a backend owner and runs no PBX yet, and
not at all otherwise; in the first case its calls are the retain of the
channel, the soft switch with all its calls, and the release; in the second
it only retains and releases the channel, or does nothing for a channel that
cannot be retained, and leaves the channel as it is.  In every case it
returns 0.  (The dialed number fits the 256-byte buffer of the soft switch,
as that function asserts.) -/
theorem sccp_pbx_sched_dial_fires (env : Env) (glob : sccp_global_vars)
    (data : Option sccp_channel_t)
    (hlen : ∀ c, data = some c → c.dialedNumber.length ≤ 255) :
    (sccp_pbx_sched_dial env glob data).ret = some 0 ∧
    (((sccp_pbx_sched_dial env glob data).trace.filter Event.isSoftswitchCall).length = 1 ↔
      ∃ c, sccp_channel_retain data = some c ∧ c.owner.isSome = true ∧
        env.getChannelPbx c = false) ∧
    (∀ c, sccp_channel_retain data = some c → c.owner.isSome = true →
      env.getChannelPbx c = false →
      (sccp_pbx_sched_dial env glob data).trace =
        [Event.retain (Handle.channel c.callid),
         Event.pbx (PbxCall.pbx_softswitch c.callid)] ++
        (sccp_pbx_softswitch env glob (some c)).trace ++
        [Event.release (Handle.channel c.callid)] ∧
      (sccp_pbx_sched_dial env glob data).trace.filter Event.isSoftswitchCall =
        [Event.pbx (PbxCall.pbx_softswitch c.callid)] ∧
      (sccp_pbx_sched_dial env glob data).c = (sccp_pbx_softswitch env glob (some c)).c) ∧
    ((¬ ∃ c, sccp_channel_retain data = some c ∧ c.owner.isSome = true ∧
        env.getChannelPbx c = false) →
      (sccp_pbx_sched_dial env glob data).trace.filter Event.isSoftswitchCall = [] ∧
      (∀ e ∈ (sccp_pbx_sched_dial env glob data).trace,
        ∃ c, data = some c ∧ (e = Event.retain (Handle.channel c.callid) ∨
          e = Event.release (Handle.channel c.callid))) ∧
      (sccp_pbx_sched_dial env glob data).c = data) := by
  have hfire : ∀ c, sccp_channel_retain data = some c → c.owner.isSome = true →
      env.getChannelPbx c = false →
      (sccp_pbx_sched_dial env glob data).ret = some 0 ∧
      (sccp_pbx_sched_dial env glob data).trace =
        [Event.retain (Handle.channel c.callid),
         Event.pbx (PbxCall.pbx_softswitch c.callid)] ++
        (sccp_pbx_softswitch env glob (some c)).trace ++
        [Event.release (Handle.channel c.callid)] ∧
      (sccp_pbx_sched_dial env glob data).trace.filter Event.isSoftswitchCall =
        [Event.pbx (PbxCall.pbx_softswitch c.callid)] ∧
      (sccp_pbx_sched_dial env glob data).c = (sccp_pbx_softswitch env glob (some c)).c := by
    intro c hc ho hp
    have hdata : data = some c := by
      unfold sccp_channel_retain at hc
      cases data with
      | none => simp at hc
      | some x =>
        simp only at hc
        split_ifs at hc
        simp only [Option.some.injEq] at hc
        rw [hc]
    have hin := softswitch_inside env glob c (hlen c hdata)
    have hna : Event.driver DriverCall.assert_failed ∉
        (sccp_pbx_softswitch env glob (some c)).trace := by
      intro hmem
      have := hin _ hmem
      simp [Event.isOutsideSoftswitch] at this
    have hnf : (sccp_pbx_softswitch env glob (some c)).trace.filter Event.isSoftswitchCall
        = [] := by
      rw [List.filter_eq_nil_iff]
      intro e he
      have := hin e he
      cases e <;> simp_all [Event.isOutsideSoftswitch, Event.isSoftswitchCall]
    have htr : (sccp_pbx_sched_dial env glob data).trace =
        [Event.retain (Handle.channel c.callid),
         Event.pbx (PbxCall.pbx_softswitch c.callid)] ++
        (sccp_pbx_softswitch env glob (some c)).trace ++
        [Event.release (Handle.channel c.callid)] := by
      unfold sccp_pbx_sched_dial
      simp only [hc, ho, hp, and_self, if_true, hna, if_false]
    refine ⟨?_, htr, ?_, ?_⟩
    · unfold sccp_pbx_sched_dial
      simp only [hc, ho, hp, and_self, if_true, hna, if_false]
    · rw [htr]
      simp only [List.filter_append, hnf]
      simp [List.filter, Event.isSoftswitchCall]
    · unfold sccp_pbx_sched_dial
      simp only [hc, ho, hp, and_self, if_true, hna, if_false]
  have hidle : (¬ ∃ c, sccp_channel_retain data = some c ∧ c.owner.isSome = true ∧
        env.getChannelPbx c = false) →
      (sccp_pbx_sched_dial env glob data).ret = some 0 ∧
      (sccp_pbx_sched_dial env glob data).trace.filter Event.isSoftswitchCall = [] ∧
      (∀ e ∈ (sccp_pbx_sched_dial env glob data).trace,
        ∃ c, data = some c ∧ (e = Event.retain (Handle.channel c.callid) ∨
          e = Event.release (Handle.channel c.callid))) ∧
      (sccp_pbx_sched_dial env glob data).c = data := by
    intro hno
    cases hc : sccp_channel_retain data with
    | none =>
      unfold sccp_pbx_sched_dial
      simp [hc]
    | some c =>
      have hdata : data = some c := by
        unfold sccp_channel_retain at hc
        cases data with
        | none => simp at hc
        | some x =>
          simp only at hc
          split_ifs at hc
          simp only [Option.some.injEq] at hc
          rw [hc]
      have hcond : ¬ (c.owner.isSome = true ∧ env.getChannelPbx c = false) :=
        fun h => hno ⟨c, hc, h.1, h.2⟩
      unfold sccp_pbx_sched_dial
      simp only [hc, hcond, if_false]
      refine ⟨trivial, by simp [List.filter, Event.isSoftswitchCall], ?_, hdata.symm⟩
      intro e he
      refine ⟨c, hdata, ?_⟩
      simpa using he
  by_cases hex : ∃ c, sccp_channel_retain data = some c ∧ c.owner.isSome = true ∧
      env.getChannelPbx c = false
  · obtain ⟨c, hc, ho, hp⟩ := hex
    have h := hfire c hc ho hp
    refine ⟨h.1, ⟨fun _ => ⟨c, hc, ho, hp⟩, fun _ => by rw [h.2.2.1]; rfl⟩, ?_, ?_⟩
    · intro c2 hc2 ho2 hp2
      exact (hfire c2 hc2 ho2 hp2).2
    · intro hno
      exact absurd ⟨c, hc, ho, hp⟩ hno
  · have h := hidle hex
    refine ⟨h.1, ⟨fun hone => ?_, fun hyes => absurd hyes hex⟩, ?_, fun _ => h.2⟩
    · rw [h.2.1] at hone
      simp at hone
    · intro c hc ho hp
      exact absurd ⟨c, hc, ho, hp⟩ hex

/-- C24 at `ex_dialing` (backend owner 40, no PBX running in `ex_env_dial`):
the callback returns 0 and calls the soft switch once. -/
theorem sccp_pbx_sched_dial_fires_witness :
    (sccp_pbx_sched_dial ex_env_dial {} (some ex_dialing)).ret = some 0 ∧
    (sccp_pbx_sched_dial ex_env_dial {} (some ex_dialing)).trace.filter
      Event.isSoftswitchCall = [Event.pbx (PbxCall.pbx_softswitch 8)] :=
  ⟨(sccp_pbx_sched_dial_fires ex_env_dial {} (some ex_dialing)
      (by intro c hc; cases hc; decide)).1,
   ((sccp_pbx_sched_dial_fires ex_env_dial {} (some ex_dialing)
      (by intro c hc; cases hc; decide)).2.2.1 ex_dialing (by decide) (by decide)
      (by decide)).2.1⟩

/-! ## The two branches of the soft switch (claim C26) -/

/-- C26, as stated, fails: for the channel `ex_dialing_noowner` (no backend
owner, no PBX running, digit timer 2 armed) the branch compiled without
`DDGNEW` cancels the digit timer, retains the owning device and goes on to
indicate Dialing, and leaves the channel with the timer cleared, while the
`DDGNEW` branch returns at once: it makes no call and the channel keeps its
timer. -/
theorem sccp_pbx_softswitch_branches_differ :
    ex_dialing_noowner.owner = none ∧
    ex_env_dial.getChannelPbx (sccp_pbx_softswitch_enbloc {} ex_dialing_noowner) = false ∧
    (sccp_pbx_softswitch_DDGNEW ex_env_dial {} (some ex_dialing_noowner)).trace = [] ∧
    (sccp_pbx_softswitch ex_env_dial {} (some ex_dialing_noowner)).trace.filter
      Event.isTimerCancel = [Event.backend (BackendCall.sched_del (some 2))] ∧
    Event.indicate ex_C.device 8 sccp_channelstate_t.DIALING ∈
      (sccp_pbx_softswitch ex_env_dial {} (some ex_dialing_noowner)).trace ∧
    (sccp_pbx_softswitch_DDGNEW ex_env_dial {} (some ex_dialing_noowner)).c.map
      (fun c => c.scheduler_digittimeout) = some (some 2) ∧
    (sccp_pbx_softswitch ex_env_dial {} (some ex_dialing_noowner)).c.map
      (fun c => c.scheduler_digittimeout) = some none := by
  decide

/-- C26, amended: the two branches of `sccp_pbx_softswitch` make the same
calls in the same order and leave the same channel and device for a null
channel, for every channel on which a PBX already runs, and for every
channel that has a backend owner, whatever the backend answers.  For a
channel without a backend owner on which no PBX runs, the `DDGNEW` branch
returns after the reset of the enbloc emulation, with no call made, while
the other branch goes on and cancels the digit timer first. -/
theorem sccp_pbx_softswitch_branches (env : Env) (glob : sccp_global_vars)
    (c0 : Option sccp_channel_t) :
    ((∀ c, c0 = some c →
        c.owner.isSome = true ∨
        env.getChannelPbx (sccp_pbx_softswitch_enbloc glob c) = true) →
      sccp_pbx_softswitch_DDGNEW env glob c0 = sccp_pbx_softswitch env glob c0) ∧
    (∀ c, c0 = some c → c.owner = none →
      env.getChannelPbx (sccp_pbx_softswitch_enbloc glob c) = false →
      sccp_pbx_softswitch_DDGNEW env glob c0 =
        { c := some (sccp_pbx_softswitch_enbloc glob c), trace := [] } ∧
      ∃ rest, (sccp_pbx_softswitch env glob c0).trace =
        Event.backend (BackendCall.sched_del c.scheduler_digittimeout) :: rest) := by
  constructor
  · intro h
    cases c0 with
    | none => rfl
    | some c =>
      rcases h c rfl with ho | hp
      · have ho2 : (sccp_pbx_softswitch_enbloc glob c).owner.isNone = false := by
          have : (sccp_pbx_softswitch_enbloc glob c).owner = c.owner := rfl
          rw [this]
          cases hc : c.owner <;> simp_all
        unfold sccp_pbx_softswitch_DDGNEW sccp_pbx_softswitch
        simp only [ho2, Bool.false_eq_true, if_false]
      · unfold sccp_pbx_softswitch_DDGNEW sccp_pbx_softswitch
        simp only [hp, if_true]
  · intro c hc ho hp
    subst hc
    have ho2 : (sccp_pbx_softswitch_enbloc glob c).owner.isNone = true := by
      have : (sccp_pbx_softswitch_enbloc glob c).owner = c.owner := rfl
      rw [this, ho]
      rfl
    constructor
    · unfold sccp_pbx_softswitch_DDGNEW
      simp only [hp, Bool.false_eq_true, if_false, ho2, if_true]
    · have hsd : (sccp_pbx_softswitch_enbloc glob c).scheduler_digittimeout =
          c.scheduler_digittimeout := rfl
      unfold sccp_pbx_softswitch
      simp only [hp, Bool.false_eq_true, if_false, hsd]
      repeat' split
      all_goals simp only [List.singleton_append, List.cons_append, List.nil_append,
        List.append_assoc]
      all_goals exact ⟨_, rfl⟩

/-- The amended C26 at `ex_dialing`, which has the backend owner 40: both
branches give the same result. -/
theorem sccp_pbx_softswitch_branches_witness :
    sccp_pbx_softswitch_DDGNEW ex_env_dial {} (some ex_dialing) =
      sccp_pbx_softswitch ex_env_dial {} (some ex_dialing) :=
  (sccp_pbx_softswitch_branches ex_env_dial {} (some ex_dialing)).1
    (by intro c hc; cases hc; exact Or.inl (by decide))

/-! ## Calls made under a list lock (claim C22) -/

/-- The values that `sccp_pbx_channel_allocate` returns, as an unsigned
8-bit value: 1 only if the backend channel was allocated, and then the
global use count is one more than before; when the backend channel was
allocated the use count is one more than before, and the function returns 1
provided the owning device, if any, has a session, which the export of the
device address reads; 0 with the use count unchanged when the allocation
fails or the line cannot be retained; and for a null channel 255, which is
-1 reduced modulo 2^8, differs from 0 and from 1, with the use count
unchanged. -/
theorem sccp_pbx_channel_allocate_returns (env : Env) (glob : sccp_global_vars)
    (c0 : Option sccp_channel_t) :
    ((sccp_pbx_channel_allocate env glob c0).ret = some 1 →
      (allocatedChannel env c0).isSome = true ∧
      (sccp_pbx_channel_allocate env glob c0).usecnt = glob.usecnt + 1) ∧
    ((allocatedChannel env c0).isSome = true →
      (sccp_pbx_channel_allocate env glob c0).usecnt = glob.usecnt + 1 ∧
      ((∀ c d, c0 = some c → sccp_channel_getDevice_retained c = some d →
          d.session.isSome = true) →
        (sccp_pbx_channel_allocate env glob c0).ret = some 1)) ∧
    (c0 ≠ none → allocatedChannel env c0 = none →
      (sccp_pbx_channel_allocate env glob c0).ret = some 0 ∧
      (sccp_pbx_channel_allocate env glob c0).usecnt = glob.usecnt) ∧
    (c0 = none →
      (sccp_pbx_channel_allocate env glob c0).ret = some 255 ∧
      (sccp_pbx_channel_allocate env glob c0).usecnt = glob.usecnt) ∧
    ((-1 : Int) % 2 ^ 8 = 255 ∧ (255 : Int) ≠ 0 ∧ (255 : Int) ≠ 1) := by
  refine ⟨?_, ?_, ?_, ?_, by decide⟩
  · intro hret
    cases c0 with
    | none =>
      simp [sccp_pbx_channel_allocate] at hret
    | some c =>
      cases hl : sccp_line_retain c.line with
      | none => simp [sccp_pbx_channel_allocate, hl] at hret
      | some l =>
        cases ha : env.alloc_pbxChannel
            (sccp_pbx_channel_allocate_shape c l (sccp_channel_getDevice_retained c)) with
        | none =>
          cases hd : sccp_channel_getDevice_retained c <;> rw [hd] at ha <;>
            simp [sccp_pbx_channel_allocate, hl, hd, ha] at hret
        | some tmp =>
          cases hd : sccp_channel_getDevice_retained c with
          | none =>
            rw [hd] at ha
            simp [sccp_pbx_channel_allocate, allocatedChannel, hl, hd, ha]
          | some dev =>
            rw [hd] at ha
            cases hs : dev.session <;>
              simp [sccp_pbx_channel_allocate, allocatedChannel, hl, hd, ha, hs] at hret ⊢
  · intro halloc
    cases c0 with
    | none => simp [allocatedChannel] at halloc
    | some c =>
      cases hl : sccp_line_retain c.line with
      | none => simp [allocatedChannel, hl] at halloc
      | some l =>
        cases ha : env.alloc_pbxChannel
            (sccp_pbx_channel_allocate_shape c l (sccp_channel_getDevice_retained c)) with
        | none => simp [allocatedChannel, hl, ha] at halloc
        | some tmp =>
          cases hd : sccp_channel_getDevice_retained c with
          | none =>
            rw [hd] at ha
            simp [sccp_pbx_channel_allocate, hl, hd, ha]
          | some dev =>
            rw [hd] at ha
            cases hs : dev.session with
            | none =>
              refine ⟨by simp [sccp_pbx_channel_allocate, hl, hd, ha, hs], ?_⟩
              intro hsess
              have := hsess c dev rfl hd
              rw [hs] at this
              exact absurd this (by simp)
            | some session =>
              simp [sccp_pbx_channel_allocate, hl, hd, ha, hs]
  · intro hne hnone
    cases c0 with
    | none => exact absurd rfl hne
    | some c =>
      cases hl : sccp_line_retain c.line with
      | none => simp [sccp_pbx_channel_allocate, hl]
      | some l =>
        cases ha : env.alloc_pbxChannel
            (sccp_pbx_channel_allocate_shape c l (sccp_channel_getDevice_retained c)) with
        | none =>
          cases hd : sccp_channel_getDevice_retained c <;> rw [hd] at ha <;>
            simp [sccp_pbx_channel_allocate, hl, hd, ha]
        | some tmp => simp [allocatedChannel, hl, ha] at hnone
  · intro hnone
    subst hnone
    simp only [sccp_pbx_channel_allocate]
    exact ⟨by decide, trivial⟩

/-- The returned values at concrete inputs: the allocation for `ex_dialing`,
whose owning device has a session, with a backend that allocates returns 1
and increments the use count from 3 to 4; with a backend that does not
allocate it returns 0 and leaves the count at 3; for the null channel it
returns 255. -/
theorem sccp_pbx_channel_allocate_returns_at :
    (sccp_pbx_channel_allocate ex_env_alloc { usecnt := 3 } (some ex_dialing)).ret = some 1 ∧
    (sccp_pbx_channel_allocate ex_env_alloc { usecnt := 3 } (some ex_dialing)).usecnt = 4 ∧
    (sccp_pbx_channel_allocate ex_env { usecnt := 3 } (some ex_dialing)).ret = some 0 ∧
    (sccp_pbx_channel_allocate ex_env { usecnt := 3 } (some ex_dialing)).usecnt = 3 ∧
    (sccp_pbx_channel_allocate ex_env { usecnt := 3 } none).ret = some 255 :=
  ⟨((sccp_pbx_channel_allocate_returns ex_env_alloc { usecnt := 3 } (some ex_dialing)).2.1
      (by decide)).2 (by intro c d hc hd; cases hc; cases hd; decide),
   ((sccp_pbx_channel_allocate_returns ex_env_alloc { usecnt := 3 } (some ex_dialing)).2.1
      (by decide)).1,
   ((sccp_pbx_channel_allocate_returns ex_env { usecnt := 3 } (some ex_dialing)).2.2.1
      (by simp) (by decide)).1,
   ((sccp_pbx_channel_allocate_returns ex_env { usecnt := 3 } (some ex_dialing)).2.2.1
      (by simp) (by decide)).2,
   ((sccp_pbx_channel_allocate_returns ex_env { usecnt := 3 } none).2.2.2.1 rfl).1⟩

/-- On a channel whose line and owning device can be retained, the device
having no session, an allocation that succeeds increments the use count and
exports the device id, and the function then reads the address through the
null session (source line 738): it returns nothing and releases neither
handle. -/
theorem sccp_pbx_channel_allocate_no_session (env : Env) (glob : sccp_global_vars)
    (c : sccp_channel_t) (dev : sccp_device_t)
    (hd : sccp_channel_getDevice_retained c = some dev) (hs : dev.session = none)
    (ha : (allocatedChannel env (some c)).isSome = true) :
    (sccp_pbx_channel_allocate env glob (some c)).ret = none ∧
    (sccp_pbx_channel_allocate env glob (some c)).usecnt = glob.usecnt + 1 ∧
    (sccp_pbx_channel_allocate env glob (some c)).trace.getLast? =
      some Event.null_dereference ∧
    (∀ h, Event.release h ∉ (sccp_pbx_channel_allocate env glob (some c)).trace) := by
  cases hl : sccp_line_retain c.line with
  | none => simp [allocatedChannel, hl] at ha
  | some l =>
    cases hal : env.alloc_pbxChannel
        (sccp_pbx_channel_allocate_shape c l (sccp_channel_getDevice_retained c)) with
    | none => simp [allocatedChannel, hl, hal] at ha
    | some tmp =>
      rw [hd] at hal
      refine ⟨by simp [sccp_pbx_channel_allocate, hl, hd, hal, hs],
        by simp [sccp_pbx_channel_allocate, hl, hd, hal, hs], ?_, ?_⟩
      · simp only [sccp_pbx_channel_allocate, hl, hd, hal, hs]
        rw [List.getLast?_append]
        rfl
      · intro h
        simp only [sccp_pbx_channel_allocate, hl, hd, hal, hs,
          sccp_pbx_channel_allocate_setup]
        split_ifs <;> simp

/-- C30 at the channel `ex_dialing_nosession`, whose owning device `SEP-N`
is retained and has no session, with a backend that allocates channel 50
and the use count 3: the backend channel is allocated and the use count
becomes 4, the claim then says that the function returns 1, and the code,
after exporting the device id, reads the device address through the null
session (source line 738) and returns no value; the line and the device
retained at the start are not released. -/
theorem sccp_pbx_channel_allocate_null_session :
    sccp_channel_getDevice_retained ex_dialing_nosession = some ex_N.device ∧
    ex_N.device.session = none ∧
    allocatedChannel ex_env_alloc (some ex_dialing_nosession) = some 50 ∧
    (sccp_pbx_channel_allocate ex_env_alloc { usecnt := 3 }
      (some ex_dialing_nosession)).usecnt = 4 ∧
    (sccp_pbx_channel_allocate ex_env_alloc { usecnt := 3 }
      (some ex_dialing_nosession)).ret = none ∧
    (sccp_pbx_channel_allocate ex_env_alloc { usecnt := 3 }
      (some ex_dialing_nosession)).ret ≠ some 1 ∧
    (sccp_pbx_channel_allocate ex_env_alloc { usecnt := 3 }
      (some ex_dialing_nosession)).trace =
      [Event.retain (Handle.line "100"),
       Event.retain (Handle.device "SEP-N"),
       Event.list_lock_devices "100",
       Event.list_unlock_devices "100",
       Event.pbx (PbxCall.alloc_pbxChannel 8),
       Event.driver (DriverCall.channel_updateChannelCapability 8),
       Event.pbx (PbxCall.set_nativeAudioFormats 8),
       Event.pbx (PbxCall.setChannelName 8 "100"),
       Event.pbx (PbxCall.pbx_jb_configure 50),
       Event.backend BackendCall.mutex_lock_usecnt,
       Event.backend BackendCall.mutex_unlock_usecnt,
       Event.backend BackendCall.pbx_update_use_count,
       Event.pbx (PbxCall.set_callerid_number 8 ""),
       Event.pbx (PbxCall.set_callerid_name 8 ""),
       Event.backend (BackendCall.pbx_builtin_setvar_helper (some 50)
         "SCCP_DEVICE_MAC" "SEP-N"),
       Event.null_dereference] := by
  decide

/-! ## Balance of retain and release (claim C21) -/

/-- A list of calls without retain or release counts none. -/
theorem count_of_noHandleOp (L : List Event) (hL : ∀ e ∈ L, e.isHandleOp = false)
    (h : Handle) :
    L.count (Event.retain h) = 0 ∧ L.count (Event.release h) = 0 := by
  constructor <;>
  · rw [List.count_eq_zero]
    intro hmem
    have := hL _ hmem
    simp [Event.isHandleOp] at this

/-- The export, proceed and dial-start blocks of the soft switch and
`sccp_pbx_senddigits` retain and release nothing. -/
theorem softswitch_blocks_noHandleOp (env : Env) (glob : sccp_global_vars)
    (c : sccp_channel_t) (d : sccp_device_t) (l : sccp_line_t) (i : Nat) (n : String) :
    (∀ e ∈ sccp_pbx_softswitch_export env c d l, e.isHandleOp = false) ∧
    (∀ e ∈ sccp_pbx_softswitch_proceed c d i, e.isHandleOp = false) ∧
    (∀ e ∈ sccp_pbx_softswitch_start env glob c d l n, e.isHandleOp = false) ∧
    (∀ e ∈ sccp_pbx_senddigits env c n, e.isHandleOp = false) := by
  refine ⟨?_, ?_, ?_, ?_⟩
  · unfold sccp_pbx_softswitch_export
    split_ifs <;> simp [Event.isHandleOp]
    all_goals (intro e h; rcases h with ⟨a, b, _, rfl⟩ | ⟨a, b, _, rfl⟩ <;> rfl)
  · unfold sccp_pbx_softswitch_proceed
    simp [Event.isHandleOp]
  · unfold sccp_pbx_softswitch_start
    cases env.pbx_pbx_start c.owner <;> simp only [] <;> split_ifs <;>
      simp [Event.isHandleOp]
  · unfold sccp_pbx_senddigits
    split_ifs <;> simp [Event.isHandleOp]

/-- The dial block of the soft switch retains nothing and releases the
device once. -/
theorem softswitch_dial_count (env : Env) (glob : sccp_global_vars) (c : sccp_channel_t)
    (d : sccp_device_t) (l : sccp_line_t) (i : Nat) (n : String) (h : Handle) :
    (sccp_pbx_softswitch_dial env glob c d l i n).trace.count (Event.retain h) = 0 ∧
    (sccp_pbx_softswitch_dial env glob c d l i n).trace.count (Event.release h) =
      [Event.release (Handle.device d.id)].count (Event.release h) := by
  have hb := softswitch_blocks_noHandleOp env glob c d l i n
  have h1 := count_of_noHandleOp _ hb.1 h
  have h2 := count_of_noHandleOp _ hb.2.1 h
  have h3 := count_of_noHandleOp _ hb.2.2.1 h
  unfold sccp_pbx_softswitch_dial
  simp only [List.count_append, h1.1, h1.2, h2.1, h2.2, h3.1, h3.2]
  constructor
  · simp [List.count_cons]
  · simp [List.count_cons]

/-- A pickup or barge block of the soft switch retains nothing and releases
the device once, the request being no retain or release. -/
theorem softswitch_feature_count (c : sccp_channel_t) (d : sccp_device_t) (i : Nat)
    (n : String) (request : Event) (result : Int) (hr : request.isHandleOp = false)
    (h : Handle) :
    (sccp_pbx_softswitch_feature c d i n request result).trace.count (Event.retain h) = 0 ∧
    (sccp_pbx_softswitch_feature c d i n request result).trace.count (Event.release h) =
      [Event.release (Handle.device d.id)].count (Event.release h) := by
  have h2 := count_of_noHandleOp _
    (softswitch_blocks_noHandleOp ex_env {} c d {} i n).2.1 h
  unfold sccp_pbx_softswitch_feature
  simp only [List.count_append, h2.1, h2.2]
  have hne1 : ¬ request = Event.retain h := by
    intro he
    rw [he] at hr
    simp [Event.isHandleOp] at hr
  have hne2 : ¬ request = Event.release h := by
    intro he
    rw [he] at hr
    simp [Event.isHandleOp] at hr
  split_ifs <;> simp [List.count_append, List.count_cons, hne1, hne2]

/-- The soft switch, with a dialed number that fits the buffer of
`shortenedNumber`, releases every handle as often as it retains it. -/
theorem softswitch_balanced (env : Env) (glob : sccp_global_vars) (c : sccp_channel_t)
    (hlen : c.dialedNumber.length ≤ 255) :
    balanced (sccp_pbx_softswitch env glob (some c)).trace := by
  intro h _
  have hcopy : (sccp_copy_string c.dialedNumber 256).length = c.dialedNumber.length := by
    rw [sccp_copy_string_of_le c.dialedNumber hlen]
  have hd1 := fun c d l i n => (softswitch_dial_count env glob c d l i n h).1
  have hd2 := fun c d l i n => (softswitch_dial_count env glob c d l i n h).2
  have hp1 : ∀ (c : sccp_channel_t) (d : sccp_device_t) (i : Nat) (n : String) (cid : Nat)
      (r : Int), (sccp_pbx_softswitch_feature c d i n
        (Event.driver (DriverCall.feat_directpickup cid n)) r).trace.count (Event.retain h) = 0 :=
    fun c d i n cid r => (softswitch_feature_count c d i n _ r (by rfl) h).1
  have hp2 : ∀ (c : sccp_channel_t) (d : sccp_device_t) (i : Nat) (n : String) (cid : Nat)
      (r : Int), (sccp_pbx_softswitch_feature c d i n
        (Event.driver (DriverCall.feat_directpickup cid n)) r).trace.count (Event.release h) =
        [Event.release (Handle.device d.id)].count (Event.release h) :=
    fun c d i n cid r => (softswitch_feature_count c d i n _ r (by rfl) h).2
  have hb1 : ∀ (c : sccp_channel_t) (d : sccp_device_t) (i : Nat) (n : String) (cid : Nat)
      (r : Int), (sccp_pbx_softswitch_feature c d i n
        (Event.driver (DriverCall.feat_barge cid n)) r).trace.count (Event.retain h) = 0 :=
    fun c d i n cid r => (softswitch_feature_count c d i n _ r (by rfl) h).1
  have hb2 : ∀ (c : sccp_channel_t) (d : sccp_device_t) (i : Nat) (n : String) (cid : Nat)
      (r : Int), (sccp_pbx_softswitch_feature c d i n
        (Event.driver (DriverCall.feat_barge cid n)) r).trace.count (Event.release h) =
        [Event.release (Handle.device d.id)].count (Event.release h) :=
    fun c d i n cid r => (softswitch_feature_count c d i n _ r (by rfl) h).2
  have hc1 : ∀ (c : sccp_channel_t) (d : sccp_device_t) (i : Nat) (n : String) (cid : Nat)
      (r : Int), (sccp_pbx_softswitch_feature c d i n
        (Event.driver (DriverCall.feat_cbarge cid n)) r).trace.count (Event.retain h) = 0 :=
    fun c d i n cid r => (softswitch_feature_count c d i n _ r (by rfl) h).1
  have hc2 : ∀ (c : sccp_channel_t) (d : sccp_device_t) (i : Nat) (n : String) (cid : Nat)
      (r : Int), (sccp_pbx_softswitch_feature c d i n
        (Event.driver (DriverCall.feat_cbarge cid n)) r).trace.count (Event.release h) =
        [Event.release (Handle.device d.id)].count (Event.release h) :=
    fun c d i n cid r => (softswitch_feature_count c d i n _ r (by rfl) h).2
  have hs1 : ∀ (c : sccp_channel_t) (n : String),
      (sccp_pbx_senddigits env c n).count (Event.retain h) = 0 :=
    fun c n => (count_of_noHandleOp _
      (softswitch_blocks_noHandleOp env glob c {} {} 0 n).2.2.2 h).1
  have hs2 : ∀ (c : sccp_channel_t) (n : String),
      (sccp_pbx_senddigits env c n).count (Event.release h) = 0 :=
    fun c n => (count_of_noHandleOp _
      (softswitch_blocks_noHandleOp env glob c {} {} 0 n).2.2.2 h).2
  unfold sccp_pbx_softswitch
  simp only [sccp_pbx_softswitch_enbloc, hcopy, ne_eq, not_true_eq_false, if_false]
  repeat' split
  all_goals
    simp only [List.count_append, hd1, hd2, hp1, hp2, hb1, hb2, hc1, hc2, hs1, hs2]
  all_goals simp [List.count_cons]

/-- The calls of the traversal body for one binding release every line,
device or channel handle as often as they retain it. -/
theorem bindingEvents_balanced (env : Env) (c : sccp_channel_t) (ld : sccp_linedevices_t) :
    balanced (bindingEvents env c ld) := by
  intro h hE
  have hne : ∀ x, ¬ Handle.linedevice x = h := by
    intro x hx
    rw [← hx] at hE
    simp [Handle.isEntity] at hE
  unfold bindingEvents sccp_pbx_call_binding
  split_ifs <;> try simp [List.count_cons, hne]
  all_goals (split <;> try simp [List.count_cons, hne])

/-- The second traversal releases every line, device or channel handle as
often as it retains it. -/
theorem fanout_balanced (env : Env) (c : sccp_channel_t) (devices : List sccp_linedevices_t) :
    balanced (sccp_pbx_call_fanout env c devices).trace := by
  intro h hE
  rw [fanout_trace]
  induction devices with
  | nil => rfl
  | cons ld rest ih =>
    simp only [List.flatMap_cons, List.count_append, ih, bindingEvents_balanced env c ld h hE]

/-- `sccp_pbx_call` releases every line, device or channel handle as often as
it retains it, on every path. -/
theorem sccp_pbx_call_balanced (env : Env) (glob : sccp_global_vars) (c : sccp_channel_t) :
    balanced (sccp_pbx_call env glob c).trace := by
  intro h hE
  cases hl : sccp_line_retain c.line with
  | none => simp [sccp_pbx_call, hl]
  | some l =>
    by_cases hs : ∃ ld ∈ l.devices, ld.device.session.isSome = true
    · by_cases hlim : l.channels.length ≤ l.incominglimit
      · have ho := count_of_noHandleOp
          (sccp_pbx_call_outcome (sccp_pbx_call env glob c).c
            (sccp_pbx_call_fanout env (sccp_pbx_call env glob c).c l.devices))
          (by unfold sccp_pbx_call_outcome; split_ifs <;> simp [Event.isHandleOp]) h
        rw [(sccp_pbx_call_admitted env glob c l hl hs hlim).1]
        simp only [List.count_append, fanout_balanced env _ l.devices h hE, ho.1, ho.2]
        simp [List.count_cons]
        omega
      · have hs2 : sccp_pbx_call_hasSession l.devices = true := (hasSession_iff _).2 hs
        have hlim2 : l.channels.length > l.incominglimit := Nat.lt_of_not_le hlim
        simp [sccp_pbx_call, hl, hs2, hlim2, List.count_cons]
    · have hs2 : sccp_pbx_call_hasSession l.devices = false := by
        cases h : sccp_pbx_call_hasSession l.devices with
        | false => rfl
        | true => exact absurd ((hasSession_iff _).1 h) hs
      simp [sccp_pbx_call, hl, hs2, List.count_cons]

/-- The traversal of the bindings in the hangup releases every device handle
as often as it retains it, and the traversal of the channels retains and
releases nothing. -/
theorem hangup_traversals_balanced (c : sccp_channel_t) (channels : List sccp_line_channel_t)
    (devices : List sccp_linedevices_t) (h : Handle) :
    (sccp_pbx_hangup_devices c devices).count (Event.release h) =
      (sccp_pbx_hangup_devices c devices).count (Event.retain h) ∧
    (sccp_pbx_hangup_children c channels).count (Event.retain h) = 0 ∧
    (sccp_pbx_hangup_children c channels).count (Event.release h) = 0 := by
  refine ⟨?_, ?_⟩
  · rw [hangup_devices_eq]
    induction devices with
    | nil => rfl
    | cons ld rest ih =>
      rw [List.filter_cons]
      split_ifs
      · simp only [List.flatMap_cons, List.count_append, ih]
        simp [List.count_cons]
      · exact ih
  · apply count_of_noHandleOp
    rw [hangup_children_eq]
    intro e he
    rw [List.mem_map] at he
    obtain ⟨x, _, rfl⟩ := he
    rfl

/-- The media block of the hangup retains and releases nothing. -/
theorem hangup_media_noHandleOp (env : Env) (c : sccp_channel_t) (d : Option sccp_device_t) :
    ∀ e ∈ sccp_pbx_hangup_media env c d, e.isHandleOp = false := by
  unfold sccp_pbx_hangup_media
  cases d with
  | none =>
    cases c.conference <;> simp only [] <;> split_ifs <;> simp [Event.isHandleOp]
  | some dev =>
    cases c.conference <;> simp only [] <;> split_ifs <;> simp [Event.isHandleOp]

/-- A hangup that returns releases every line, device or channel handle as
often as it retains it. -/
theorem sccp_pbx_hangup_balanced (env : Env) (glob : sccp_global_vars)
    (c0 : Option sccp_channel_t)
    (hret : (sccp_pbx_hangup env glob c0).ret ≠ none) :
    balanced (sccp_pbx_hangup env glob c0).trace := by
  intro h _
  have hu := count_of_noHandleOp sccp_pbx_hangup_usecnt
    (by unfold sccp_pbx_hangup_usecnt; simp [Event.isHandleOp]) h
  cases hc : sccp_channel_retain c0 with
  | none =>
    simp [sccp_pbx_hangup, hc, sccp_pbx_needcheckringback, hu.1, hu.2]
  | some c =>
    cases hl : sccp_line_retain c.line with
    | none =>
      exfalso
      apply hret
      simp [sccp_pbx_hangup, hc, hl]
    | some l =>
      have hm := count_of_noHandleOp _
        (hangup_media_noHandleOp env { c with owner := none }
          (sccp_channel_getDevice_retained c)) h
      have ht := hangup_traversals_balanced c l.channels l.devices h
      have ht2 := hangup_traversals_balanced
        { c with owner := none, scheduler_digittimeout := none } l.channels l.devices h
      rw [sccp_pbx_hangup_trace env glob c0 c l hc hl]
      simp only [List.count_append, hu.1, hu.2, hm.1, hm.2, ht.2.1, ht.2.2]
      cases hd : sccp_channel_getDevice_retained c with
      | none =>
        simp only [sccp_pbx_hangup_owner, sccp_pbx_hangup_notify, List.count_append, ht2.1]
        simp [List.count_cons]
        omega
      | some dev =>
        unfold sccp_pbx_hangup_owner sccp_pbx_hangup_notify sccp_pbx_needcheckringback
        cases hs : dev.session <;> simp only [hs] <;> split_ifs <;>
          simp [List.count_cons] <;> omega

/-- `sccp_pbx_answer` releases every line, device or channel handle as often
as it retains it, and once more the channel of the parent link, when the
channel has one. -/
theorem sccp_pbx_answer_balanced (env : Env) (channel : Option sccp_channel_t) (h : Handle) :
    (sccp_pbx_answer env channel).trace.count (Event.release h) =
      (sccp_pbx_answer env channel).trace.count (Event.retain h) +
      (match sccp_channel_retain channel with
       | some c =>
         (match c.parentChannel with
          | some parent => [Event.release (Handle.channel parent.callid)].count (Event.release h)
          | none => 0)
       | none => 0) := by
  unfold sccp_pbx_answer
  cases hc : sccp_channel_retain channel with
  | none => simp
  | some c =>
    simp only []
    cases hp : c.parentChannel with
    | some parent =>
      simp only []
      repeat' split
      all_goals simp [List.count_cons, List.count_append]
    | none =>
      simp only []
      cases hd : sccp_channel_getDevice_retained c <;> simp only [] <;> split_ifs <;>
        simp [List.count_cons, List.count_append] <;> omega

/-- `sccp_pbx_helper` releases the device handle as often as it retains
it. -/
theorem sccp_pbx_helper_balanced (env : Env) (glob : sccp_global_vars)
    (v : sccp_extension_status_values) (c : sccp_channel_t) :
    balanced (sccp_pbx_helper env glob v c).trace := by
  intro h _
  unfold sccp_pbx_helper
  split_ifs <;> try simp
  all_goals (split <;> try split_ifs)
  all_goals simp [List.count_cons]

/-- The timer callback, with a dialed number that fits the buffer of the
soft switch, releases every line, device or channel handle as often as it
retains it. -/
theorem sccp_pbx_sched_dial_balanced (env : Env) (glob : sccp_global_vars)
    (data : Option sccp_channel_t)
    (hlen : ∀ c, data = some c → c.dialedNumber.length ≤ 255) :
    balanced (sccp_pbx_sched_dial env glob data).trace := by
  intro h hE
  unfold sccp_pbx_sched_dial
  cases hc : sccp_channel_retain data with
  | none => simp
  | some c =>
    have hdata : data = some c := by
      unfold sccp_channel_retain at hc
      cases data with
      | none => simp at hc
      | some x =>
        simp only at hc
        split_ifs at hc
        simp only [Option.some.injEq] at hc
        rw [hc]
    have hin := softswitch_inside env glob c (hlen c hdata)
    have hna : Event.driver DriverCall.assert_failed ∉
        (sccp_pbx_softswitch env glob (some c)).trace := by
      intro hmem
      have := hin _ hmem
      simp [Event.isOutsideSoftswitch] at this
    have hb := softswitch_balanced env glob c (hlen c hdata) h hE
    simp only []
    split_ifs
    · simp [List.count_append, List.count_cons, hb]
    · simp [List.count_cons]

/-- The auto-answer job that runs to its end releases the binding of its
conveyor once, retains it never, and releases every line, device or channel
handle as often as it retains it. -/
theorem autoanswer_thread_balanced (env : Env) (glob : sccp_global_vars)
    (conveyor : sccp_answer_conveyor_struct) (ld : sccp_linedevices_t)
    (hld : conveyor.linedevice = some ld)
    (hrun : Event.null_dereference ∉
      sccp_pbx_call_autoanswer_thread env glob (some conveyor)) :
    (sccp_pbx_call_autoanswer_thread env glob (some conveyor)).count
      (Event.release (Handle.linedevice ld)) = 1 ∧
    (sccp_pbx_call_autoanswer_thread env glob (some conveyor)).count
      (Event.retain (Handle.linedevice ld)) = 0 ∧
    balanced (sccp_pbx_call_autoanswer_thread env glob (some conveyor)) := by
  have hbal : ∀ h : Handle, h.isEntity = true → ¬ Handle.linedevice ld = h := by
    intro h hE hx
    rw [← hx] at hE
    simp [Handle.isEntity] at hE
  cases hd : sccp_device_retain ld.device with
  | none =>
    refine ⟨?_, ?_, ?_⟩
    · simp [sccp_pbx_call_autoanswer_thread, sccp_pbx_call_autoanswer_FINAL, hld, hd,
        List.count_cons]
    · simp [sccp_pbx_call_autoanswer_thread, sccp_pbx_call_autoanswer_FINAL, hld, hd,
        List.count_cons]
    · intro h hE
      simp [sccp_pbx_call_autoanswer_thread, sccp_pbx_call_autoanswer_FINAL, hld, hd,
        List.count_cons, hbal h hE]
  | some device =>
    cases hf : env.sccp_channel_find_byid conveyor.callid with
    | none =>
      refine ⟨?_, ?_, ?_⟩
      · simp [sccp_pbx_call_autoanswer_thread, sccp_pbx_call_autoanswer_FINAL, hld, hd, hf,
          List.count_cons]
      · simp [sccp_pbx_call_autoanswer_thread, sccp_pbx_call_autoanswer_FINAL, hld, hd, hf,
          List.count_cons]
      · intro h hE
        simp [sccp_pbx_call_autoanswer_thread, sccp_pbx_call_autoanswer_FINAL, hld, hd, hf,
          List.count_cons, hbal h hE]
    | some c =>
      by_cases hst : c.state = sccp_channelstate_t.RINGING
      · by_cases htone : glob.autoanswer_tone ≠ skinny_tone_t.SKINNY_TONE_SILENCE ∧
            glob.autoanswer_tone ≠ skinny_tone_t.SKINNY_TONE_NOTONE
        · cases hline : c.line with
          | none =>
            exfalso
            apply hrun
            simp [sccp_pbx_call_autoanswer_thread, hld, hd, hf, hst, htone, hline]
          | some line =>
            refine ⟨?_, ?_, ?_⟩
            · simp only [sccp_pbx_call_autoanswer_thread, sccp_pbx_call_autoanswer_FINAL, hld,
                hd, hf, hst, htone, hline, ne_eq, not_true_eq_false, if_false, and_self,
                not_false_eq_true, if_true]
              split_ifs <;> simp [List.count_cons, List.count_append]
            · simp only [sccp_pbx_call_autoanswer_thread, sccp_pbx_call_autoanswer_FINAL, hld,
                hd, hf, hst, htone, hline, ne_eq, not_true_eq_false, if_false, and_self,
                not_false_eq_true, if_true]
              split_ifs <;> simp [List.count_cons, List.count_append]
            · intro h hE
              simp only [sccp_pbx_call_autoanswer_thread, sccp_pbx_call_autoanswer_FINAL, hld,
                hd, hf, hst, htone, hline, ne_eq, not_true_eq_false, if_false, and_self,
                not_false_eq_true, if_true]
              split_ifs <;> simp [List.count_cons, List.count_append, hbal h hE] <;> omega
        · refine ⟨?_, ?_, ?_⟩
          · simp only [sccp_pbx_call_autoanswer_thread, sccp_pbx_call_autoanswer_FINAL, hld,
              hd, hf, hst, htone, ne_eq, not_true_eq_false, if_false]
            split_ifs <;> simp [List.count_cons, List.count_append]
          · simp only [sccp_pbx_call_autoanswer_thread, sccp_pbx_call_autoanswer_FINAL, hld,
              hd, hf, hst, htone, ne_eq, not_true_eq_false, if_false]
            split_ifs <;> simp [List.count_cons, List.count_append]
          · intro h hE
            simp only [sccp_pbx_call_autoanswer_thread, sccp_pbx_call_autoanswer_FINAL, hld,
              hd, hf, hst, htone, ne_eq, not_true_eq_false, if_false]
            split_ifs <;> simp [List.count_cons, List.count_append, hbal h hE] <;> omega
      · refine ⟨?_, ?_, ?_⟩
        · simp [sccp_pbx_call_autoanswer_thread, sccp_pbx_call_autoanswer_FINAL, hld, hd, hf,
            hst, List.count_cons]
        · simp [sccp_pbx_call_autoanswer_thread, sccp_pbx_call_autoanswer_FINAL, hld, hd, hf,
            hst, List.count_cons]
        · intro h hE
          simp [sccp_pbx_call_autoanswer_thread, sccp_pbx_call_autoanswer_FINAL, hld, hd, hf,
            hst, List.count_cons, hbal h hE]
          omega

/-- A job that `sccp_pbx_call` hands to the thread pool carries the call id
of the channel and a binding of the line, whose handle the call retains. -/
theorem sccp_pbx_call_job_mem (env : Env) (glob : sccp_global_vars) (c : sccp_channel_t)
    (conveyor : sccp_answer_conveyor_struct)
    (h : Event.threadpool_add_work conveyor ∈ (sccp_pbx_call env glob c).trace) :
    ∃ l, sccp_line_retain c.line = some l ∧
      ∃ ld ∈ l.devices, conveyor = { callid := c.callid, linedevice := some ld } ∧
        Event.retain (Handle.linedevice ld) ∈ (sccp_pbx_call env glob c).trace := by
  cases hl : sccp_line_retain c.line with
  | none => simp [sccp_pbx_call, hl] at h
  | some l =>
    refine ⟨l, rfl, ?_⟩
    by_cases hs : ∃ ld ∈ l.devices, ld.device.session.isSome = true
    · by_cases hlim : l.channels.length ≤ l.incominglimit
      · have ht := (sccp_pbx_call_admitted env glob c l hl hs hlim).1
        have hmemF : Event.threadpool_add_work conveyor ∈
            (sccp_pbx_call_fanout env (sccp_pbx_call env glob c).c l.devices).trace := by
          rw [ht] at h
          simp only [List.mem_append, List.mem_cons, List.mem_singleton, List.not_mem_nil,
            or_false] at h
          rcases h with (((h | h) | h) | h) | h
          · rcases h with h | h | h | h | h | h | h | h <;> exact absurd h (by simp)
          · exact h
          · exact absurd h (by simp)
          · unfold sccp_pbx_call_outcome at h
            split_ifs at h <;> simp at h
          · rcases h with h | h | h <;> exact absurd h (by simp)
        rw [fanout_trace, List.mem_flatMap] at hmemF
        obtain ⟨ld, hldmem, hin⟩ := hmemF
        have hfil : Event.threadpool_add_work conveyor ∈
            (bindingEvents env (sccp_pbx_call env glob c).c ld).filter
              Event.isAutoanswerJob := by
          rw [List.mem_filter]
          exact ⟨hin, rfl⟩
        rw [bindingEvents_jobs] at hfil
        split_ifs at hfil with hcond
        · simp only [List.mem_singleton, Event.threadpool_add_work.injEq] at hfil
          refine ⟨ld, hldmem, ?_, ?_⟩
          · rw [hfil, sccp_pbx_call_callid]
          · have hret : Event.retain (Handle.linedevice ld) ∈
                (sccp_pbx_call_fanout env (sccp_pbx_call env glob c).c l.devices).trace := by
              rw [fanout_trace, List.mem_flatMap]
              refine ⟨ld, hldmem, ?_⟩
              rw [bindingEvents_of_rung env _ ld hcond.1, if_pos hcond.2]
              simp
            rw [ht]
            simp only [List.mem_append]
            exact Or.inl (Or.inl (Or.inl (Or.inr hret)))
        · simp at hfil
      · have hs2 : sccp_pbx_call_hasSession l.devices = true := (hasSession_iff _).2 hs
        have hlim2 : l.channels.length > l.incominglimit := Nat.lt_of_not_le hlim
        simp [sccp_pbx_call, hl, hs2, hlim2] at h
    · have hs2 : sccp_pbx_call_hasSession l.devices = false := by
        cases h : sccp_pbx_call_hasSession l.devices with
        | false => rfl
        | true => exact absurd ((hasSession_iff _).1 h) hs
      simp [sccp_pbx_call, hl, hs2] at h

/-- C21: retain and release are balanced in the entry points.  On every
path on which it returns, each of `sccp_pbx_call`, `sccp_pbx_hangup`,
`sccp_pbx_sched_dial`, `sccp_pbx_helper` and `sccp_pbx_softswitch` releases
every line, device or channel handle exactly as often as it retains it (once
for a handle retained once), the early returns included; `sccp_pbx_answer`
does so too and, for a forwarded leg, releases in addition the channel held
by the parent link, once.  (`sccp_pbx_hangup` returns unless the line cannot
be retained; the soft switch returns when the dialed number fits its
256-byte buffer, as it asserts.)  Every auto-answer job that `sccp_pbx_call`
schedules carries a binding whose handle the call has retained, and the job,
when it fires and runs to its end, releases that handle exactly once,
whichever branch it takes, and is balanced on the device and channel handles
it retains itself. -/
theorem sccp_pbx_retain_release_balanced (env : Env) (glob : sccp_global_vars) :
    (∀ c, balanced (sccp_pbx_call env glob c).trace) ∧
    (∀ c0, (sccp_pbx_hangup env glob c0).ret ≠ none →
      balanced (sccp_pbx_hangup env glob c0).trace) ∧
    (∀ channel, ∀ h : Handle,
      (sccp_pbx_answer env channel).trace.count (Event.release h) =
        (sccp_pbx_answer env channel).trace.count (Event.retain h) +
        (match sccp_channel_retain channel with
         | some c =>
           (match c.parentChannel with
            | some parent =>
              [Event.release (Handle.channel parent.callid)].count (Event.release h)
            | none => 0)
         | none => 0)) ∧
    (∀ channel, (∀ c, sccp_channel_retain channel = some c → c.parentChannel = none) →
      balanced (sccp_pbx_answer env channel).trace) ∧
    (∀ data, (∀ c, data = some c → c.dialedNumber.length ≤ 255) →
      balanced (sccp_pbx_sched_dial env glob data).trace) ∧
    (∀ v c, balanced (sccp_pbx_helper env glob v c).trace) ∧
    (∀ c0, (∀ c, c0 = some c → c.dialedNumber.length ≤ 255) →
      balanced (sccp_pbx_softswitch env glob c0).trace) ∧
    (∀ c conveyor,
      Event.threadpool_add_work conveyor ∈ (sccp_pbx_call env glob c).trace →
      ∃ ld, conveyor.linedevice = some ld ∧
        Event.retain (Handle.linedevice ld) ∈ (sccp_pbx_call env glob c).trace ∧
        ∀ (env2 : Env) (glob2 : sccp_global_vars),
          Event.null_dereference ∉
            sccp_pbx_call_autoanswer_thread env2 glob2 (some conveyor) →
          (sccp_pbx_call_autoanswer_thread env2 glob2 (some conveyor)).count
            (Event.release (Handle.linedevice ld)) = 1 ∧
          balanced (sccp_pbx_call_autoanswer_thread env2 glob2 (some conveyor))) := by
  refine ⟨sccp_pbx_call_balanced env glob, sccp_pbx_hangup_balanced env glob,
    fun channel h => sccp_pbx_answer_balanced env channel h, ?_,
    sccp_pbx_sched_dial_balanced env glob, sccp_pbx_helper_balanced env glob, ?_, ?_⟩
  · intro channel hnp h _
    have hb := sccp_pbx_answer_balanced env channel h
    cases hc : sccp_channel_retain channel with
    | none =>
      rw [hc] at hb
      simpa using hb
    | some c =>
      rw [hc] at hb
      simp only [hnp c hc] at hb
      simpa using hb
  · intro c0 hlen
    cases c0 with
    | none =>
      intro h _
      simp [sccp_pbx_softswitch]
    | some c => exact softswitch_balanced env glob c (hlen c rfl)
  · intro c conveyor hmem
    obtain ⟨l, _, ld, _, hconv, hret⟩ := sccp_pbx_call_job_mem env glob c conveyor hmem
    refine ⟨ld, by rw [hconv], hret, ?_⟩
    intro env2 glob2 hrun
    have hj := autoanswer_thread_balanced env2 glob2 conveyor ld (by rw [hconv]) hrun
    exact ⟨hj.1, hj.2.2⟩

/-- C21 at concrete inputs: the hangup of `ex_owned` retains and releases
the handle of line `100` once each and the handle of the owning device
`SEP-B` once each; the job that the call on `ex_chan_auto` schedules for
`ex_C` releases the handle of `ex_C` once. -/
theorem sccp_pbx_retain_release_balanced_witness :
    (sccp_pbx_hangup ex_env {} (some ex_owned)).trace.count
      (Event.release (Handle.line "100")) = 1 ∧
    (sccp_pbx_hangup ex_env {} (some ex_owned)).trace.count
      (Event.release (Handle.device "SEP-B")) = 1 ∧
    (∃ ld, ld = ex_C ∧
      (sccp_pbx_call_autoanswer_thread ex_env {}
        (some { callid := 1, linedevice := some ex_C })).count
        (Event.release (Handle.linedevice ld)) = 1) :=
  ⟨((sccp_pbx_retain_release_balanced ex_env {}).2.1 (some ex_owned) (by decide)
      (Handle.line "100") rfl).trans (by decide),
   ((sccp_pbx_retain_release_balanced ex_env {}).2.1 (some ex_owned) (by decide)
      (Handle.device "SEP-B") rfl).trans (by decide),
   (by
     obtain ⟨ld, hld, _, hjob⟩ :=
       (sccp_pbx_retain_release_balanced ex_env {}).2.2.2.2.2.2.2 ex_chan_auto
         { callid := 1, linedevice := some ex_C } (by decide)
     have hld2 : ex_C = ld := by
       simpa using hld
     exact ⟨ld, hld2.symm, (hjob ex_env {} (by decide)).1⟩)⟩

end SccpPbx
